import Mathlib

/-!
# Dinosure product module: pricing and policy transitions

A shallow embedding of the hooks in `src/code/02-quote-hook.js`,
`05-alteration-hooks.js`, `06-lifecycle-hooks.js` and
`07-scheduled-functions.js`, followed by theorems about them.

* JavaScript numbers are IEEE-754 binary64 values.  They are modelled by
  `JSNum`: a finite value is a rational, every arithmetic operation computes the
  exact rational result and rounds it to the nearest binary64 value (ties to
  even), overflowing to an infinity.  The sign of zero is not tracked.
* A `Date` is an integer of milliseconds; the calendar is the proleptic
  Gregorian one, local time a fixed offset from UTC.  The range limit of
  JavaScript dates is not modelled.
* A thrown `Error` is `Except.error` of its message.
* The libraries Joi and moment are not part of the sources; the functions that
  stand for them say so in their comments.
-/

namespace Dinosure

/-! ## JavaScript numbers -/

/-- Nearest integer to `t`, a tie going to the even neighbour. -/
def roundHalfEven (t : ℚ) : ℤ :=
  if t - ⌊t⌋ < 1 / 2 then ⌊t⌋
  else if 1 / 2 < t - ⌊t⌋ then ⌊t⌋ + 1
  else if ⌊t⌋ % 2 = 0 then ⌊t⌋ else ⌊t⌋ + 1

/-- Exponent of the unit in the last place of the binary64 values around `q`:
53 significant bits in the normal range, the fixed quantum `2 ^ (-1074)` in the
subnormal range. -/
def quantumExp (q : ℚ) : ℤ :=
  max (Int.log 2 |q| - 52) (-1074)

/-- Round-to-nearest-even of a rational to the binary64 grid, the exponent
range being unbounded above (overflow is handled by `JSNum.ofRat`). -/
def roundDouble (q : ℚ) : ℚ :=
  if q = 0 then 0 else (roundHalfEven (q / 2 ^ quantumExp q) : ℚ) * 2 ^ quantumExp q

/-- A JavaScript number. -/
inductive JSNum where
  | fin (q : ℚ)
  | pinf
  | ninf
  | nan
deriving DecidableEq

namespace JSNum

/-- Result of an operation whose exact value is `q`: rounded to binary64,
an infinity once the rounded magnitude reaches `2 ^ 1024`. -/
def ofRat (q : ℚ) : JSNum :=
  if 2 ^ 1024 ≤ roundDouble q then pinf
  else if roundDouble q ≤ -(2 ^ 1024) then ninf
  else fin (roundDouble q)

/-- The number denoted by an integer literal or an integer-valued expression. -/
def ofInt (z : ℤ) : JSNum := ofRat z

/-- JavaScript `a + b` on numbers. -/
def add : JSNum → JSNum → JSNum
  | fin a, fin b => ofRat (a + b)
  | fin _, pinf => pinf
  | fin _, ninf => ninf
  | pinf, fin _ => pinf
  | ninf, fin _ => ninf
  | pinf, pinf => pinf
  | ninf, ninf => ninf
  | _, _ => nan

/-- JavaScript unary minus. -/
def neg : JSNum → JSNum
  | fin a => fin (-a)
  | pinf => ninf
  | ninf => pinf
  | nan => nan

/-- JavaScript `a - b` on numbers. -/
def sub (a b : JSNum) : JSNum := add a (neg b)

/-- Sign of an infinite operand times a finite one. -/
def infTimes (positive : Bool) (b : ℚ) : JSNum :=
  if b = 0 then nan
  else if (0 < b) = (positive = true) then pinf else ninf

/-- JavaScript `a * b` on numbers. -/
def mul : JSNum → JSNum → JSNum
  | fin a, fin b => ofRat (a * b)
  | pinf, fin b => infTimes true b
  | ninf, fin b => infTimes false b
  | fin a, pinf => infTimes true a
  | fin a, ninf => infTimes false a
  | pinf, pinf => pinf
  | ninf, ninf => pinf
  | pinf, ninf => ninf
  | ninf, pinf => ninf
  | _, _ => nan

/-- JavaScript `a / b` on numbers (a zero divisor is taken as `+0`). -/
def div : JSNum → JSNum → JSNum
  | fin a, fin b =>
      if b = 0 then (if a = 0 then nan else if 0 < a then pinf else ninf)
      else ofRat (a / b)
  | fin _, pinf => fin 0
  | fin _, ninf => fin 0
  | pinf, fin b => if 0 ≤ b then pinf else ninf
  | ninf, fin b => if 0 ≤ b then ninf else pinf
  | _, _ => nan

/-- JavaScript `Math.round`: nearest integer, a tie going towards `+∞`. -/
def mathRound : JSNum → JSNum
  | fin a => fin (⌊a + 1 / 2⌋ : ℤ)
  | x => x

/-- JavaScript `a <= b` on numbers. -/
def le : JSNum → JSNum → Prop
  | fin a, fin b => a ≤ b
  | fin _, pinf => True
  | ninf, fin _ => True
  | ninf, ninf => True
  | ninf, pinf => True
  | pinf, pinf => True
  | _, _ => False

instance : (a b : JSNum) → Decidable (le a b)
  | fin a, fin b => inferInstanceAs (Decidable (a ≤ b))
  | fin _, pinf => isTrue trivial
  | fin _, ninf => isFalse id
  | fin _, nan => isFalse id
  | ninf, fin _ => isTrue trivial
  | ninf, ninf => isTrue trivial
  | ninf, pinf => isTrue trivial
  | ninf, nan => isFalse id
  | pinf, pinf => isTrue trivial
  | pinf, fin _ => isFalse id
  | pinf, ninf => isFalse id
  | pinf, nan => isFalse id
  | nan, _ => isFalse id

/-- Numeric value of a property read: a missing property is `undefined`,
which arithmetic converts to `NaN`. -/
def ofLookup : Option JSNum → JSNum
  | some x => x
  | none => nan

end JSNum

/-- Values of the binary64 grid (exponent range unbounded above). -/
def IsDouble (w : ℚ) : Prop :=
  ∃ m t : ℤ, |m| ≤ 2 ^ 53 ∧ -1074 ≤ t ∧ w = (m : ℚ) * 2 ^ t

/-! ## Dates

A `Date` is its number of milliseconds since the epoch.  Local time is UTC
shifted by a fixed offset carried by the environment. -/

/-- Value of a JavaScript `Date`: milliseconds since 1970-01-01T00:00:00Z. -/
abbrev JSDate := ℤ

/-- What a hook reads from its surroundings: the instant returned by
`new Date()` and the offset of local time from UTC, in milliseconds.  The clock
is not before the epoch and the offset is at most a day. -/
structure Env where
  now : JSDate
  tzOffset : ℤ
  now_nonneg : 0 ≤ now
  tz_bound : -86400000 ≤ tzOffset ∧ tzOffset ≤ 86400000
deriving DecidableEq

/-- Milliseconds in a day. -/
def msPerDay : ℤ := 86400000

/-- Proleptic Gregorian date `(year, month 1..12, day)` of a day number
counted from 1970-01-01. -/
def civilFromDays (days : ℤ) : ℤ × ℤ × ℤ :=
  let z := days + 719468
  let era := z / 146097
  let doe := z % 146097
  let yoe := (doe - doe / 1460 + doe / 36524 - doe / 146096) / 365
  let doy := doe - (365 * yoe + yoe / 4 - yoe / 100)
  let mp := (5 * doy + 2) / 153
  let d := doy - (153 * mp + 2) / 5 + 1
  let m := if mp < 10 then mp + 3 else mp - 9
  (yoe + era * 400 + (if m ≤ 2 then 1 else 0), m, d)

/-- Day number, counted from 1970-01-01, of a proleptic Gregorian date. -/
def daysFromCivil (y m d : ℤ) : ℤ :=
  let y1 := if m ≤ 2 then y - 1 else y
  let era := y1 / 400
  let yoe := y1 % 400
  let mp := if 2 < m then m - 3 else m + 9
  let doy := (153 * mp + 2) / 5 + d - 1
  let doe := yoe * 365 + yoe / 4 - yoe / 100 + doy
  era * 146097 + doe - 719468

/-- Local calendar date of an instant. -/
def localCivil (env : Env) (t : JSDate) : ℤ × ℤ × ℤ :=
  civilFromDays ((t + env.tzOffset) / msPerDay)

/-- JavaScript `Date.prototype.getFullYear`. -/
def getFullYear (env : Env) (t : JSDate) : ℤ := (localCivil env t).1

/-- JavaScript `new Date(year, monthIndex, day)`: local midnight of that
calendar day, a year from 0 to 99 standing for 1900 to 1999 (for a month index
from 0 to 11 and a day of that month). -/
def newDate (env : Env) (year monthIndex day : ℤ) : JSDate :=
  let fullYear := if 0 ≤ year ∧ year ≤ 99 then 1900 + year else year
  daysFromCivil fullYear (monthIndex + 1) day * msPerDay - env.tzOffset

/-- Decimal digits of a natural number, left-padded with zeros to `width`. -/
def padDigits (width : ℕ) (n : ℕ) : String :=
  String.mk (List.replicate (width - (Nat.repr n).length) (Char.ofNat 48)) ++ Nat.repr n

/-- JavaScript `Date.prototype.toISOString` (`YYYY-MM-DDTHH:mm:ss.sssZ`, always
UTC; years outside 0..9999 take a sign and six digits). -/
def toISOString (t : JSDate) : String :=
  let c := civilFromDays (t / msPerDay)
  let r := t % msPerDay
  let year :=
    if 0 ≤ c.1 ∧ c.1 ≤ 9999 then padDigits 4 c.1.toNat
    else if c.1 < 0 then "-" ++ padDigits 6 (-c.1).toNat
    else "+" ++ padDigits 6 c.1.toNat
  year ++ "-" ++ padDigits 2 c.2.1.toNat ++ "-" ++ padDigits 2 c.2.2.toNat ++ "T"
    ++ padDigits 2 (r / 3600000).toNat ++ ":" ++ padDigits 2 (r / 60000 % 60).toNat ++ ":"
    ++ padDigits 2 (r / 1000 % 60).toNat ++ "." ++ padDigits 3 (r % 1000).toNat ++ "Z"

/-! ## Data model -/

/-- A JavaScript value as it occurs in request bodies and untyped module
fields.  Objects, arrays and functions are kept as a tag. -/
inductive JSValue where
  | undefined
  | null
  | bool (b : Bool)
  | num (x : JSNum)
  | str (s : String)
  | date (ms : JSDate)
  | object (tag : String)
deriving DecidableEq

/-- The `premium_breakdown` object stored in a module. -/
structure PremiumBreakdown where
  core_premium : JSNum
  species_adjustment : JSNum
  total_premium : JSNum
deriving DecidableEq

/-- The `module` object of a quote package, application or policy.  A field
that is `none` is absent (`undefined` when read).  `other` holds the keys that
the hooks below never name. -/
structure Module where
  start_date : Option JSDate := none
  cover_amount : Option JSNum := none
  birth_date : Option JSDate := none
  species : Option String := none
  health_checks_updated : Option Bool := none
  age : Option JSNum := none
  premium_breakdown : Option PremiumBreakdown := none
  old_cover_amount : Option JSNum := none
  old_premium : Option JSNum := none
  reactivation_date : Option String := none
  extraction_has_been_claimed : Option Bool := none
  fence_repair_has_been_claimed : Option Bool := none
  anniversary_increase_applied : Option String := none
  previous_cover_amount : Option JSNum := none
  previous_premium : Option JSNum := none
  other : List (String × JSValue) := []
deriving DecidableEq

/-- The validated quote request handed to `getQuote`. -/
structure QuoteRequest where
  start_date : JSDate
  cover_amount : JSNum
  birth_date : JSDate
  species : String
  health_checks_updated : Bool
deriving DecidableEq

/-- The platform's `QuotePackage`. -/
structure QuotePackage where
  package_name : String
  sum_assured : JSNum
  base_premium : JSNum
  suggested_premium : JSNum
  billing_frequency : String
  module : Module
  input_data : QuoteRequest
deriving DecidableEq

/-- The platform's policy record, as far as the hooks read it.  An `end_date`
of `none` is `null`. -/
structure Policy where
  package_name : String
  sum_assured : JSNum
  base_premium : JSNum
  monthly_premium : JSNum
  start_date : JSDate
  end_date : Option JSDate
  status : String
  charges : List JSValue
  module : Module
deriving DecidableEq

/-- The policyholder record; no hook reads it. -/
structure Policyholder where
  policyholder_id : String
deriving DecidableEq

/-- The body of an alteration request. -/
structure AlterationParams where
  cover_amount : JSNum
deriving DecidableEq

/-- A piece of a template literal: literal text or an interpolated number. -/
inductive Piece where
  | text (s : String)
  | num (x : JSNum)
deriving DecidableEq

/-- The platform's `AlterationPackage`. -/
structure AlterationPackage where
  sum_assured : JSNum
  monthly_premium : JSNum
  change_description : List Piece
  billing_frequency : String
  module : Module
  input_data : AlterationParams
deriving DecidableEq

/-- A `moment` object: a valid instant or an invalid moment. -/
inductive Moment where
  | valid (ms : JSDate)
  | invalid
deriving DecidableEq

/-- The call `moment(x)` on a nullable date: `moment(null)` is invalid. -/
def moment : Option JSDate → Moment
  | some t => Moment.valid t
  | none => Moment.invalid

/-- The date a `moment` object stands for; an invalid moment stands for none
(its `toJSON` is `null`). -/
def Moment.toDate : Moment → Option JSDate
  | Moment.valid t => some t
  | Moment.invalid => none

/-- The platform's `AlteredPolicy`. -/
structure AlteredPolicy where
  package_name : String
  sum_assured : JSNum
  base_premium : JSNum
  monthly_premium : JSNum
  end_date : Moment
  start_date : Moment
  charges : List JSValue
  module : Module
deriving DecidableEq

/-- Payload of a `ProductModuleAction`. -/
structure ActionData where
  module : Module
deriving DecidableEq

/-- An action returned to the platform. -/
structure ProductModuleAction where
  name : String
  data : ActionData
deriving DecidableEq

/-! ## Request validation

The hooks validate request bodies with the Joi library, which is not part of
the sources. -/

/-- A request body: a JavaScript object as the list of its own properties. -/
abbrev Payload := List (String × JSValue)

/-- Property read: an absent key reads as `undefined`. -/
def Payload.get (p : Payload) (key : String) : JSValue :=
  (p.lookup key).getD JSValue.undefined

/-- One entry of `error.details`: the key and the violated rule. -/
structure ErrorDetail where
  path : String
  type : String
deriving DecidableEq

/-- The result of `Joi.validate`; an `error` of `none` is `null`. -/
structure ValidationResult where
  error : Option (List ErrorDetail)
  value : Payload
deriving DecidableEq

/-- The key schemas the hooks build, each one `required()`:
`Joi.date().min(a).max(b)`, `Joi.number().integer().min(a).max(b)`,
`Joi.valid([...])` and `Joi.boolean()`. -/
inductive KeySchema where
  | date (min max : JSDate)
  | integer (min max : JSNum)
  | valid (allowed : List JSValue)
  | bool
deriving DecidableEq

/-- JavaScript `Number.isSafeInteger`, the test behind Joi's `integer()`: an
integer of absolute value at most `2 ^ 53 - 1`. -/
def JSNum.isSafeInteger : JSNum → Bool
  | JSNum.fin q => decide (q.den = 1) && decide (|q.num| ≤ 2 ^ 53 - 1)
  | _ => false

/-- The values Joi converts before it tests the rules of a key schema.  The
hooks pass only `abortEarly: false`, so the `convert` option keeps its default
and Joi first turns a string or a number under `Joi.date()` into a date, and a
string under `Joi.number()` or `Joi.boolean()` into a number or a boolean.
What a string converts to (`Date` parsing, `parseFloat`) is not modelled. -/
def KeySchema.converts : KeySchema → JSValue → Bool
  | KeySchema.date _ _, JSValue.str _ => true
  | KeySchema.date _ _, JSValue.num _ => true
  | KeySchema.integer _ _, JSValue.str _ => true
  | KeySchema.bool, JSValue.str _ => true
  | _, _ => false

/-- A request body of typed values: under no key of the schema does it carry a
value that Joi would convert first. -/
def Payload.typed (data : Payload) (schema : List (String × KeySchema)) : Prop :=
  ∀ ks ∈ schema, ks.2.converts (data.get ks.1) = false

/-- Modelled from the spec: the rules a value violates under a key schema
("required date, must be at least ... and at most ...", "required integer in
[...]", "required, one of the fixed enum", "required boolean").  A missing
value violates `required`; a value of another JavaScript type than the one
named violates the type rule; every rule of a present, well-typed value is
tested.  On a value of `KeySchema.converts` this is the type violation Joi
reports without conversion, not the outcome of the hooks, which convert the
value first: statements about acceptance are made for `Payload.typed` request
bodies. -/
def KeySchema.violations : KeySchema → JSValue → List String
  | _, JSValue.undefined => ["any.required"]
  | KeySchema.date mn mx, JSValue.date t =>
      (if t < mn then ["date.min"] else []) ++ (if mx < t then ["date.max"] else [])
  | KeySchema.date _ _, _ => ["date.base"]
  | KeySchema.integer _ _, JSValue.num JSNum.nan => ["number.base"]
  | KeySchema.integer mn mx, JSValue.num x =>
      (if x.isSafeInteger then [] else ["number.integer"])
        ++ (if JSNum.le mn x then [] else ["number.min"])
        ++ (if JSNum.le x mx then [] else ["number.max"])
  | KeySchema.integer _ _, _ => ["number.base"]
  | KeySchema.valid allowed, v => if v ∈ allowed then [] else ["any.allowOnly"]
  | KeySchema.bool, JSValue.bool _ => []
  | KeySchema.bool, _ => ["boolean.base"]

/-- Modelled from the spec: `Joi.validate(value, Joi.object().keys(...), options)`
on an object.  The keys of the schema are checked in order, then every key
outside the schema is reported; with `abortEarly` only the first violation is
kept, without it all are collected.  The error is returned, never thrown. -/
def joiValidate (value : Payload) (keys : List (String × KeySchema)) (abortEarly : Bool) :
    ValidationResult :=
  let keyErrors : List ErrorDetail :=
    keys.flatMap fun ks => (ks.2.violations (value.get ks.1)).map fun t => { path := ks.1, type := t }
  let unknown : List ErrorDetail :=
    (value.filter fun kv => kv.1 ∉ keys.map Prod.fst).map
      fun kv => { path := kv.1, type := "object.allowUnknown" }
  let details := if abortEarly then (keyErrors ++ unknown).take 1 else keyErrors ++ unknown
  { error := if details = [] then none else some details
    value := value }

/-! ## Quote hook (`02-quote-hook.js`) -/

/-- The schema `Joi.object().keys({...})` built by `validateQuoteRequest`.
Instants are integers of milliseconds, so `60 * 24 * 60 * 60 * 1000` is added
exactly. -/
def validateQuoteRequest.schema (env : Env) : List (String × KeySchema) :=
  let currentDate := env.now
  let maxStartDate := currentDate + 60 * 24 * 60 * 60 * 1000
  let minBirthYear := getFullYear env currentDate - 50
  [("start_date", KeySchema.date currentDate maxStartDate),
   ("cover_amount", KeySchema.integer
      (JSNum.mul (JSNum.ofInt 10000) (JSNum.ofInt 100))
      (JSNum.mul (JSNum.ofInt 100000) (JSNum.ofInt 100))),
   ("birth_date", KeySchema.date (newDate env minBirthYear 0 1) currentDate),
   ("species", KeySchema.valid
      [JSValue.str "Tyrannosaurus Rex", JSValue.str "Stegosaurus",
       JSValue.str "Velociraptor", JSValue.str "Brachiosaurus", JSValue.str "Iguanodon"]),
   ("health_checks_updated", KeySchema.bool)]

/-- The hook `validateQuoteRequest`. -/
def validateQuoteRequest (env : Env) (data : Payload) : ValidationResult :=
  joiValidate data (validateQuoteRequest.schema env) false

/-- The request body whose five fields are those of a quote request: the object
`validateQuoteRequest` is handed before `getQuote` receives its value. -/
def QuoteRequest.toPayload (data : QuoteRequest) : Payload :=
  [("start_date", JSValue.date data.start_date),
   ("cover_amount", JSValue.num data.cover_amount),
   ("birth_date", JSValue.date data.birth_date),
   ("species", JSValue.str data.species),
   ("health_checks_updated", JSValue.bool data.health_checks_updated)]

/-- The object literal `speciesMultipliers` of `getQuote`; a key outside the
table reads as `undefined`. -/
def getQuote.speciesMultipliers (species : String) : Option JSNum :=
  if species = "Tyrannosaurus Rex" then some (JSNum.ofRat (81 / 100))
  else if species = "Stegosaurus" then some (JSNum.ofRat (119 / 100))
  else if species = "Velociraptor" then some (JSNum.ofRat (76 / 100))
  else if species = "Brachiosaurus" then some (JSNum.ofRat (132 / 100))
  else if species = "Iguanodon" then some (JSNum.ofRat (107 / 100))
  else none

/-- The hook `getQuote`.  Both years are integers, so their difference is
computed exactly and converted once. -/
def getQuote (env : Env) (data : QuoteRequest) : List QuotePackage :=
  let currentYear := getFullYear env env.now
  let birthYear := getFullYear env data.birth_date
  let age := JSNum.ofInt (currentYear - birthYear)
  let corePremium := JSNum.mul (JSNum.div data.cover_amount (JSNum.ofInt 10000)) age
  let adjustedPremium :=
    JSNum.mul corePremium (JSNum.ofLookup (getQuote.speciesMultipliers data.species))
  let adjustedPremium :=
    if !data.health_checks_updated then JSNum.add adjustedPremium (JSNum.ofInt 25000)
    else adjustedPremium
  let totalPremium := JSNum.mathRound adjustedPremium
  [{ package_name := "Dinosure Protection"
     sum_assured := data.cover_amount
     base_premium := totalPremium
     suggested_premium := totalPremium
     billing_frequency := "monthly"
     module :=
      { start_date := some data.start_date
        cover_amount := some data.cover_amount
        birth_date := some data.birth_date
        species := some data.species
        health_checks_updated := some data.health_checks_updated
        age := some age
        premium_breakdown := some
          { core_premium := JSNum.mathRound corePremium
            species_adjustment :=
              JSNum.sub
                (JSNum.mathRound (JSNum.mul corePremium
                  (JSNum.ofLookup (getQuote.speciesMultipliers data.species))))
                (JSNum.mathRound corePremium)
            total_premium := totalPremium } }
     input_data := data }]

/-! ## Alteration hooks (`05-alteration-hooks.js`) -/

/-- The object literal `speciesMultipliers` of `getAlteration`; the key read
is `policy.module.species`, an absent one being the key `undefined`. -/
def getAlteration.speciesMultipliers (species : Option String) : Option JSNum :=
  if species = some "Tyrannosaurus Rex" then some (JSNum.ofRat (81 / 100))
  else if species = some "Stegosaurus" then some (JSNum.ofRat (119 / 100))
  else if species = some "Velociraptor" then some (JSNum.ofRat (76 / 100))
  else if species = some "Brachiosaurus" then some (JSNum.ofRat (132 / 100))
  else if species = some "Iguanodon" then some (JSNum.ofRat (107 / 100))
  else none

/-- JavaScript truthiness of an optional boolean field. -/
def truthy : Option Bool → Bool
  | some b => b
  | none => false

/-- Message of the error thrown for an unsupported alteration hook key. -/
def invalidHookKey (alteration_hook_key : String) : String :=
  "Invalid alteration hook key \"" ++ alteration_hook_key ++ "\""

/-- The schema `Joi.object().keys({...})` built by
`validateAlterationPackageRequest` for `update_cover`. -/
def validateAlterationPackageRequest.schema : List (String × KeySchema) :=
  [("cover_amount", KeySchema.integer
      (JSNum.mul (JSNum.ofInt 10000) (JSNum.ofInt 100))
      (JSNum.mul (JSNum.ofInt 100000) (JSNum.ofInt 100)))]

/-- The hook `validateAlterationPackageRequest`; a thrown `Error` is
`Except.error` of its message. -/
def validateAlterationPackageRequest (alteration_hook_key : String) (_policy : Policy)
    (params : Payload) : Except String ValidationResult :=
  if alteration_hook_key = "update_cover" then
    Except.ok (joiValidate params validateAlterationPackageRequest.schema false)
  else
    Except.error (invalidHookKey alteration_hook_key)

/-- The hook `getAlteration`; a thrown `Error` is `Except.error` of its message. -/
def getAlteration (alteration_hook_key : String) (policy : Policy)
    (_policyholder : Policyholder) (params : AlterationParams) :
    Except String AlterationPackage :=
  if alteration_hook_key = "update_cover" then
    let newCoverAmount := params.cover_amount
    let age := JSNum.ofLookup policy.module.age
    let corePremium := JSNum.mul (JSNum.div newCoverAmount (JSNum.ofInt 10000)) age
    let adjustedPremium :=
      JSNum.mul corePremium
        (JSNum.ofLookup (getAlteration.speciesMultipliers policy.module.species))
    let adjustedPremium :=
      if !truthy policy.module.health_checks_updated then
        JSNum.add adjustedPremium (JSNum.ofInt 25000)
      else adjustedPremium
    let newPremium := JSNum.mathRound adjustedPremium
    Except.ok
      { sum_assured := newCoverAmount
        monthly_premium := newPremium
        change_description :=
          [Piece.text "Cover amount updated from R",
           Piece.num (JSNum.div policy.sum_assured (JSNum.ofInt 100)),
           Piece.text " to R",
           Piece.num (JSNum.div newCoverAmount (JSNum.ofInt 100))]
        billing_frequency := "monthly"
        module :=
          { policy.module with
            cover_amount := some newCoverAmount
            old_cover_amount := some policy.sum_assured
            old_premium := some policy.monthly_premium }
        input_data := params }
  else
    Except.error (invalidHookKey alteration_hook_key)

/-- The hook `applyAlteration`. -/
def applyAlteration (alteration_hook_key : String) (policy : Policy)
    (_policyholder : Policyholder) (alteration_package : AlterationPackage) :
    Except String AlteredPolicy :=
  if alteration_hook_key = "update_cover" then
    Except.ok
      { package_name := policy.package_name
        sum_assured := alteration_package.sum_assured
        base_premium := alteration_package.monthly_premium
        monthly_premium := alteration_package.monthly_premium
        end_date := moment policy.end_date
        start_date := moment (some policy.start_date)
        charges := policy.charges
        module := alteration_package.module }
  else
    Except.error (invalidHookKey alteration_hook_key)

/-! ## Lifecycle hooks (`06-lifecycle-hooks.js`) -/

/-- The hook `beforePolicyReactivated`. -/
def beforePolicyReactivated (env : Env) (policy : Policy) (_policyholder : Policyholder) :
    Except String (List ProductModuleAction) :=
  if policy.status = "cancelled" ∨ policy.status = "lapsed" then
    Except.ok
      [{ name := "update_policy"
         data := { module := { policy.module with
                               reactivation_date := some (toISOString env.now) } } }]
  else
    Except.error ("Policy with status \"" ++ policy.status
      ++ "\" cannot be reactivated. Only cancelled or lapsed policies can be reactivated.")

/-- JavaScript truthiness of a value. -/
def JSValue.truthy : JSValue → Bool
  | JSValue.undefined => false
  | JSValue.null => false
  | JSValue.bool b => b
  | JSValue.num (JSNum.fin q) => decide (q ≠ 0)
  | JSValue.num JSNum.nan => false
  | JSValue.num _ => true
  | JSValue.str s => decide (s ≠ "")
  | JSValue.date _ => true
  | JSValue.object _ => true

/-- A claim sub-block, as far as the hook reads it. -/
structure ClaimBlock where
  fulfillment_request_id : JSValue
deriving DecidableEq

/-- The `block_states` of a claim: the two sub-blocks the hook names. -/
structure BlockStates where
  extraction_fulfillment_request : ClaimBlock
  fence_repair_fulfillment_request : ClaimBlock
deriving DecidableEq

/-- The platform's claim record, holding both sub-blocks. -/
structure Claim where
  block_states : BlockStates
deriving DecidableEq

/-- The hook `afterClaimBlockUpdated`; falling off the end of the function
returns `undefined`, which is `none`. -/
def afterClaimBlockUpdated (claim : Claim) (policy : Policy) (_policyholder : Policyholder) :
    Option (List ProductModuleAction) :=
  if (claim.block_states.extraction_fulfillment_request.fulfillment_request_id.truthy
      && !truthy policy.module.extraction_has_been_claimed) = true then
    some
      [{ name := "update_policy"
         data := { module := { policy.module with extraction_has_been_claimed := some true } } }]
  else if (claim.block_states.fence_repair_fulfillment_request.fulfillment_request_id.truthy
      && !truthy policy.module.fence_repair_has_been_claimed) = true then
    some
      [{ name := "update_policy"
         data := { module := { policy.module with fence_repair_has_been_claimed := some true } } }]
  else none

/-- One round of claim processing: the hook is invoked and, when it emits an
action, the platform replaces `policy.module` by the module of that action. -/
def claimRound (claim : Claim) (policyholder : Policyholder) (policy : Policy) : Policy :=
  match afterClaimBlockUpdated claim policy policyholder with
  | some (action :: _) => { policy with module := action.data.module }
  | _ => policy

/-- The policy after `n` rounds of claim processing. -/
def claimRounds (claim : Claim) (policyholder : Policyholder) : ℕ → Policy → Policy
  | 0, policy => policy
  | n + 1, policy => claimRounds claim policyholder n (claimRound claim policyholder policy)

/-- The number of actions emitted during the first `n` rounds. -/
def actionsEmitted (claim : Claim) (policyholder : Policyholder) : ℕ → Policy → ℕ
  | 0, _ => 0
  | n + 1, policy =>
      (match afterClaimBlockUpdated claim policy policyholder with
        | some actions => actions.length
        | none => 0)
      + actionsEmitted claim policyholder n (claimRound claim policyholder policy)

/-! ## Scheduled functions (`07-scheduled-functions.js`)

The `moment` library is not part of the sources. -/

/-- Length of a month of the proleptic Gregorian calendar. -/
def daysInMonth (y m : ℤ) : ℤ :=
  daysFromCivil (if m = 12 then y + 1 else y) (if m = 12 then 1 else m + 1) 1
    - daysFromCivil y m 1

/-- Modelled from the spec: `moment(t).add(n, 'months')`, calendar arithmetic
in local time: the month is shifted, the day of the month is kept unless the
target month is shorter, the time of day is kept. -/
def addMonths (env : Env) (t : JSDate) (n : ℤ) : JSDate :=
  let c := localCivil env t
  let total := c.1 * 12 + (c.2.1 - 1) + n
  let y := total / 12
  let m := total % 12 + 1
  let d := min c.2.2 (daysInMonth y m)
  daysFromCivil y m d * msPerDay + (t + env.tzOffset) % msPerDay - env.tzOffset

/-- JavaScript `x || 0` on a number. -/
def JSNum.orZero : JSNum → JSNum
  | JSNum.nan => JSNum.fin 0
  | x => x

/-- Modelled from the spec: the month difference `moment` computes between two
instants whose days of the month are in order: whole calendar months, plus the
remainder as a fraction of the month it falls in. -/
def monthDiffCore (env : Env) (a b : JSDate) : JSNum :=
  let ca := localCivil env a
  let cb := localCivil env b
  let wholeMonthDiff := (cb.1 - ca.1) * 12 + (cb.2.1 - ca.2.1)
  let anchor := addMonths env a wholeMonthDiff
  let adjust :=
    if b - anchor < 0 then
      JSNum.div (JSNum.ofInt (b - anchor))
        (JSNum.ofInt (anchor - addMonths env a (wholeMonthDiff - 1)))
    else
      JSNum.div (JSNum.ofInt (b - anchor))
        (JSNum.ofInt (addMonths env a (wholeMonthDiff + 1) - anchor))
  JSNum.orZero (JSNum.neg (JSNum.add (JSNum.ofInt wholeMonthDiff) adjust))

/-- Modelled from the spec: `monthDiff(a, b)` of `moment`. -/
def monthDiff (env : Env) (a b : JSDate) : JSNum :=
  if (localCivil env a).2.2 < (localCivil env b).2.2 then
    JSNum.neg (monthDiffCore env b a)
  else monthDiffCore env a b

/-- Modelled from the spec: `moment(a).diff(moment(b), 'years', true)`, the
elapsed real-valued years from `b` to `a`: a twelfth of the month difference. -/
def diffYears (env : Env) (a b : JSDate) : JSNum :=
  JSNum.div (monthDiff env a b) (JSNum.ofInt 12)

/-- The scheduled function `anniversary_cover_increase`. -/
def anniversary_cover_increase (env : Env) (policy : Policy) (_policyholder : Policyholder)
    (effective_date : JSDate) : List ProductModuleAction :=
  let yearsSinceStart := diffYears env effective_date policy.start_date
  if JSNum.le (JSNum.ofInt 1) yearsSinceStart then
    let newCoverAmount := JSNum.add policy.sum_assured (JSNum.ofInt 1000000)
    [{ name := "update_policy"
       data := { module := { policy.module with
                             cover_amount := some newCoverAmount
                             anniversary_increase_applied := some (toISOString effective_date)
                             previous_cover_amount := some policy.sum_assured
                             previous_premium := some policy.monthly_premium } } }]
  else []

/-- The text `sub` occurs in `msg`. -/
def containsText (msg sub : String) : Prop := sub.data <:+: msg.data

/-! ## The premium as the specification states it -/

/-- The multiplier table of the specification, in exact rationals. -/
def specMultiplier (species : String) : Option ℚ :=
  if species = "Tyrannosaurus Rex" then some (81 / 100)
  else if species = "Stegosaurus" then some (119 / 100)
  else if species = "Velociraptor" then some (76 / 100)
  else if species = "Brachiosaurus" then some (132 / 100)
  else if species = "Iguanodon" then some (107 / 100)
  else none

/-- The premium of the specification: `(cover / 10000) * age * multiplier`,
plus 25000 when health checks are not up to date, in exact rational
arithmetic, rounded half up once at the end. -/
def specPremium (cover age multiplier : ℚ) (health_checks_updated : Bool) : ℤ :=
  ⌊cover / 10000 * age * multiplier + (if health_checks_updated then 0 else 25000) + 1 / 2⌋

/-! ## Validation as the specification states it -/

/-- Local midnight of 1 January of a year. -/
def januaryFirst (env : Env) (year : ℤ) : JSDate :=
  daysFromCivil year 1 1 * msPerDay - env.tzOffset

/-- The acceptance condition of the specification for the five quote fields. -/
def QuoteFieldsValid (env : Env) (data : Payload) : Prop :=
  (∃ t : JSDate, data.get "start_date" = JSValue.date t ∧ env.now ≤ t ∧
    t ≤ env.now + 60 * msPerDay) ∧
  (∃ n : ℤ, data.get "cover_amount" = JSValue.num (JSNum.fin n) ∧ 1000000 ≤ n ∧
    n ≤ 10000000) ∧
  (∃ t : JSDate, data.get "birth_date" = JSValue.date t ∧
    januaryFirst env (getFullYear env env.now - 50) ≤ t ∧ t ≤ env.now) ∧
  (∃ s : String, data.get "species" = JSValue.str s ∧
    s ∈ ["Tyrannosaurus Rex", "Stegosaurus", "Velociraptor", "Brachiosaurus", "Iguanodon"]) ∧
  (∃ b : Bool, data.get "health_checks_updated" = JSValue.bool b)

/-- The fields of a request body that violate a rule of their key schema. -/
def violatedFields (schema : List (String × KeySchema)) (data : Payload) : List String :=
  (schema.filter fun ks => ks.2.violations (data.get ks.1) ≠ []).map Prod.fst

/-- The entries of a validation result (none when the error is `null`). -/
def ValidationResult.details (r : ValidationResult) : List ErrorDetail :=
  r.error.getD []

/-! ## Auxiliary definitions of the proofs -/

/-- The binary64 value of `(cover / 10000) * age` on finite operands. -/
def priceCore (cover age : ℚ) : ℚ :=
  roundDouble (roundDouble (cover / 10000) * age)

/-- The binary64 value of `corePremium * multiplier` on finite operands. -/
def priceAdjusted (cover age mult : ℚ) : ℚ :=
  roundDouble (priceCore cover age * mult)

/-- The binary64 value of `adjustedPremium + 25000` on finite operands. -/
def priceSurcharged (cover age mult : ℚ) : ℚ :=
  roundDouble (priceAdjusted cover age mult + 25000)

/-- What the proofs need of a multiplier literal `mi / 100` and its binary64
value `M`. -/
def MultiplierFacts (mi : ℕ) (M : ℚ) : Prop :=
  JSNum.ofRat ((mi : ℚ) / 100) = JSNum.fin M ∧ mi ≤ 150 ∧ ¬ 5 ∣ mi ∧ 1 / 2 ≤ M ∧ M ≤ 3 / 2 ∧
  |M - (mi : ℚ) / 100| ≤ 3 / 2 * 2 ^ (-53 : ℤ) ∧
  ((mi : ℚ) / 100 ≤ M ∨ ((mi : ℚ) / 100 - M) * 2 ^ 54 ≤ M)

/-- The number of guards of `afterClaimBlockUpdated` that hold: sub-blocks with
a fulfillment request whose module flag is not set. -/
def pendingFlags (claim : Claim) (policy : Policy) : ℕ :=
  (if claim.block_states.extraction_fulfillment_request.fulfillment_request_id.truthy = true ∧
      truthy policy.module.extraction_has_been_claimed = false then 1 else 0)
  + (if claim.block_states.fence_repair_fulfillment_request.fulfillment_request_id.truthy = true ∧
      truthy policy.module.fence_repair_has_been_claimed = false then 1 else 0)

/-- A non-negative number, possibly `+∞`. -/
def JSNum.NonNeg (x : JSNum) : Prop :=
  x = JSNum.pinf ∨ ∃ r : ℚ, 0 ≤ r ∧ x = JSNum.fin r

/-- A magnitude up to which a rounded result is finite: `2 ^ 1023`. -/
@[irreducible]
def finiteBound : ℚ := 2 ^ 1023

/-! ## Sample inputs -/

/-- An environment: the instant 2025-01-01T00:00:00Z, local time UTC. -/
def sampleEnv : Env :=
  { now := 1735689600000
    tzOffset := 0
    now_nonneg := by decide
    tz_bound := by decide }

/-- The request of the unit test for a 16-year-old Brachiosaurus with
R65,000.00 cover (birth date 2009-01-01). -/
def sampleRequest : QuoteRequest :=
  { start_date := 1738281600000
    cover_amount := JSNum.fin 6500000
    birth_date := 1230768000000
    species := "Brachiosaurus"
    health_checks_updated := true }

/-- The Brachiosaurus of `sampleRequest` four years older (birth date
2005-01-01) and with cover 7,500,000. -/
def sampleRequestLarger : QuoteRequest :=
  { sampleRequest with cover_amount := JSNum.fin 7500000, birth_date := 1104537600000 }

/-- A request outside the validated range: a Stegosaurus born 1900-01-01
(age 125 in 2025) with cover 1,292,000. -/
def oldStegosaurus : QuoteRequest :=
  { start_date := 1738281600000
    cover_amount := JSNum.fin 1292000
    birth_date := -2208988800000
    species := "Stegosaurus"
    health_checks_updated := true }

/-- A quote request matching `samplePolicy` with the altered cover amount
(birth date 2005-01-01). -/
def sampleTRexRequest : QuoteRequest :=
  { start_date := 1738281600000
    cover_amount := JSNum.fin 7500000
    birth_date := 1104537600000
    species := "Tyrannosaurus Rex"
    health_checks_updated := true }

/-- The policy of the alteration unit tests: a 20-year-old Tyrannosaurus Rex
with cover 9,000,000, started 2023-01-01. -/
def samplePolicy : Policy :=
  { package_name := "DinoSure"
    sum_assured := JSNum.fin 9000000
    base_premium := JSNum.fin 14580
    monthly_premium := JSNum.fin 14580
    start_date := 1672531200000
    end_date := none
    status := "active"
    charges := []
    module :=
      { age := some (JSNum.fin 20)
        species := some "Tyrannosaurus Rex"
        health_checks_updated := some true
        cover_amount := some (JSNum.fin 9000000) } }

/-- A policyholder. -/
def samplePolicyholder : Policyholder := { policyholder_id := "policyholder" }

/-- The alteration request of the unit tests: new cover 7,500,000. -/
def sampleParams : AlterationParams := { cover_amount := JSNum.fin 7500000 }

/-- The alteration package of the `applyAlteration` unit test. -/
def sampleAlterationPackage : AlterationPackage :=
  { sum_assured := JSNum.fin 7500000
    monthly_premium := JSNum.fin 22312
    change_description := [Piece.text "Cover amount updated"]
    billing_frequency := "monthly"
    module :=
      { age := some (JSNum.fin 25)
        species := some "Stegosaurus"
        health_checks_updated := some true
        cover_amount := some (JSNum.fin 7500000)
        old_cover_amount := some (JSNum.fin 5000000)
        old_premium := some (JSNum.fin 13375) }
    input_data := { cover_amount := JSNum.fin 7500000 } }

/-- The policy of the scheduled-function unit tests, started at `start_date`:
a 25-year-old Stegosaurus with cover 5,000,000 and premium 13375. -/
def anniversaryPolicy (start_date : JSDate) : Policy :=
  { package_name := "DinoSure"
    sum_assured := JSNum.fin 5000000
    base_premium := JSNum.fin 13375
    monthly_premium := JSNum.fin 13375
    start_date := start_date
    end_date := none
    status := "active"
    charges := []
    module :=
      { age := some (JSNum.fin 25)
        species := some "Stegosaurus"
        health_checks_updated := some true
        cover_amount := some (JSNum.fin 5000000) } }

/-- The request of the unit test with valid data, at `sampleEnv`: a start date
30 days ahead, cover 5,000,000, a birth date of 2005-01-01. -/
def validQuoteData : Payload :=
  [("start_date", JSValue.date 1738281600000),
   ("cover_amount", JSValue.num (JSNum.fin 5000000)),
   ("birth_date", JSValue.date 1104537600000),
   ("species", JSValue.str "Tyrannosaurus Rex"),
   ("health_checks_updated", JSValue.bool true)]

/-- The request of the unit test with all five fields invalid, at `sampleEnv`:
a start date 70 days ahead, cover 500,000, a birth date of 1965-01-01, an
unlisted species and a string for the flag. -/
def invalidQuoteData : Payload :=
  [("start_date", JSValue.date 1741737600000),
   ("cover_amount", JSValue.num (JSNum.fin 500000)),
   ("birth_date", JSValue.date (-157766400000)),
   ("species", JSValue.str "Brontosaurus"),
   ("health_checks_updated", JSValue.str "yes")]

/-- The alteration request of the unit test with valid data. -/
def validAlterationData : Payload := [("cover_amount", JSValue.num (JSNum.fin 7500000))]

/-- A claim whose two sub-blocks both carry a fulfillment request. -/
def sampleClaim : Claim :=
  { block_states :=
      { extraction_fulfillment_request := { fulfillment_request_id := JSValue.str "fr-1" }
        fence_repair_fulfillment_request := { fulfillment_request_id := JSValue.str "fr-2" } } }

/-- The policy of the unit test for a cancelled policy: a 25-year-old
Stegosaurus. -/
def cancelledPolicy : Policy :=
  { anniversaryPolicy 1672531200000 with status := "cancelled" }

/-- The request of the surcharge unit test without health checks: a
25-year-old Iguanodon (birth date 2000-01-01) with cover 5,000,000. -/
def surchargedRequest : QuoteRequest :=
  { start_date := 1738281600000
    cover_amount := JSNum.fin 5000000
    birth_date := 946684800000
    species := "Iguanodon"
    health_checks_updated := false }

/-- A request whose species is outside the multiplier table. -/
def unlistedRequest : QuoteRequest := { sampleRequest with species := "Brontosaurus" }

/-- The policy `samplePolicy` with a species outside the multiplier table. -/
def unlistedPolicy : Policy :=
  { samplePolicy with module := { samplePolicy.module with species := some "Brontosaurus" } }

/-- The request `sampleTRexRequest` with the birth date 2005-12-31. -/
def sampleTRexRequestLate : QuoteRequest :=
  { sampleTRexRequest with birth_date := 1135987200000 }

/-- An environment later in the same year as `sampleEnv`: the instant
2025-06-15T12:00:00Z, local time UTC. -/
def sampleEnvMidYear : Env :=
  { now := 1749988800000
    tzOffset := 0
    now_nonneg := by decide
    tz_bound := by decide }

/-- The request of the unit test for a 20-year-old Tyrannosaurus Rex with
R90,000.00 cover (birth date 2005-01-01). -/
def tRexQuoteRequest : QuoteRequest :=
  { sampleTRexRequest with cover_amount := JSNum.fin 9000000 }

/-- The request of the unit test for a 36-year-old Velociraptor with
R50,000.00 cover (birth date 1989-01-01). -/
def velociraptorRequest : QuoteRequest :=
  { start_date := 1738281600000
    cover_amount := JSNum.fin 5000000
    birth_date := 599616000000
    species := "Velociraptor"
    health_checks_updated := true }

/-- The policy of the alteration unit test for a 36-year-old Velociraptor with
cover 5,000,000 and premium 13680. -/
def velociraptorPolicy : Policy :=
  { package_name := "DinoSure"
    sum_assured := JSNum.fin 5000000
    base_premium := JSNum.fin 13680
    monthly_premium := JSNum.fin 13680
    start_date := 1672531200000
    end_date := none
    status := "active"
    charges := []
    module :=
      { age := some (JSNum.fin 36)
        species := some "Velociraptor"
        health_checks_updated := some true } }

/-- The policy `samplePolicy` at the upper bound of the cover amount:
`sum_assured` and `module.cover_amount` 10,000,000. -/
def fullCoverPolicy : Policy :=
  { samplePolicy with
    sum_assured := JSNum.fin 10000000
    module := { samplePolicy.module with cover_amount := some (JSNum.fin 10000000) } }

/-- A request at `sampleEnv` for a Tyrannosaurus Rex born at the current
instant, cover 5,000,000, health checks up to date. -/
def newbornRequest : QuoteRequest :=
  { start_date := 1738281600000
    cover_amount := JSNum.fin 5000000
    birth_date := 1735689600000
    species := "Tyrannosaurus Rex"
    health_checks_updated := true }

/-- A policy carrying the sum assured, the premiums and the module of a quote
package, started on `start_date`. -/
def policyFromQuote (p : QuotePackage) (start_date : JSDate) : Policy :=
  { package_name := "DinoSure"
    sum_assured := p.sum_assured
    base_premium := p.base_premium
    monthly_premium := p.suggested_premium
    start_date := start_date
    end_date := none
    status := "active"
    charges := []
    module := p.module }

/-- The request `oldStegosaurus` with health checks not up to date. -/
def oldStegosaurusSurcharged : QuoteRequest :=
  { oldStegosaurus with health_checks_updated := false }

/-! ## Rounding to binary64 -/

theorem roundHalfEven_nearest (t : ℚ) (z : ℤ) :
    |(roundHalfEven t : ℚ) - t| ≤ |(z : ℚ) - t| := by
  have h1 : (⌊t⌋ : ℚ) ≤ t := Int.floor_le t
  have h2 : t < ⌊t⌋ + 1 := Int.lt_floor_add_one t
  have hz : |(z : ℚ) - t| ≥ min (t - ⌊t⌋) (⌊t⌋ + 1 - t) := by
    rcases le_or_lt z ⌊t⌋ with h | h
    · have : (z : ℚ) ≤ ⌊t⌋ := by exact_mod_cast h
      rw [abs_sub_comm, abs_of_nonneg (by linarith)]
      exact le_trans (min_le_left _ _) (by linarith)
    · have : (⌊t⌋ : ℚ) + 1 ≤ z := by exact_mod_cast h
      rw [abs_of_nonneg (by linarith)]
      exact le_trans (min_le_right _ _) (by linarith)
  unfold roundHalfEven
  split_ifs with c1 c2 c3
  · rw [abs_sub_comm, abs_of_nonneg (by linarith)]
    refine le_trans ?_ hz
    rw [min_eq_left (by linarith)]
  · push_cast
    rw [abs_of_nonneg (by linarith)]
    refine le_trans ?_ hz
    rw [min_eq_right (by linarith)]
  · rw [abs_sub_comm, abs_of_nonneg (by linarith)]
    refine le_trans ?_ hz
    rw [min_eq_left (by linarith)]
  · push_cast
    rw [abs_of_nonneg (by linarith)]
    refine le_trans ?_ hz
    rw [min_eq_right (by linarith)]

theorem roundHalfEven_eq_of_near (t : ℚ) (v : ℤ) (h : |t - v| < 1 / 2) :
    roundHalfEven t = v := by
  have h1 := roundHalfEven_nearest t v
  rw [abs_sub_comm (v : ℚ) t] at h1
  have h2 : |((roundHalfEven t : ℤ) : ℚ) - v| < 1 := by
    calc |((roundHalfEven t : ℤ) : ℚ) - v|
        = |((roundHalfEven t : ℚ) - t) + (t - v)| := by ring_nf
      _ ≤ |(roundHalfEven t : ℚ) - t| + |t - v| := abs_add _ _
      _ < 1 := by linarith
  have h3 : |roundHalfEven t - v| < 1 := by exact_mod_cast h2
  have := Int.abs_lt_one_iff.mp h3
  omega

theorem roundHalfEven_intCast (v : ℤ) : roundHalfEven v = v :=
  roundHalfEven_eq_of_near _ v (by simp)

theorem quantumExp_ge (q : ℚ) : -1074 ≤ quantumExp q := le_max_right _ _

theorem log_sub_le_quantumExp (q : ℚ) : Int.log 2 |q| - 52 ≤ quantumExp q := le_max_left _ _

theorem two_zpow_pos (t : ℤ) : (0 : ℚ) < 2 ^ t := zpow_pos (by norm_num) t

theorem roundDouble_of_ne (q : ℚ) (h : q ≠ 0) :
    roundDouble q = (roundHalfEven (q / 2 ^ quantumExp q) : ℚ) * 2 ^ quantumExp q := by
  unfold roundDouble
  rw [if_neg h]

theorem zpow_log_le (q : ℚ) (h : 0 < q) : (2 : ℚ) ^ Int.log 2 |q| ≤ q := by
  rw [abs_of_pos h]
  exact_mod_cast Int.zpow_log_le_self (b := 2) (r := q) (by norm_num) h

theorem lt_zpow_log_succ (q : ℚ) (h : 0 < q) : q < (2 : ℚ) ^ (Int.log 2 |q| + 1) := by
  rw [abs_of_pos h]
  exact_mod_cast Int.lt_zpow_succ_log_self (b := 2) (by norm_num) q

/-- Scaling an inequality between distances by the quantum. -/
theorem scaled_dist (q : ℚ) (t : ℤ) (a z : ℤ)
    (h : |(a : ℚ) - q / 2 ^ t| ≤ |(z : ℚ) - q / 2 ^ t|) :
    |(a : ℚ) * 2 ^ t - q| ≤ |(z : ℚ) * 2 ^ t - q| := by
  have hp := two_zpow_pos t
  have e1 : ∀ x : ℚ, x * 2 ^ t - q = (x - q / 2 ^ t) * 2 ^ t := by
    intro x; field_simp
  rw [e1, e1, abs_mul, abs_mul, abs_of_pos hp]
  exact mul_le_mul_of_nonneg_right h hp.le

theorem roundDouble_nearest (q : ℚ) (hq : 0 < q) (w : ℚ) (hw : IsDouble w) :
    |roundDouble q - q| ≤ |w - q| := by
  obtain ⟨m, k, hm, hk, rfl⟩ := hw
  rw [roundDouble_of_ne q hq.ne']
  rcases le_or_lt (quantumExp q) k with hkt | hkt
  · -- the candidate lies on the grid of `q`
    obtain ⟨n, hn⟩ := Int.eq_ofNat_of_zero_le (sub_nonneg.mpr hkt)
    have hz : (m : ℚ) * 2 ^ k = ((m * 2 ^ n : ℤ) : ℚ) * 2 ^ quantumExp q := by
      have : k = quantumExp q + n := by omega
      rw [this, zpow_add₀ (by norm_num), zpow_natCast]
      push_cast; ring
    rw [hz]
    exact scaled_dist q _ _ _ (roundHalfEven_nearest _ _)
  · -- finer grid: the candidate is at most the binade's lower end
    have ht : quantumExp q = Int.log 2 |q| - 52 := by
      unfold quantumExp at hkt ⊢
      rcases max_cases (Int.log 2 |q| - 52) (-1074) with ⟨h, _⟩ | ⟨h, _⟩
      · exact h
      · rw [h] at hkt; omega
    have hlo := zpow_log_le q hq
    have hwle : (m : ℚ) * 2 ^ k ≤ 2 ^ Int.log 2 |q| := by
      have hm' : (m : ℚ) ≤ 2 ^ (53 : ℤ) := by
        have : m ≤ 2 ^ 53 := le_trans (le_abs_self m) hm
        have h' : (m : ℚ) ≤ ((2 ^ 53 : ℤ) : ℚ) := by exact_mod_cast this
        refine le_trans h' (le_of_eq ?_)
        norm_num
      have hk' : (2 : ℚ) ^ k ≤ 2 ^ (Int.log 2 |q| - 53) :=
        zpow_le_zpow_right₀ (by norm_num) (by omega)
      calc (m : ℚ) * 2 ^ k ≤ 2 ^ (53 : ℤ) * 2 ^ (Int.log 2 |q| - 53) :=
            mul_le_mul hm' hk' (two_zpow_pos k).le (two_zpow_pos 53).le
        _ = 2 ^ Int.log 2 |q| := by
            rw [← zpow_add₀ (by norm_num)]; congr 1; ring
    have hgrid : (2 : ℚ) ^ Int.log 2 |q| = ((2 ^ 52 : ℤ) : ℚ) * 2 ^ quantumExp q := by
      rw [ht]
      have : ((2 ^ 52 : ℤ) : ℚ) = 2 ^ (52 : ℤ) := by norm_num
      rw [this, ← zpow_add₀ (by norm_num)]; congr 1; ring
    have h1 := scaled_dist q (quantumExp q) _ (2 ^ 52) (roundHalfEven_nearest _ _)
    rw [← hgrid] at h1
    refine le_trans h1 ?_
    have e1 : |(2 : ℚ) ^ Int.log 2 |q| - q| = q - 2 ^ Int.log 2 |q| := by
      rw [abs_sub_comm]; exact abs_of_nonneg (by linarith)
    have e2 : |(m : ℚ) * 2 ^ k - q| = q - (m : ℚ) * 2 ^ k := by
      rw [abs_sub_comm]; exact abs_of_nonneg (by linarith)
    rw [e1, e2]
    linarith

theorem roundDouble_isDouble (q : ℚ) (hq : 0 < q) : IsDouble (roundDouble q) := by
  rw [roundDouble_of_ne q hq.ne']
  refine ⟨roundHalfEven (q / 2 ^ quantumExp q), quantumExp q, ?_, quantumExp_ge q, rfl⟩
  have hp := two_zpow_pos (quantumExp q)
  have hx0 : 0 < q / 2 ^ quantumExp q := div_pos hq hp
  have hx1 : q / 2 ^ quantumExp q < 2 ^ (53 : ℤ) := by
    rw [div_lt_iff₀ hp, ← zpow_add₀ (by norm_num)]
    refine lt_of_lt_of_le (lt_zpow_log_succ q hq) (zpow_le_zpow_right₀ (by norm_num) ?_)
    have := log_sub_le_quantumExp q
    omega
  have h0 := roundHalfEven_nearest (q / 2 ^ quantumExp q) 0
  have h1 := roundHalfEven_nearest (q / 2 ^ quantumExp q) (2 ^ 53)
  have hx1' : q / 2 ^ quantumExp q < ((2 ^ 53 : ℤ) : ℚ) := by
    refine lt_of_lt_of_le hx1 (le_of_eq ?_); norm_num
  have e0 : |((0 : ℤ) : ℚ) - q / 2 ^ quantumExp q| = q / 2 ^ quantumExp q := by
    rw [Int.cast_zero, zero_sub, abs_neg, abs_of_pos hx0]
  have e1 : |((2 ^ 53 : ℤ) : ℚ) - q / 2 ^ quantumExp q|
      = ((2 ^ 53 : ℤ) : ℚ) - q / 2 ^ quantumExp q := abs_of_pos (by linarith)
  rw [e0] at h0
  rw [e1] at h1
  have a0 : (0 : ℚ) ≤ roundHalfEven (q / 2 ^ quantumExp q) := by
    have := (abs_le.mp h0).1; linarith
  have a1 : (roundHalfEven (q / 2 ^ quantumExp q) : ℚ) ≤ ((2 ^ 53 : ℤ) : ℚ) := by
    have := (abs_le.mp h1).2; linarith
  have b0 : 0 ≤ roundHalfEven (q / 2 ^ quantumExp q) := by exact_mod_cast a0
  have b1 : roundHalfEven (q / 2 ^ quantumExp q) ≤ 2 ^ 53 := by exact_mod_cast a1
  rw [abs_of_nonneg b0]; exact b1

theorem roundDouble_nonneg (q : ℚ) (hq : 0 ≤ q) : 0 ≤ roundDouble q := by
  rcases hq.eq_or_lt with h | h
  · subst h; simp [roundDouble]
  · have h0 := roundDouble_nearest q h 0 ⟨0, 0, by norm_num, by norm_num, by simp⟩
    rw [zero_sub, abs_neg, abs_of_pos h] at h0
    have := (abs_le.mp h0).1; linarith

theorem roundDouble_of_isDouble (w : ℚ) (hw0 : 0 ≤ w) (hw : IsDouble w) : roundDouble w = w := by
  rcases hw0.eq_or_lt with h | h
  · subst h; simp [roundDouble]
  · have := roundDouble_nearest w h w hw
    rw [sub_self, abs_zero] at this
    have := abs_nonpos_iff.mp this
    linarith

theorem roundDouble_mono (q₁ q₂ : ℚ) (h0 : 0 ≤ q₁) (h : q₁ ≤ q₂) :
    roundDouble q₁ ≤ roundDouble q₂ := by
  rcases h0.eq_or_lt with h0' | h0'
  · subst h0'
    have : roundDouble 0 = 0 := by simp [roundDouble]
    rw [this]; exact roundDouble_nonneg _ h
  rcases h.eq_or_lt with he | hlt
  · subst he; exact le_rfl
  by_contra hcon
  push_neg at hcon
  have hq2 : 0 < q₂ := lt_of_lt_of_le h0' h
  have n1 := roundDouble_nearest q₁ h0' _ (roundDouble_isDouble q₂ hq2)
  have n2 := roundDouble_nearest q₂ hq2 _ (roundDouble_isDouble q₁ h0')
  have a1 := (abs_le.mp n1).2
  have a2 := (abs_le.mp n2).1
  rcases le_or_lt q₁ (roundDouble q₂) with c1 | c1
  · have e : |roundDouble q₂ - q₁| = roundDouble q₂ - q₁ := abs_of_nonneg (by linarith)
    rw [e] at a1
    linarith
  · have e : |roundDouble q₂ - q₁| = q₁ - roundDouble q₂ := by
      rw [abs_sub_comm]; exact abs_of_nonneg (by linarith)
    rw [e] at a1
    rcases le_or_lt (roundDouble q₁) q₂ with c2 | c2
    · have e' : |roundDouble q₁ - q₂| = q₂ - roundDouble q₁ := by
        rw [abs_sub_comm]; exact abs_of_nonneg (by linarith)
      rw [e'] at a2
      linarith
    · have e' : |roundDouble q₁ - q₂| = roundDouble q₁ - q₂ := abs_of_nonneg (by linarith)
      rw [e'] at a2
      linarith

theorem roundHalfEven_dist (t : ℚ) : |(roundHalfEven t : ℚ) - t| ≤ 1 / 2 := by
  have h1 : (⌊t⌋ : ℚ) ≤ t := Int.floor_le t
  have h2 : t < ⌊t⌋ + 1 := Int.lt_floor_add_one t
  have a := roundHalfEven_nearest t ⌊t⌋
  have b := roundHalfEven_nearest t (⌊t⌋ + 1)
  have ea : |(⌊t⌋ : ℚ) - t| = t - ⌊t⌋ := by
    rw [abs_sub_comm]; exact abs_of_nonneg (by linarith)
  have eb : |((⌊t⌋ + 1 : ℤ) : ℚ) - t| = ⌊t⌋ + 1 - t := by
    push_cast; exact abs_of_nonneg (by linarith)
  rw [ea] at a
  rw [eb] at b
  rcases le_or_lt (t - ⌊t⌋) (1 / 2) with h | h <;> linarith

/-- In the normal range the relative rounding error is at most `2 ^ (-53)`. -/
theorem roundDouble_rel_error (q : ℚ) (hq : 2 ^ (-1022 : ℤ) ≤ q) :
    |roundDouble q - q| ≤ q * 2 ^ (-53 : ℤ) := by
  have hq0 : 0 < q := lt_of_lt_of_le (two_zpow_pos _) hq
  have hlog : -1022 ≤ Int.log 2 |q| := by
    have := (Int.zpow_le_iff_le_log (b := 2) (by norm_num) (x := -1022) (r := |q|)
      (abs_pos.mpr hq0.ne')).mp (by rw [abs_of_pos hq0]; exact_mod_cast hq)
    exact this
  have ht : quantumExp q = Int.log 2 |q| - 52 := by
    unfold quantumExp; exact max_eq_left (by omega)
  rw [roundDouble_of_ne q hq0.ne']
  have hp := two_zpow_pos (quantumExp q)
  have e1 : (roundHalfEven (q / 2 ^ quantumExp q) : ℚ) * 2 ^ quantumExp q - q
      = ((roundHalfEven (q / 2 ^ quantumExp q) : ℚ) - q / 2 ^ quantumExp q) * 2 ^ quantumExp q := by
    field_simp
  rw [e1, abs_mul, abs_of_pos hp]
  have hd := roundHalfEven_dist (q / 2 ^ quantumExp q)
  calc |(roundHalfEven (q / 2 ^ quantumExp q) : ℚ) - q / 2 ^ quantumExp q| * 2 ^ quantumExp q
      ≤ 1 / 2 * 2 ^ quantumExp q := mul_le_mul_of_nonneg_right hd hp.le
    _ = 2 ^ Int.log 2 |q| * 2 ^ (-53 : ℤ) := by
        rw [ht, ← zpow_add₀ (by norm_num)]
        have : Int.log 2 |q| + -53 = (Int.log 2 |q| - 52) + -1 := by ring
        rw [this, zpow_add₀ (by norm_num)]
        norm_num; ring
    _ ≤ q * 2 ^ (-53 : ℤ) := mul_le_mul_of_nonneg_right (zpow_log_le q hq0) (two_zpow_pos _).le

theorem log_eq_of_bounds (q : ℚ) (e : ℤ) (hlo : 2 ^ e ≤ q) (hhi : q < 2 ^ (e + 1)) :
    Int.log 2 |q| = e := by
  have hq0 : 0 < q := lt_of_lt_of_le (two_zpow_pos _) hlo
  rw [abs_of_pos hq0]
  have a := (Int.zpow_le_iff_le_log (b := 2) (by norm_num) (x := e) (r := q) hq0).mp
    (by exact_mod_cast hlo)
  have b := (Int.lt_zpow_iff_log_lt (b := 2) (by norm_num) (x := e + 1) (r := q) hq0).mp
    (by exact_mod_cast hhi)
  omega

/-- Evaluation of `roundDouble` from a binade and a nearest mantissa. -/
theorem roundDouble_eq_of_near (q : ℚ) (e v : ℤ) (hlo : 2 ^ e ≤ q) (hhi : q < 2 ^ (e + 1))
    (he : -1022 ≤ e) (hv : |q / 2 ^ (e - 52) - v| < 1 / 2) :
    roundDouble q = (v : ℚ) * 2 ^ (e - 52) := by
  have hq0 : 0 < q := lt_of_lt_of_le (two_zpow_pos _) hlo
  have ht : quantumExp q = e - 52 := by
    unfold quantumExp
    rw [log_eq_of_bounds q e hlo hhi]
    exact max_eq_left (by omega)
  rw [roundDouble_of_ne q hq0.ne', ht, roundHalfEven_eq_of_near _ v hv]

theorem roundDouble_zero : roundDouble 0 = 0 := by simp [roundDouble]

/-- The rounding error is at most half the quantum. -/
theorem roundDouble_error_quantum (q : ℚ) (hq : q ≠ 0) :
    |roundDouble q - q| ≤ 1 / 2 * 2 ^ quantumExp q := by
  rw [roundDouble_of_ne q hq]
  have hp := two_zpow_pos (quantumExp q)
  have e1 : (roundHalfEven (q / 2 ^ quantumExp q) : ℚ) * 2 ^ quantumExp q - q
      = ((roundHalfEven (q / 2 ^ quantumExp q) : ℚ) - q / 2 ^ quantumExp q) * 2 ^ quantumExp q := by
    field_simp
  rw [e1, abs_mul, abs_of_pos hp]
  exact mul_le_mul_of_nonneg_right (roundHalfEven_dist _) hp.le

/-- Absolute error of one rounding below a bound `B`. -/
theorem roundDouble_abs_error (q B : ℚ) (h0 : 0 ≤ q) (hB : q ≤ B) (hB1 : 2 ^ (-1022 : ℤ) ≤ B) :
    |roundDouble q - q| ≤ B * 2 ^ (-53 : ℤ) := by
  have hu : (0 : ℚ) < 2 ^ (-53 : ℤ) := two_zpow_pos _
  have hBpos : 0 < B := lt_of_lt_of_le (two_zpow_pos _) hB1
  rcases h0.eq_or_lt with h | h
  · subst h
    rw [roundDouble_zero, sub_zero, abs_zero]
    exact (mul_pos hBpos hu).le
  rcases le_or_lt ((2 : ℚ) ^ (-1022 : ℤ)) q with hn | hs
  · exact le_trans (roundDouble_rel_error q hn) (mul_le_mul_of_nonneg_right hB hu.le)
  · have hlog : Int.log 2 |q| < -1022 := by
      rw [abs_of_pos h]
      exact (Int.lt_zpow_iff_log_lt (b := 2) (by norm_num) (x := -1022) (r := q) h).mp
        (by exact_mod_cast hs)
    have ht : quantumExp q = -1074 := by
      unfold quantumExp; exact max_eq_right (by omega)
    have := roundDouble_error_quantum q h.ne'
    rw [ht] at this
    refine le_trans this ?_
    calc (1 / 2 : ℚ) * 2 ^ (-1074 : ℤ) = 2 ^ (-1022 : ℤ) * 2 ^ (-53 : ℤ) := by
          rw [← zpow_add₀ (by norm_num)]
          have : (-1022 : ℤ) + -53 = -1074 + -1 := by norm_num
          rw [this, zpow_add₀ (by norm_num)]
          norm_num
      _ ≤ B * 2 ^ (-53 : ℤ) := mul_le_mul_of_nonneg_right hB1 hu.le

theorem isDouble_intCast_mul (m t : ℤ) (hm : |m| ≤ 2 ^ 53) (ht : -1074 ≤ t) :
    IsDouble ((m : ℚ) * 2 ^ t) := ⟨m, t, hm, ht, rfl⟩

theorem isDouble_natCast (n : ℕ) (hn : n ≤ 2 ^ 53) : IsDouble (n : ℚ) := by
  refine ⟨n, 0, ?_, by norm_num, by simp⟩
  rw [abs_of_nonneg (by positivity)]
  exact_mod_cast hn

/-- A natural number over a power of two is on the grid when its numerator has
at most 53 bits. -/
theorem isDouble_natCast_div (n k : ℕ) (hn : n ≤ 2 ^ 53) (hk : k ≤ 1074) :
    IsDouble ((n : ℚ) / 2 ^ k) := by
  refine ⟨n, -k, ?_, by omega, ?_⟩
  · rw [abs_of_nonneg (by positivity)]
    exact_mod_cast hn
  · rw [zpow_neg, zpow_natCast, div_eq_mul_inv]
    norm_num

theorem roundDouble_natCast (n : ℕ) (hn : n ≤ 2 ^ 53) : roundDouble (n : ℚ) = n :=
  roundDouble_of_isDouble _ (by positivity) (isDouble_natCast n hn)

/-- No overflow below `2 ^ 1023`. -/
theorem ofRat_eq_fin (q : ℚ) (h0 : 0 ≤ q) (h1 : q ≤ 2 ^ 1023) :
    JSNum.ofRat q = JSNum.fin (roundDouble q) := by
  have hd : IsDouble ((2 : ℚ) ^ 1023) := ⟨1, 1023, by norm_num, by norm_num, by norm_num⟩
  have hle : roundDouble q ≤ 2 ^ 1023 := by
    have := roundDouble_mono q (2 ^ 1023) h0 h1
    rwa [roundDouble_of_isDouble _ (by positivity) hd] at this
  have hge := roundDouble_nonneg q h0
  unfold JSNum.ofRat
  rw [if_neg, if_neg]
  · have : (0:ℚ) < 2 ^ 1024 := by positivity
    linarith
  · have : (2:ℚ) ^ 1023 < 2 ^ 1024 := by norm_num
    linarith

theorem ofInt_natCast (n : ℕ) (hn : n ≤ 2 ^ 53) : JSNum.ofInt (n : ℤ) = JSNum.fin n := by
  unfold JSNum.ofInt
  have h1 : ((n : ℤ) : ℚ) = (n : ℚ) := by norm_cast
  rw [h1, ofRat_eq_fin _ (by positivity), roundDouble_natCast n hn]
  have : (n : ℚ) ≤ 2 ^ 53 := by exact_mod_cast hn
  have : (2 : ℚ) ^ 53 ≤ 2 ^ 1023 := by norm_num
  linarith

/-! ## The pricing expression on bounded operands -/

theorem priceCore_bounds (c a : ℕ) (hc : c ≤ 10 ^ 7) (ha : a ≤ 124) :
    0 ≤ roundDouble ((c : ℚ) / 10000) ∧ roundDouble ((c : ℚ) / 10000) ≤ 1000 ∧
    0 ≤ priceCore c a ∧ priceCore c a ≤ 124000 := by
  have hcq : (c : ℚ) ≤ 10 ^ 7 := by exact_mod_cast hc
  have haq : (a : ℚ) ≤ 124 := by exact_mod_cast ha
  have hc0 : (0 : ℚ) ≤ c := by positivity
  have ha0 : (0 : ℚ) ≤ a := by positivity
  have h1 : (0 : ℚ) ≤ (c : ℚ) / 10000 := by positivity
  have h2 : (c : ℚ) / 10000 ≤ ((1000 : ℕ) : ℚ) := by
    rw [div_le_iff₀ (by norm_num)]; push_cast; linarith
  have x0lo := roundDouble_nonneg _ h1
  have x0hi : roundDouble ((c : ℚ) / 10000) ≤ 1000 := by
    have := roundDouble_mono _ _ h1 h2
    rw [roundDouble_natCast 1000 (by norm_num)] at this
    exact_mod_cast this
  have h3 : 0 ≤ roundDouble ((c : ℚ) / 10000) * a := mul_nonneg x0lo ha0
  have h4 : roundDouble ((c : ℚ) / 10000) * a ≤ ((124000 : ℕ) : ℚ) := by
    have := mul_le_mul x0hi haq ha0 (by norm_num : (0:ℚ) ≤ 1000)
    push_cast; linarith
  refine ⟨x0lo, x0hi, roundDouble_nonneg _ h3, ?_⟩
  have := roundDouble_mono _ _ h3 h4
  rw [roundDouble_natCast 124000 (by norm_num)] at this
  unfold priceCore
  exact_mod_cast this

theorem priceAdjusted_bounds (c a : ℕ) (M : ℚ) (hc : c ≤ 10 ^ 7) (ha : a ≤ 124)
    (hM0 : 0 ≤ M) (hM1 : M ≤ 3 / 2) :
    0 ≤ priceCore c a * M ∧ priceCore c a * M ≤ 186000 ∧
    0 ≤ priceAdjusted c a M ∧ priceAdjusted c a M ≤ 186000 := by
  obtain ⟨_, _, h3, h4⟩ := priceCore_bounds c a hc ha
  have h5 : 0 ≤ priceCore c a * M := mul_nonneg h3 hM0
  have h6 : priceCore c a * M ≤ ((186000 : ℕ) : ℚ) := by
    have := mul_le_mul h4 hM1 hM0 (by norm_num : (0:ℚ) ≤ 124000)
    push_cast; linarith
  refine ⟨h5, by push_cast at h6; exact h6, roundDouble_nonneg _ h5, ?_⟩
  have := roundDouble_mono _ _ h5 h6
  rw [roundDouble_natCast 186000 (by norm_num)] at this
  unfold priceAdjusted
  exact_mod_cast this

theorem div_fin_fin (a b : ℚ) (hb : b ≠ 0) :
    JSNum.div (JSNum.fin a) (JSNum.fin b) = JSNum.ofRat (a / b) := by
  show (if b = 0 then _ else JSNum.ofRat (a / b)) = _
  rw [if_neg hb]

theorem mul_fin_fin (a b : ℚ) : JSNum.mul (JSNum.fin a) (JSNum.fin b) = JSNum.ofRat (a * b) := rfl

theorem add_fin_fin (a b : ℚ) : JSNum.add (JSNum.fin a) (JSNum.fin b) = JSNum.ofRat (a + b) := rfl

theorem ofInt_10000 : JSNum.ofInt 10000 = JSNum.fin 10000 := by
  have h := ofInt_natCast 10000 (by norm_num : (10000 : ℕ) ≤ 2 ^ 53)
  exact_mod_cast h

theorem ofInt_25000 : JSNum.ofInt 25000 = JSNum.fin 25000 := by
  have h := ofInt_natCast 25000 (by norm_num : (25000 : ℕ) ≤ 2 ^ 53)
  exact_mod_cast h

/-- On bounded operands every step of the pricing expression is finite. -/
theorem price_chain_fin (c a : ℕ) (M : ℚ) (hc : c ≤ 10 ^ 7) (ha : a ≤ 124)
    (hM0 : 0 ≤ M) (hM1 : M ≤ 3 / 2) :
    JSNum.mul (JSNum.div (JSNum.fin c) (JSNum.ofInt 10000)) (JSNum.ofInt (a : ℤ))
      = JSNum.fin (priceCore c a) ∧
    JSNum.mul (JSNum.fin (priceCore c a)) (JSNum.fin M) = JSNum.fin (priceAdjusted c a M) ∧
    JSNum.add (JSNum.fin (priceAdjusted c a M)) (JSNum.ofInt 25000)
      = JSNum.fin (priceSurcharged c a M) := by
  obtain ⟨x0lo, x0hi, h3, h4⟩ := priceCore_bounds c a hc ha
  obtain ⟨h5, h6, h7, h8⟩ := priceAdjusted_bounds c a M hc ha hM0 hM1
  have e1 := ofInt_10000
  have e2 := ofInt_25000
  have e3 : JSNum.ofInt (a : ℤ) = JSNum.fin a :=
    ofInt_natCast a (le_trans ha (by norm_num))
  have ha0 : (0 : ℚ) ≤ a := by positivity
  have haq : (a : ℚ) ≤ 124 := by exact_mod_cast ha
  have hcq : (c : ℚ) ≤ 10 ^ 7 := by exact_mod_cast hc
  have hc0 : (0 : ℚ) ≤ c := by positivity
  refine ⟨?_, ?_, ?_⟩
  · rw [e1, e3]
    have d1 : JSNum.div (JSNum.fin c) (JSNum.fin 10000)
        = JSNum.fin (roundDouble ((c : ℚ) / 10000)) := by
      rw [div_fin_fin _ _ (by norm_num)]
      refine ofRat_eq_fin _ (by positivity) ?_
      have : (c : ℚ) / 10000 ≤ c := div_le_self hc0 (by norm_num)
      exact le_trans (le_trans this hcq) (by norm_num)
    rw [d1, mul_fin_fin]
    refine ofRat_eq_fin _ (mul_nonneg x0lo ha0) ?_
    have := mul_le_mul x0hi haq ha0 (by norm_num : (0:ℚ) ≤ 1000)
    exact le_trans this (by norm_num)
  · rw [mul_fin_fin]
    exact ofRat_eq_fin _ h5 (le_trans h6 (by norm_num))
  · rw [e2, add_fin_fin]
    have : priceAdjusted c a M + 25000 ≤ 211000 := by linarith
    exact ofRat_eq_fin _ (by linarith) (le_trans this (by norm_num))

/-- Accumulated rounding error of the pricing expression on bounded operands. -/
theorem price_error (c a : ℕ) (m M : ℚ) (hc : c ≤ 10 ^ 7) (ha : a ≤ 124)
    (hM0 : 0 ≤ M) (hM1 : M ≤ 3 / 2)
    (hMm : |M - m| ≤ 3 / 2 * 2 ^ (-53 : ℤ)) :
    |priceAdjusted c a M - (c : ℚ) / 10000 * a * m| ≤ 10 ^ 6 * 2 ^ (-53 : ℤ) ∧
    |priceSurcharged c a M - ((c : ℚ) / 10000 * a * m + 25000)| ≤ 10 ^ 6 * 2 ^ (-53 : ℤ) := by
  obtain ⟨x0lo, x0hi, h3, h4⟩ := priceCore_bounds c a hc ha
  obtain ⟨h5, h6, h7, h8⟩ := priceAdjusted_bounds c a M hc ha hM0 hM1
  have hcq : (c : ℚ) ≤ 10 ^ 7 := by exact_mod_cast hc
  have haq : (a : ℚ) ≤ 124 := by exact_mod_cast ha
  have hc0 : (0 : ℚ) ≤ c := by positivity
  have ha0 : (0 : ℚ) ≤ a := by positivity
  have tiny : (2 : ℚ) ^ (-1022 : ℤ) ≤ 1000 :=
    le_trans (zpow_le_one_of_nonpos₀ (by norm_num) (by norm_num)) (by norm_num)
  have hu : (0 : ℚ) < 2 ^ (-53 : ℤ) := two_zpow_pos _
  have q1lo : (0 : ℚ) ≤ (c : ℚ) / 10000 := by positivity
  have q1hi : (c : ℚ) / 10000 ≤ 1000 := by
    rw [div_le_iff₀ (by norm_num)]; linarith
  have q2hi : roundDouble ((c : ℚ) / 10000) * a ≤ 124000 := by
    have := mul_le_mul x0hi haq ha0 (by norm_num : (0:ℚ) ≤ 1000)
    linarith
  have Ehi : (c : ℚ) / 10000 * a ≤ 124000 := by
    have := mul_le_mul q1hi haq ha0 (by norm_num : (0:ℚ) ≤ 1000)
    linarith
  have Elo : 0 ≤ (c : ℚ) / 10000 * a := mul_nonneg q1lo ha0
  -- the four roundings
  have s1 := roundDouble_abs_error _ 1000 q1lo q1hi tiny
  have s2 : |priceCore c a - roundDouble ((c : ℚ) / 10000) * a| ≤ 124000 * 2 ^ (-53 : ℤ) :=
    roundDouble_abs_error _ 124000 (mul_nonneg x0lo ha0) q2hi (by linarith)
  have s5 : |priceAdjusted c a M - priceCore c a * M| ≤ 186000 * 2 ^ (-53 : ℤ) :=
    roundDouble_abs_error _ 186000 h5 h6 (by linarith)
  have s8 : |priceSurcharged c a M - (priceAdjusted c a M + 25000)| ≤ 211000 * 2 ^ (-53 : ℤ) :=
    roundDouble_abs_error _ 211000 (by linarith) (by linarith) (by linarith)
  -- propagation through the products
  have s3 : |roundDouble ((c : ℚ) / 10000) * a - (c : ℚ) / 10000 * a|
      ≤ 124000 * 2 ^ (-53 : ℤ) := by
    have e : roundDouble ((c : ℚ) / 10000) * a - (c : ℚ) / 10000 * a
        = (roundDouble ((c : ℚ) / 10000) - (c : ℚ) / 10000) * a := by ring
    rw [e, abs_mul, abs_of_nonneg ha0]
    have := mul_le_mul s1 haq ha0 (by positivity : (0:ℚ) ≤ 1000 * 2 ^ (-53 : ℤ))
    linarith
  have s4 : |priceCore c a - (c : ℚ) / 10000 * a| ≤ 248000 * 2 ^ (-53 : ℤ) := by
    have e : priceCore c a - (c : ℚ) / 10000 * a
        = (priceCore c a - roundDouble ((c : ℚ) / 10000) * a)
          + (roundDouble ((c : ℚ) / 10000) * a - (c : ℚ) / 10000 * a) := by ring
    rw [e]
    refine le_trans (abs_add _ _) ?_
    linarith
  have s6 : |priceCore c a * M - (c : ℚ) / 10000 * a * m| ≤ 558000 * 2 ^ (-53 : ℤ) := by
    have e : priceCore c a * M - (c : ℚ) / 10000 * a * m
        = (priceCore c a - (c : ℚ) / 10000 * a) * M + (c : ℚ) / 10000 * a * (M - m) := by ring
    rw [e]
    refine le_trans (abs_add _ _) ?_
    rw [abs_mul, abs_mul, abs_of_nonneg hM0, abs_of_nonneg Elo]
    have t1 := mul_le_mul s4 hM1 hM0 (by positivity : (0:ℚ) ≤ 248000 * 2 ^ (-53 : ℤ))
    have t2 := mul_le_mul Ehi hMm (abs_nonneg _) (by norm_num : (0:ℚ) ≤ 124000)
    linarith
  have s7 : |priceAdjusted c a M - (c : ℚ) / 10000 * a * m| ≤ 744000 * 2 ^ (-53 : ℤ) := by
    have e : priceAdjusted c a M - (c : ℚ) / 10000 * a * m
        = (priceAdjusted c a M - priceCore c a * M)
          + (priceCore c a * M - (c : ℚ) / 10000 * a * m) := by ring
    rw [e]
    refine le_trans (abs_add _ _) (le_trans (add_le_add s5 s6) (le_of_eq ?_))
    ring
  have hu6 : 744000 * (2 : ℚ) ^ (-53 : ℤ) ≤ 10 ^ 6 * 2 ^ (-53 : ℤ) :=
    mul_le_mul_of_nonneg_right (by norm_num) hu.le
  refine ⟨le_trans s7 hu6, ?_⟩
  have e : priceSurcharged c a M - ((c : ℚ) / 10000 * a * m + 25000)
      = (priceSurcharged c a M - (priceAdjusted c a M + 25000))
        + (priceAdjusted c a M - (c : ℚ) / 10000 * a * m) := by ring
  rw [e]
  refine le_trans (abs_add _ _) (le_trans (add_le_add s8 s7) ?_)
  rw [← add_mul]
  exact mul_le_mul_of_nonneg_right (by norm_num) hu.le

/-- Rounding half up of a rational given by its integer and sub-unit parts. -/
theorem floor_parts (K s : ℤ) (f z : ℚ) (hz : z = K + f + s) (h0 : 0 ≤ f) (h1 : f < 1) :
    ⌊z⌋ = K + s := by
  rw [Int.floor_eq_iff, hz]
  push_cast
  constructor <;> linarith

/-- Away from a tie, a small perturbation does not change the rounded value. -/
theorem floor_nontie (T : ℕ) (s : ℤ) (y : ℚ) (hT : T % 1000000 ≠ 500000)
    (hy : |y - ((T : ℚ) / 10 ^ 6 + s)| < 1 / 10 ^ 6) :
    ⌊y + 1 / 2⌋ = ⌊(T : ℚ) / 10 ^ 6 + s + 1 / 2⌋ := by
  obtain ⟨K, r, hKr, hr1, hr2⟩ : ∃ K r : ℕ, T + 500000 = 1000000 * K + r ∧ 1 ≤ r ∧ r ≤ 999999 :=
    ⟨(T + 500000) / 1000000, (T + 500000) % 1000000,
      (Nat.div_add_mod (T + 500000) 1000000).symm, by omega, by omega⟩
  have hTq : (T : ℚ) + 500000 = 1000000 * K + r := by exact_mod_cast hKr
  have r1 : (1 : ℚ) ≤ r := by exact_mod_cast hr1
  have r2 : (r : ℚ) ≤ 999999 := by exact_mod_cast hr2
  obtain ⟨a, b⟩ := abs_lt.mp hy
  have e1 : ⌊(T : ℚ) / 10 ^ 6 + s + 1 / 2⌋ = (K : ℤ) + s :=
    floor_parts K s ((r : ℚ) / 10 ^ 6) _ (by push_cast; linarith) (by positivity)
      (by rw [div_lt_one (by norm_num)]; linarith)
  have e2 : ⌊y + 1 / 2⌋ = (K : ℤ) + s :=
    floor_parts K s (y + 1 / 2 - K - s) _ (by push_cast; ring) (by linarith) (by linarith)
  rw [e1, e2]

/-- At a tie, a value at or slightly above the exact one rounds like it. -/
theorem floor_tie (T : ℕ) (s : ℤ) (y : ℚ) (hT : T % 1000000 = 500000)
    (hlo : (T : ℚ) / 10 ^ 6 + s ≤ y) (hhi : y < (T : ℚ) / 10 ^ 6 + s + 1 / 2) :
    ⌊y + 1 / 2⌋ = ⌊(T : ℚ) / 10 ^ 6 + s + 1 / 2⌋ := by
  obtain ⟨K, hK⟩ : ∃ K : ℕ, T + 500000 = 1000000 * K :=
    ⟨(T + 500000) / 1000000, by omega⟩
  have hTq : (T : ℚ) + 500000 = 1000000 * K := by exact_mod_cast hK
  have e1 : ⌊(T : ℚ) / 10 ^ 6 + s + 1 / 2⌋ = (K : ℤ) + s :=
    floor_parts K s 0 _ (by push_cast; linarith) le_rfl (by norm_num)
  have e2 : ⌊y + 1 / 2⌋ = (K : ℤ) + s :=
    floor_parts K s (y + 1 / 2 - K - s) _ (by push_cast; ring) (by linarith) (by linarith)
  rw [e1, e2]

/-- A grid point within half a quantum of `q` is the rounding of `q`. -/
theorem roundDouble_eq_of_grid (q w : ℚ) (hq : 0 < q) (k : ℤ)
    (hw : w = (k : ℚ) * 2 ^ quantumExp q) (h : |q - w| < 1 / 2 * 2 ^ quantumExp q) :
    roundDouble q = w := by
  have hp := two_zpow_pos (quantumExp q)
  rw [roundDouble_of_ne q hq.ne', hw, roundHalfEven_eq_of_near _ k]
  have e : q / 2 ^ quantumExp q - k = (q - w) / 2 ^ quantumExp q := by
    rw [hw]; field_simp; ring
  rw [e, abs_div, abs_of_pos hp, div_lt_iff₀ hp]
  exact h

/-- Divisibility of the cover amount by `5 ^ 4` at a tie. -/
theorem five_pow_dvd_cover (c g : ℕ) (h6 : 5 ^ 6 ∣ c * g) (hg : ¬ 5 ^ 3 ∣ g) (h0 : c * g ≠ 0) :
    5 ^ 4 ∣ c := by
  haveI : Fact (Nat.Prime 5) := ⟨by norm_num⟩
  have hc0 : c ≠ 0 := left_ne_zero_of_mul h0
  have hg0 : g ≠ 0 := right_ne_zero_of_mul h0
  rw [padicValNat_dvd_iff_le h0, padicValNat.mul hc0 hg0] at h6
  rw [padicValNat_dvd_iff_le hg0] at hg
  rw [padicValNat_dvd_iff_le hc0]
  omega

/-- At a tie the product `core * multiplier` rounds to a value at or above the
exact premium, whichever side of the decimal multiplier its binary64 value is on. -/
theorem tie_adjusted_ge (E m M X : ℚ) (K : ℕ) (hK : K ≤ 2 ^ 53) (hX : X = (K : ℚ) / 2 ^ 1)
    (hXE : X = E * m) (hE : 1 / 16 ≤ E) (hM0 : 1 / 2 ≤ M) (hq : E * M ≤ 186000)
    (hside : m ≤ M ∨ (m - M) * 2 ^ 54 ≤ M) :
    X ≤ roundDouble (E * M) := by
  have hXd : IsDouble X := by rw [hX]; exact isDouble_natCast_div K 1 hK (by norm_num)
  have hX0 : 0 ≤ X := by rw [hX]; positivity
  have hE0 : 0 < E := by linarith
  rcases le_or_lt m M with h | h
  · have := roundDouble_mono X (E * M) hX0 (by rw [hXE]; exact mul_le_mul_of_nonneg_left h hE0.le)
    rwa [roundDouble_of_isDouble X hX0 hXd] at this
  · have hs : (m - M) * 2 ^ 54 ≤ M := by
      rcases hside with h' | h'
      · linarith
      · exact h'
    have hq0 : 0 < E * M := mul_pos hE0 (by linarith)
    have hqlo : (2 : ℚ) ^ (-5 : ℤ) ≤ E * M := by
      have : (1 / 16 : ℚ) * (1 / 2) ≤ E * M := mul_le_mul hE hM0 (by norm_num) hE0.le
      refine le_trans ?_ this
      norm_num
    have hqhi : E * M < (2 : ℚ) ^ (18 : ℤ) := lt_of_le_of_lt hq (by norm_num)
    have he1 : -5 ≤ Int.log 2 |E * M| := by
      rw [abs_of_pos hq0]
      exact (Int.zpow_le_iff_le_log (b := 2) (by norm_num) (x := -5) (r := E * M) hq0).mp
        (by exact_mod_cast hqlo)
    have he2 : Int.log 2 |E * M| < 18 := by
      rw [abs_of_pos hq0]
      exact (Int.lt_zpow_iff_log_lt (b := 2) (by norm_num) (x := 18) (r := E * M) hq0).mp
        (by exact_mod_cast hqhi)
    have ht : quantumExp (E * M) = Int.log 2 |E * M| - 52 := by
      unfold quantumExp; exact max_eq_left (by omega)
    have hp := two_zpow_pos (quantumExp (E * M))
    have hsucc : E * M < 2 ^ quantumExp (E * M) * 2 ^ 53 := by
      have := lt_zpow_log_succ (E * M) hq0
      have e : Int.log 2 |E * M| + 1 = quantumExp (E * M) + 53 := by omega
      rw [e, zpow_add₀ (by norm_num)] at this
      exact_mod_cast this
    have hn : (((-quantumExp (E * M) - 1).toNat : ℕ) : ℤ) = -quantumExp (E * M) - 1 :=
      Int.toNat_of_nonneg (by omega)
    have hgrid : X = ((K * 2 ^ (-quantumExp (E * M) - 1).toNat : ℤ) : ℚ)
        * 2 ^ quantumExp (E * M) := by
      push_cast
      rw [mul_assoc, ← zpow_natCast, ← zpow_add₀ (by norm_num), hn, hX]
      have : -quantumExp (E * M) - 1 + quantumExp (E * M) = -1 := by ring
      rw [this]
      norm_num
      ring
    have hclose : |E * M - X| < 1 / 2 * 2 ^ quantumExp (E * M) := by
      have e : X - E * M = E * (m - M) := by rw [hXE]; ring
      rw [abs_sub_comm, abs_of_nonneg (by rw [e]; exact mul_nonneg hE0.le (by linarith))]
      have h1 : (X - E * M) * 2 ^ 54 ≤ E * M := by
        rw [e, mul_assoc]
        exact mul_le_mul_of_nonneg_left hs hE0.le
      linarith
    rw [roundDouble_eq_of_grid (E * M) X hq0 _ hgrid hclose]

/-- On cover amounts up to `10 ^ 7` and ages up to 124 the binary64 evaluation
of the pricing expression rounds to the same integer as exact arithmetic. -/
theorem price_floor (c a mi : ℕ) (M : ℚ) (hc : c ≤ 10 ^ 7) (ha : a ≤ 124)
    (hmi : mi ≤ 150) (h5 : ¬ 5 ∣ mi) (hM0 : 1 / 2 ≤ M) (hM1 : M ≤ 3 / 2)
    (hMm : |M - (mi : ℚ) / 100| ≤ 3 / 2 * 2 ^ (-53 : ℤ))
    (hside : (mi : ℚ) / 100 ≤ M ∨ ((mi : ℚ) / 100 - M) * 2 ^ 54 ≤ M) :
    ⌊priceAdjusted c a M + 1 / 2⌋ = ⌊(c : ℚ) / 10000 * a * ((mi : ℚ) / 100) + 1 / 2⌋ ∧
    ⌊priceSurcharged c a M + 1 / 2⌋
      = ⌊(c : ℚ) / 10000 * a * ((mi : ℚ) / 100) + 25000 + 1 / 2⌋ := by
  obtain ⟨err2, err3⟩ := price_error c a ((mi : ℚ) / 100) M hc ha (by linarith) hM1 hMm
  have usmall : (10 : ℚ) ^ 6 * 2 ^ (-53 : ℤ) < 1 / 10 ^ 6 := by norm_num
  have hXT : (c : ℚ) / 10000 * a * ((mi : ℚ) / 100) = ((c * a * mi : ℕ) : ℚ) / 10 ^ 6 := by
    push_cast; ring
  rw [hXT] at err2 err3 ⊢
  by_cases hT : (c * a * mi) % 1000000 = 500000
  · -- a tie of the exact premium
    have hT0 : c * a * mi ≠ 0 := by
      intro h; rw [h] at hT; norm_num at hT
    have hc0 : c ≠ 0 := left_ne_zero_of_mul (left_ne_zero_of_mul hT0)
    have ha0 : a ≠ 0 := right_ne_zero_of_mul (left_ne_zero_of_mul hT0)
    have h56 : 5 ^ 6 ∣ c * (a * mi) := by
      rw [← mul_assoc]
      exact Nat.dvd_of_mod_eq_zero (by omega)
    have hcop : Nat.Coprime (5 ^ 3) mi :=
      Nat.Coprime.pow_left 3 ((Nat.Prime.coprime_iff_not_dvd (by norm_num)).mpr h5)
    have hg : ¬ 5 ^ 3 ∣ a * mi := by
      intro h
      have := Nat.le_of_dvd (Nat.pos_of_ne_zero ha0) (hcop.dvd_of_dvd_mul_right h)
      omega
    obtain ⟨c', hc'⟩ := five_pow_dvd_cover c (a * mi) h56 hg (by rw [← mul_assoc]; exact hT0)
    have hc'le : c' ≤ 16000 := by omega
    -- the core premium is computed exactly
    have q1 : (c : ℚ) / 10000 = (c' : ℚ) / 2 ^ 4 := by
      rw [hc']; push_cast; ring
    have x0 : roundDouble ((c : ℚ) / 10000) = (c : ℚ) / 10000 := by
      rw [q1]
      exact roundDouble_of_isDouble _ (by positivity)
        (isDouble_natCast_div c' 4 (le_trans hc'le (by norm_num)) (by norm_num))
    have hca : c' * a ≤ 16000 * 124 := Nat.mul_le_mul hc'le ha
    have q2 : (c : ℚ) / 10000 * a = ((c' * a : ℕ) : ℚ) / 2 ^ 4 := by
      rw [q1]; push_cast; ring
    have x1 : priceCore c a = (c : ℚ) / 10000 * a := by
      unfold priceCore
      rw [x0, q2]
      exact roundDouble_of_isDouble _ (by positivity)
        (isDouble_natCast_div (c' * a) 4 (le_trans hca (by norm_num)) (by norm_num))
    have hE : (1 / 16 : ℚ) ≤ (c : ℚ) / 10000 * a := by
      rw [q2]
      have : 1 ≤ c' * a := by
        rcases Nat.eq_zero_or_pos (c' * a) with h | h
        · rcases Nat.mul_eq_zero.mp h with h | h
          · omega
          · omega
        · exact h
      have : (1 : ℚ) ≤ ((c' * a : ℕ) : ℚ) := by exact_mod_cast this
      rw [le_div_iff₀ (by norm_num)]
      linarith
    -- the exact premium is a half-integer on the grid
    obtain ⟨K, hK⟩ : ∃ K : ℕ, c * a * mi = 500000 * K := ⟨c * a * mi / 500000, by omega⟩
    have hTle : c * a * mi ≤ 10 ^ 7 * 124 * 150 :=
      Nat.mul_le_mul (Nat.mul_le_mul hc ha) hmi
    have hKle : K ≤ 2 ^ 53 := by
      have : K ≤ 10 ^ 7 * 124 * 150 := by omega
      exact le_trans this (by norm_num)
    have hX : ((c * a * mi : ℕ) : ℚ) / 10 ^ 6 = (K : ℚ) / 2 ^ 1 := by
      rw [hK]; push_cast; ring
    have hq3 := (priceAdjusted_bounds c a M hc ha (by linarith) hM1).2.1
    rw [x1] at hq3
    have ge2 : ((c * a * mi : ℕ) : ℚ) / 10 ^ 6 ≤ priceAdjusted c a M := by
      unfold priceAdjusted
      rw [x1]
      exact tie_adjusted_ge _ ((mi : ℚ) / 100) M _ K hKle hX hXT.symm hE hM0 hq3 hside
    have lt2 : priceAdjusted c a M < ((c * a * mi : ℕ) : ℚ) / 10 ^ 6 + 1 / 2 := by
      have := (abs_le.mp err2).2
      linarith
    have X0 : (0 : ℚ) ≤ ((c * a * mi : ℕ) : ℚ) / 10 ^ 6 := by positivity
    have hXd : IsDouble (((c * a * mi : ℕ) : ℚ) / 10 ^ 6 + 25000) := by
      have : ((c * a * mi : ℕ) : ℚ) / 10 ^ 6 + 25000 = ((K + 50000 : ℕ) : ℚ) / 2 ^ 1 := by
        rw [hX]; push_cast; ring
      rw [this]
      refine isDouble_natCast_div _ 1 ?_ (by norm_num)
      have : K + 50000 ≤ 10 ^ 7 * 124 * 150 + 50000 := by omega
      exact le_trans this (by norm_num)
    have ge3 : ((c * a * mi : ℕ) : ℚ) / 10 ^ 6 + 25000 ≤ priceSurcharged c a M := by
      have := roundDouble_mono (((c * a * mi : ℕ) : ℚ) / 10 ^ 6 + 25000)
        (priceAdjusted c a M + 25000) (by linarith) (by linarith)
      rwa [roundDouble_of_isDouble _ (by linarith) hXd] at this
    have lt3 : priceSurcharged c a M < ((c * a * mi : ℕ) : ℚ) / 10 ^ 6 + 25000 + 1 / 2 := by
      have := (abs_le.mp err3).2
      linarith
    constructor
    · have := floor_tie (c * a * mi) 0 (priceAdjusted c a M) hT (by simpa using ge2)
        (by simpa using lt2)
      simpa using this
    · have := floor_tie (c * a * mi) 25000 (priceSurcharged c a M) hT (by simpa using ge3)
        (by simpa using lt3)
      simpa using this
  · constructor
    · have := floor_nontie (c * a * mi) 0 (priceAdjusted c a M) hT
        (by simpa using lt_of_le_of_lt err2 usmall)
      simpa using this
    · have := floor_nontie (c * a * mi) 25000 (priceSurcharged c a M) hT
        (by simpa using lt_of_le_of_lt err3 usmall)
      simpa using this

/-! ## The multiplier literals -/

theorem roundDouble_81 : roundDouble (81 / 100) = 7295831396340204 * 2 ^ (-53 : ℤ) := by
  have := roundDouble_eq_of_near (81 / 100) (-1) 7295831396340204 (by norm_num) (by norm_num)
    (by norm_num) (by rw [abs_lt]; constructor <;> norm_num)
  simpa using this

theorem roundDouble_119 : roundDouble (119 / 100) = 5359283556570890 * 2 ^ (-52 : ℤ) := by
  have := roundDouble_eq_of_near (119 / 100) 0 5359283556570890 (by norm_num) (by norm_num)
    (by norm_num) (by rw [abs_lt]; constructor <;> norm_num)
  simpa using this

theorem roundDouble_76 : roundDouble (76 / 100) = 6845471433603154 * 2 ^ (-53 : ℤ) := by
  have := roundDouble_eq_of_near (76 / 100) (-1) 6845471433603154 (by norm_num) (by norm_num)
    (by norm_num) (by rw [abs_lt]; constructor <;> norm_num)
  simpa using this

theorem roundDouble_132 : roundDouble (132 / 100) = 5944751508129055 * 2 ^ (-52 : ℤ) := by
  have := roundDouble_eq_of_near (132 / 100) 0 5944751508129055 (by norm_num) (by norm_num)
    (by norm_num) (by rw [abs_lt]; constructor <;> norm_num)
  simpa using this

theorem roundDouble_107 : roundDouble (107 / 100) = 4818851601286431 * 2 ^ (-52 : ℤ) := by
  have := roundDouble_eq_of_near (107 / 100) 0 4818851601286431 (by norm_num) (by norm_num)
    (by norm_num) (by rw [abs_lt]; constructor <;> norm_num)
  simpa using this

theorem multiplierFacts_of_eval (mi : ℕ) (M : ℚ) (hev : roundDouble ((mi : ℚ) / 100) = M)
    (hmi : mi ≤ 150) (h5 : ¬ 5 ∣ mi) (hM0 : 1 / 2 ≤ M) (hM1 : M ≤ 3 / 2)
    (hMm : |M - (mi : ℚ) / 100| ≤ 3 / 2 * 2 ^ (-53 : ℤ))
    (hside : (mi : ℚ) / 100 ≤ M ∨ ((mi : ℚ) / 100 - M) * 2 ^ 54 ≤ M) :
    MultiplierFacts mi M := by
  refine ⟨?_, hmi, h5, hM0, hM1, hMm, hside⟩
  have h0 : (0 : ℚ) ≤ (mi : ℚ) / 100 := by positivity
  have h1 : (mi : ℚ) ≤ 150 := by exact_mod_cast hmi
  have h2 : (mi : ℚ) / 100 ≤ 150 := by
    rw [div_le_iff₀ (by norm_num)]; linarith
  rw [ofRat_eq_fin _ h0 (le_trans h2 (by norm_num)), hev]

theorem facts_81 : MultiplierFacts 81 (7295831396340204 * 2 ^ (-53 : ℤ)) :=
  multiplierFacts_of_eval 81 _ (by exact_mod_cast roundDouble_81) (by norm_num) (by norm_num)
    (by norm_num) (by norm_num) (by rw [abs_le]; constructor <;> norm_num)
    (Or.inl (by norm_num))

theorem facts_119 : MultiplierFacts 119 (5359283556570890 * 2 ^ (-52 : ℤ)) :=
  multiplierFacts_of_eval 119 _ (by exact_mod_cast roundDouble_119) (by norm_num) (by norm_num)
    (by norm_num) (by norm_num) (by rw [abs_le]; constructor <;> norm_num)
    (Or.inr (by norm_num))

theorem facts_76 : MultiplierFacts 76 (6845471433603154 * 2 ^ (-53 : ℤ)) :=
  multiplierFacts_of_eval 76 _ (by exact_mod_cast roundDouble_76) (by norm_num) (by norm_num)
    (by norm_num) (by norm_num) (by rw [abs_le]; constructor <;> norm_num)
    (Or.inl (by norm_num))

theorem facts_132 : MultiplierFacts 132 (5944751508129055 * 2 ^ (-52 : ℤ)) :=
  multiplierFacts_of_eval 132 _ (by exact_mod_cast roundDouble_132) (by norm_num) (by norm_num)
    (by norm_num) (by norm_num) (by rw [abs_le]; constructor <;> norm_num)
    (Or.inl (by norm_num))

theorem facts_107 : MultiplierFacts 107 (4818851601286431 * 2 ^ (-52 : ℤ)) :=
  multiplierFacts_of_eval 107 _ (by exact_mod_cast roundDouble_107) (by norm_num) (by norm_num)
    (by norm_num) (by norm_num) (by rw [abs_le]; constructor <;> norm_num)
    (Or.inl (by norm_num))

/-- Every species of the specification's table is a key of both object
literals, bound to the binary64 value of the same decimal. -/
theorem multiplier_lookup (species : String) (m : ℚ) (h : specMultiplier species = some m) :
    ∃ (mi : ℕ) (M : ℚ), m = (mi : ℚ) / 100 ∧ MultiplierFacts mi M ∧
      getQuote.speciesMultipliers species = some (JSNum.fin M) ∧
      getAlteration.speciesMultipliers (some species) = some (JSNum.fin M) := by
  unfold specMultiplier at h
  unfold getQuote.speciesMultipliers getAlteration.speciesMultipliers
  simp only [Option.some.injEq]
  split_ifs at h with h1 h2 h3 h4 h5
  · refine ⟨81, _, by simpa using h.symm, facts_81, ?_, ?_⟩ <;>
      · rw [if_pos h1]; exact congrArg some (by exact_mod_cast facts_81.1)
  · refine ⟨119, _, by simpa using h.symm, facts_119, ?_, ?_⟩ <;>
      · rw [if_neg h1, if_pos h2]; exact congrArg some (by exact_mod_cast facts_119.1)
  · refine ⟨76, _, by simpa using h.symm, facts_76, ?_, ?_⟩ <;>
      · rw [if_neg h1, if_neg h2, if_pos h3]
        exact congrArg some (by exact_mod_cast facts_76.1)
  · refine ⟨132, _, by simpa using h.symm, facts_132, ?_, ?_⟩ <;>
      · rw [if_neg h1, if_neg h2, if_neg h3, if_pos h4]
        exact congrArg some (by exact_mod_cast facts_132.1)
  · refine ⟨107, _, by simpa using h.symm, facts_107, ?_, ?_⟩ <;>
      · rw [if_neg h1, if_neg h2, if_neg h3, if_neg h4, if_pos h5]
        exact congrArg some (by exact_mod_cast facts_107.1)

/-! ## Quote pricing -/

theorem mathRound_fin (x : ℚ) : JSNum.mathRound (JSNum.fin x) = JSNum.fin (⌊x + 1 / 2⌋ : ℤ) := rfl

/-- The pricing expression of `getQuote` and `getAlteration` on a cover amount
up to `10 ^ 7` and an age up to 124 evaluates to the premium of the specification. -/
theorem price_eval (c a mi : ℕ) (M : ℚ) (hc : c ≤ 10 ^ 7) (ha : a ≤ 124)
    (hf : MultiplierFacts mi M) (h : Bool) :
    JSNum.mathRound
      (if (!h) = true then
        JSNum.add (JSNum.mul (JSNum.mul (JSNum.div (JSNum.fin c) (JSNum.ofInt 10000))
          (JSNum.ofInt (a : ℤ))) (JSNum.fin M)) (JSNum.ofInt 25000)
      else JSNum.mul (JSNum.mul (JSNum.div (JSNum.fin c) (JSNum.ofInt 10000))
          (JSNum.ofInt (a : ℤ))) (JSNum.fin M))
      = JSNum.fin (specPremium c a ((mi : ℚ) / 100) h) := by
  obtain ⟨_, hmi, h5, hM0, hM1, hMm, hside⟩ := hf
  obtain ⟨e1, e2, e3⟩ := price_chain_fin c a M hc ha (by linarith) hM1
  obtain ⟨f2, f3⟩ := price_floor c a mi M hc ha hmi h5 hM0 hM1 hMm hside
  rw [e1, e2, e3]
  cases h
  · rw [if_pos (by simp), mathRound_fin, f3]
    simp [specPremium]
  · rw [if_neg (by simp), mathRound_fin, f2]
    simp [specPremium]

/-- The premium `getQuote` puts in its single package, as an expression. -/
theorem getQuote_premium_expr (env : Env) (data : QuoteRequest) :
    ∃ p, getQuote env data = [p] ∧ p.base_premium = p.suggested_premium ∧
      p.suggested_premium = JSNum.mathRound
        (if (!data.health_checks_updated) = true then
          JSNum.add (JSNum.mul (JSNum.mul (JSNum.div data.cover_amount (JSNum.ofInt 10000))
            (JSNum.ofInt (getFullYear env env.now - getFullYear env data.birth_date)))
            (JSNum.ofLookup (getQuote.speciesMultipliers data.species))) (JSNum.ofInt 25000)
        else JSNum.mul (JSNum.mul (JSNum.div data.cover_amount (JSNum.ofInt 10000))
            (JSNum.ofInt (getFullYear env env.now - getFullYear env data.birth_date)))
            (JSNum.ofLookup (getQuote.speciesMultipliers data.species))) :=
  ⟨_, rfl, rfl, rfl⟩

/-- Evaluation of one arithmetic result from its binade and nearest mantissa. -/
theorem ofRat_eval (q : ℚ) (e v : ℤ) (hlo : 2 ^ e ≤ q) (hhi : q < 2 ^ (e + 1))
    (he : -1022 ≤ e) (he1 : e ≤ 1022) (hv : |q / 2 ^ (e - 52) - v| < 1 / 2) :
    JSNum.ofRat q = JSNum.fin ((v : ℚ) * 2 ^ (e - 52)) := by
  have h0 : 0 ≤ q := le_trans (two_zpow_pos e).le hlo
  have h1 : q ≤ 2 ^ 1023 := by
    have : (2 : ℚ) ^ (e + 1) ≤ 2 ^ ((1023 : ℕ) : ℤ) :=
      zpow_le_zpow_right₀ (by norm_num) (by omega)
    rw [zpow_natCast] at this
    exact le_trans hhi.le this
  rw [ofRat_eq_fin q h0 h1, roundDouble_eq_of_near q e v hlo hhi he hv]

/-- The adjusted premium of `oldStegosaurus`: just below the tie 19218.5. -/
theorem oldStegosaurus_adjusted :
    JSNum.mul (JSNum.mul (JSNum.div (JSNum.fin 1292000) (JSNum.ofInt 10000)) (JSNum.ofInt 125))
      (JSNum.fin (5359283556570890 * 2 ^ (-52 : ℤ)))
      = JSNum.fin (5282741054603263 * 2 ^ (-38 : ℤ)) := by
  have e125 : JSNum.ofInt 125 = JSNum.fin 125 := by
    have h := ofInt_natCast 125 (by norm_num : (125 : ℕ) ≤ 2 ^ 53)
    exact_mod_cast h
  rw [ofInt_10000, e125, div_fin_fin _ _ (by norm_num)]
  have s0 : JSNum.ofRat (1292000 / 10000) = JSNum.fin (4545820873877094 * 2 ^ (-45 : ℤ)) := by
    have := ofRat_eval (1292000 / 10000) 7 4545820873877094 (by norm_num) (by norm_num)
      (by norm_num) (by norm_num) (by rw [abs_lt]; constructor <;> norm_num)
    simpa using this
  rw [s0, mul_fin_fin]
  have s1 : JSNum.ofRat (4545820873877094 * 2 ^ (-45 : ℤ) * 125)
      = JSNum.fin (8878556394291199 * 2 ^ (-39 : ℤ)) := by
    have := ofRat_eval (4545820873877094 * 2 ^ (-45 : ℤ) * 125) 13 8878556394291199
      (by norm_num) (by norm_num) (by norm_num) (by norm_num)
      (by rw [abs_lt]; constructor <;> norm_num)
    simpa using this
  rw [s1, mul_fin_fin]
  have := ofRat_eval (8878556394291199 * 2 ^ (-39 : ℤ) * (5359283556570890 * 2 ^ (-52 : ℤ))) 14
    5282741054603263 (by norm_num) (by norm_num) (by norm_num) (by norm_num)
    (by rw [abs_lt]; constructor <;> norm_num)
  simpa using this

theorem oldStegosaurus_age :
    getFullYear sampleEnv sampleEnv.now - getFullYear sampleEnv oldStegosaurus.birth_date
      = 125 := by
  decide

/-- The suggested premium of `getQuote` on a listed species, a cover amount up
to `10 ^ 7` and an age up to 124, for either value of the health-check flag. -/
theorem getQuote_suggested_of_flag (env : Env) (data : QuoteRequest) (c a : ℕ) (m : ℚ)
    (flag : Bool) (hsp : specMultiplier data.species = some m)
    (hcov : data.cover_amount = JSNum.fin c) (hc : c ≤ 10 ^ 7)
    (hage : getFullYear env env.now - getFullYear env data.birth_date = a) (ha : a ≤ 124) :
    ∃ p, getQuote env { data with health_checks_updated := flag } = [p] ∧
      p.suggested_premium = JSNum.fin (specPremium c a m flag) := by
  obtain ⟨p, hp, _, hs⟩ := getQuote_premium_expr env { data with health_checks_updated := flag }
  obtain ⟨mi, M, hm, hf, hq, _⟩ := multiplier_lookup data.species m hsp
  refine ⟨p, hp, ?_⟩
  dsimp only at hs
  rw [hs, hcov, hage, hq, hm]
  exact price_eval c a mi M hc ha hf flag

/-- C1 (amended): for every request with a species of the multiplier table, an
integer cover amount from 0 to 10,000,000 and an age from 0 to 124, the single
package returned by `getQuote` has `base_premium` and `suggested_premium` equal
to the exact value `(cover_amount / 10000) * age * multiplier + s` rounded half
up once, with `s = 0` when health checks are up to date and 25000 otherwise. -/
theorem getQuote_premium_bounded (env : Env) (data : QuoteRequest) (c a : ℕ) (m : ℚ)
    (hsp : specMultiplier data.species = some m)
    (hcov : data.cover_amount = JSNum.fin c) (hc : c ≤ 10 ^ 7)
    (hage : getFullYear env env.now - getFullYear env data.birth_date = a) (ha : a ≤ 124) :
    ∃ p, getQuote env data = [p] ∧
      p.base_premium = JSNum.fin (specPremium c a m data.health_checks_updated) ∧
      p.suggested_premium = JSNum.fin (specPremium c a m data.health_checks_updated) := by
  obtain ⟨p, hp, hb, hs⟩ := getQuote_premium_expr env data
  obtain ⟨mi, M, hm, hf, hq, _⟩ := multiplier_lookup data.species m hsp
  have key : p.suggested_premium
      = JSNum.fin (specPremium c a m data.health_checks_updated) := by
    rw [hs, hcov, hage, hq, hm]
    exact price_eval c a mi M hc ha hf data.health_checks_updated
  exact ⟨p, hp, by rw [hb, key], key⟩

theorem sampleRequest_age :
    getFullYear sampleEnv sampleEnv.now - getFullYear sampleEnv sampleRequest.birth_date
      = ((16 : ℕ) : ℤ) := by
  decide

/-- Witness of C1 (amended): the 16-year-old Brachiosaurus with cover 6,500,000. -/
theorem getQuote_premium_bounded_witness :
    specMultiplier sampleRequest.species = some (132 / 100) ∧
    sampleRequest.cover_amount = JSNum.fin ((6500000 : ℕ) : ℚ) ∧
    6500000 ≤ 10 ^ 7 ∧
    getFullYear sampleEnv sampleEnv.now - getFullYear sampleEnv sampleRequest.birth_date
      = ((16 : ℕ) : ℤ) ∧
    16 ≤ 124 ∧
    ∃ p, getQuote sampleEnv sampleRequest = [p] ∧
      p.base_premium = JSNum.fin (specPremium ((6500000 : ℕ) : ℚ) ((16 : ℕ) : ℚ) (132 / 100)
        sampleRequest.health_checks_updated) ∧
      p.suggested_premium = JSNum.fin (specPremium ((6500000 : ℕ) : ℚ) ((16 : ℕ) : ℚ)
        (132 / 100) sampleRequest.health_checks_updated) :=
  ⟨by simp [specMultiplier, sampleRequest], by simp [sampleRequest], by norm_num,
    sampleRequest_age, by norm_num,
    getQuote_premium_bounded sampleEnv sampleRequest 6500000 16 (132 / 100)
      (by simp [specMultiplier, sampleRequest]) (by simp [sampleRequest]) (by norm_num)
      sampleRequest_age (by norm_num)⟩

theorem floor_19218 : ⌊(5282741054603263 * 2 ^ (-38 : ℤ) : ℚ) + 1 / 2⌋ = 19218 := by
  rw [Int.floor_eq_iff]
  constructor <;> norm_num

/-- C1 (counterexample): for a Stegosaurus aged 125 with cover 1,292,000 and
health checks up to date, `getQuote` returns the premium 19218, while the exact
value 129.2 * 125 * 1.19 = 19218.5 rounds half up to 19219. -/
theorem getQuote_premium_inexact :
    specMultiplier oldStegosaurus.species = some (119 / 100) ∧
    oldStegosaurus.cover_amount = JSNum.fin 1292000 ∧
    getFullYear sampleEnv sampleEnv.now - getFullYear sampleEnv oldStegosaurus.birth_date
      = 125 ∧
    (getQuote sampleEnv oldStegosaurus).map QuotePackage.suggested_premium
      = [JSNum.fin 19218] ∧
    (getQuote sampleEnv oldStegosaurus).map QuotePackage.base_premium = [JSNum.fin 19218] ∧
    specPremium 1292000 125 (119 / 100) oldStegosaurus.health_checks_updated = 19219 := by
  obtain ⟨p, hp, hb, hs⟩ := getQuote_premium_expr sampleEnv oldStegosaurus
  have hq : getQuote.speciesMultipliers oldStegosaurus.species
      = some (JSNum.fin (5359283556570890 * 2 ^ (-52 : ℤ))) := by
    have h := facts_119.1
    simp only [getQuote.speciesMultipliers, oldStegosaurus]
    rw [if_neg (by decide), if_pos True.intro]
    exact congrArg some (by exact_mod_cast h)
  have key : p.suggested_premium = JSNum.fin 19218 := by
    rw [hs, oldStegosaurus_age, hq]
    have hc : oldStegosaurus.cover_amount = JSNum.fin 1292000 := rfl
    have hh : oldStegosaurus.health_checks_updated = true := rfl
    rw [hc, hh, if_neg (by simp)]
    simp only [JSNum.ofLookup]
    rw [oldStegosaurus_adjusted, mathRound_fin, floor_19218]
    norm_num
  refine ⟨by simp [specMultiplier, oldStegosaurus], rfl, oldStegosaurus_age, ?_, ?_, ?_⟩
  · rw [hp]; simp [key]
  · rw [hp]; simp [hb, key]
  · unfold specPremium
    rw [Int.floor_eq_iff]
    simp only [oldStegosaurus]
    constructor <;> norm_num

/-! ## Alteration pricing -/

theorem speciesMultipliers_agree (species : String) :
    getAlteration.speciesMultipliers (some species) = getQuote.speciesMultipliers species := by
  unfold getAlteration.speciesMultipliers getQuote.speciesMultipliers
  simp only [Option.some.injEq]

/-- The package `getAlteration` builds for the key `update_cover`. -/
theorem getAlteration_update_cover (policy : Policy) (policyholder : Policyholder)
    (params : AlterationParams) :
    ∃ pkg, getAlteration "update_cover" policy policyholder params = Except.ok pkg ∧
      pkg.sum_assured = params.cover_amount ∧
      pkg.monthly_premium = JSNum.mathRound
        (if (!truthy policy.module.health_checks_updated) = true then
          JSNum.add (JSNum.mul (JSNum.mul (JSNum.div params.cover_amount (JSNum.ofInt 10000))
            (JSNum.ofLookup policy.module.age))
            (JSNum.ofLookup (getAlteration.speciesMultipliers policy.module.species)))
            (JSNum.ofInt 25000)
        else JSNum.mul (JSNum.mul (JSNum.div params.cover_amount (JSNum.ofInt 10000))
            (JSNum.ofLookup policy.module.age))
            (JSNum.ofLookup (getAlteration.speciesMultipliers policy.module.species))) ∧
      pkg.module = { policy.module with
                     cover_amount := some params.cover_amount
                     old_cover_amount := some policy.sum_assured
                     old_premium := some policy.monthly_premium } ∧
      pkg.billing_frequency = "monthly" ∧ pkg.input_data = params := by
  unfold getAlteration
  rw [if_pos rfl]
  exact ⟨_, rfl, rfl, rfl, rfl, rfl, rfl⟩

/-- C2: for every policy and every new cover amount, the `monthly_premium` of
the package `getAlteration` builds for `update_cover` equals the
`suggested_premium` of the package `getQuote` returns for a request with that
cover amount whose age, species and health-check flag are those of
`policy.module`. -/
theorem getAlteration_premium_eq_getQuote (env : Env) (data : QuoteRequest) (policy : Policy)
    (policyholder : Policyholder) (params : AlterationParams)
    (hcov : data.cover_amount = params.cover_amount)
    (hage : policy.module.age
      = some (JSNum.ofInt (getFullYear env env.now - getFullYear env data.birth_date)))
    (hsp : policy.module.species = some data.species)
    (hh : policy.module.health_checks_updated = some data.health_checks_updated) :
    ∃ pkg q, getAlteration "update_cover" policy policyholder params = Except.ok pkg ∧
      getQuote env data = [q] ∧ pkg.monthly_premium = q.suggested_premium := by
  obtain ⟨pkg, h1, _, h2, _⟩ := getAlteration_update_cover policy policyholder params
  obtain ⟨q, h3, _, h4⟩ := getQuote_premium_expr env data
  refine ⟨pkg, q, h1, h3, ?_⟩
  rw [h2, h4, hage, hsp, hh, hcov, speciesMultipliers_agree]
  simp only [truthy, JSNum.ofLookup]

/-- Witness of C2: the 20-year-old Tyrannosaurus Rex altered to cover 7,500,000. -/
theorem getAlteration_premium_eq_getQuote_witness :
    sampleTRexRequest.cover_amount = sampleParams.cover_amount ∧
    samplePolicy.module.age = some (JSNum.ofInt
      (getFullYear sampleEnv sampleEnv.now - getFullYear sampleEnv sampleTRexRequest.birth_date)) ∧
    samplePolicy.module.species = some sampleTRexRequest.species ∧
    samplePolicy.module.health_checks_updated = some sampleTRexRequest.health_checks_updated ∧
    ∃ pkg q, getAlteration "update_cover" samplePolicy samplePolicyholder sampleParams
        = Except.ok pkg ∧
      getQuote sampleEnv sampleTRexRequest = [q] ∧ pkg.monthly_premium = q.suggested_premium :=
  have hage : samplePolicy.module.age = some (JSNum.ofInt
      (getFullYear sampleEnv sampleEnv.now
        - getFullYear sampleEnv sampleTRexRequest.birth_date)) := by
    have e : getFullYear sampleEnv sampleEnv.now
        - getFullYear sampleEnv sampleTRexRequest.birth_date = ((20 : ℕ) : ℤ) := by decide
    rw [e, ofInt_natCast 20 (by norm_num)]
    simp [samplePolicy]
  ⟨rfl, hage, rfl, rfl,
    getAlteration_premium_eq_getQuote sampleEnv sampleTRexRequest samplePolicy
      samplePolicyholder sampleParams rfl hage rfl rfl⟩

/-! ## The health-check surcharge -/

theorem specPremium_false (c a m : ℚ) :
    specPremium c a m false = specPremium c a m true + 25000 := by
  unfold specPremium
  rw [if_neg (by simp), if_pos rfl]
  have : c / 10000 * a * m + 25000 + 1 / 2
      = (c / 10000 * a * m + 0 + 1 / 2) + ((25000 : ℤ) : ℚ) := by
    push_cast; ring
  rw [this, Int.floor_add_int]

/-- C3 (amended): for every listed species, integer cover amount from 0 to
10,000,000 and age from 0 to 124, the `suggested_premium` that `getQuote`
returns with `health_checks_updated = false` exceeds the one it returns with
`health_checks_updated = true` by exactly 25000. -/
theorem surcharge_difference_bounded (env : Env) (data : QuoteRequest) (c a : ℕ) (m : ℚ)
    (hsp : specMultiplier data.species = some m)
    (hcov : data.cover_amount = JSNum.fin c) (hc : c ≤ 10 ^ 7)
    (hage : getFullYear env env.now - getFullYear env data.birth_date = a) (ha : a ≤ 124) :
    ∃ (p q : QuotePackage) (x : ℤ),
      getQuote env { data with health_checks_updated := false } = [p] ∧
      getQuote env { data with health_checks_updated := true } = [q] ∧
      q.suggested_premium = JSNum.fin x ∧ p.suggested_premium = JSNum.fin ((x + 25000 : ℤ) : ℚ) := by
  obtain ⟨p, hp, hps⟩ := getQuote_suggested_of_flag env data c a m false hsp hcov hc hage ha
  obtain ⟨q, hq, hqs⟩ := getQuote_suggested_of_flag env data c a m true hsp hcov hc hage ha
  refine ⟨p, q, specPremium c a m true, hp, hq, hqs, ?_⟩
  rw [hps]
  exact congrArg (fun z : ℤ => JSNum.fin (z : ℚ)) (specPremium_false c a m)

/-- Witness of C3 (amended): the 16-year-old Brachiosaurus with cover 6,500,000. -/
theorem surcharge_difference_bounded_witness :
    specMultiplier sampleRequest.species = some (132 / 100) ∧
    sampleRequest.cover_amount = JSNum.fin ((6500000 : ℕ) : ℚ) ∧
    6500000 ≤ 10 ^ 7 ∧
    getFullYear sampleEnv sampleEnv.now - getFullYear sampleEnv sampleRequest.birth_date
      = ((16 : ℕ) : ℤ) ∧
    16 ≤ 124 ∧
    ∃ (p q : QuotePackage) (x : ℤ),
      getQuote sampleEnv { sampleRequest with health_checks_updated := false } = [p] ∧
      getQuote sampleEnv { sampleRequest with health_checks_updated := true } = [q] ∧
      q.suggested_premium = JSNum.fin x ∧
      p.suggested_premium = JSNum.fin ((x + 25000 : ℤ) : ℚ) :=
  ⟨by simp [specMultiplier, sampleRequest], by simp [sampleRequest], by norm_num,
    sampleRequest_age, by norm_num,
    surcharge_difference_bounded sampleEnv sampleRequest 6500000 16 (132 / 100)
      (by simp [specMultiplier, sampleRequest]) (by simp [sampleRequest]) (by norm_num)
      sampleRequest_age (by norm_num)⟩

/-- A tie between two neighbouring integers goes to the even one. -/
theorem roundHalfEven_tie (t : ℚ) (v : ℤ) (hv : v % 2 = 0)
    (h : t = (v : ℚ) - 1 / 2 ∨ t = (v : ℚ) + 1 / 2) : roundHalfEven t = v := by
  rcases h with h | h
  · have hf : ⌊t⌋ = v - 1 := by
      rw [Int.floor_eq_iff, h]; push_cast; constructor <;> linarith
    unfold roundHalfEven
    rw [hf, h]
    push_cast
    rw [if_neg (by linarith), if_neg (by linarith), if_neg (by omega)]
    ring
  · have hf : ⌊t⌋ = v := by
      rw [Int.floor_eq_iff, h]; constructor <;> linarith
    unfold roundHalfEven
    rw [hf, h]
    rw [if_neg (by linarith), if_neg (by linarith), if_pos hv]

/-- Evaluation of one arithmetic result that falls on a tie of the grid. -/
theorem ofRat_eval_tie (q : ℚ) (e v : ℤ) (hlo : 2 ^ e ≤ q) (hhi : q < 2 ^ (e + 1))
    (he : -1022 ≤ e) (he1 : e ≤ 1022) (hv : v % 2 = 0)
    (h : q / 2 ^ (e - 52) = (v : ℚ) - 1 / 2 ∨ q / 2 ^ (e - 52) = (v : ℚ) + 1 / 2) :
    JSNum.ofRat q = JSNum.fin ((v : ℚ) * 2 ^ (e - 52)) := by
  have h0 : 0 < q := lt_of_lt_of_le (two_zpow_pos e) hlo
  have h1 : q ≤ 2 ^ 1023 := by
    have : (2 : ℚ) ^ (e + 1) ≤ 2 ^ ((1023 : ℕ) : ℤ) :=
      zpow_le_zpow_right₀ (by norm_num) (by omega)
    rw [zpow_natCast] at this
    exact le_trans hhi.le this
  have ht : quantumExp q = e - 52 := by
    unfold quantumExp
    rw [log_eq_of_bounds q e hlo hhi]
    exact max_eq_left (by omega)
  rw [ofRat_eq_fin q h0.le h1, roundDouble_of_ne q h0.ne', ht, roundHalfEven_tie _ v hv h]

theorem oldStegosaurus_surcharged :
    JSNum.add (JSNum.fin (5282741054603263 * 2 ^ (-38 : ℤ))) (JSNum.ofInt 25000)
      = JSNum.fin (6077344364101632 * 2 ^ (-37 : ℤ)) := by
  rw [ofInt_25000, add_fin_fin]
  have := ofRat_eval_tie (5282741054603263 * 2 ^ (-38 : ℤ) + 25000) 15 6077344364101632
    (by norm_num) (by norm_num) (by norm_num) (by norm_num) (by norm_num)
    (Or.inl (by norm_num))
  simpa using this

/-- C3 (counterexample): for a Stegosaurus aged 125 with cover 1,292,000,
`getQuote` returns 44219 without health checks and 19218 with them: the
difference is 25001. -/
theorem surcharge_difference_inexact :
    (getQuote sampleEnv { oldStegosaurus with health_checks_updated := false }).map
      QuotePackage.suggested_premium = [JSNum.fin 44219] ∧
    (getQuote sampleEnv { oldStegosaurus with health_checks_updated := true }).map
      QuotePackage.suggested_premium = [JSNum.fin 19218] ∧
    (44219 : ℚ) - 19218 ≠ 25000 := by
  have hq : JSNum.ofLookup (getQuote.speciesMultipliers "Stegosaurus")
      = JSNum.fin (5359283556570890 * 2 ^ (-52 : ℤ)) := by
    have h := facts_119.1
    simp only [getQuote.speciesMultipliers]
    rw [if_neg (by decide), if_pos True.intro]
    exact (by exact_mod_cast h)
  refine ⟨?_, ?_, by norm_num⟩
  · obtain ⟨p, hp, _, hs⟩ := getQuote_premium_expr sampleEnv
      { oldStegosaurus with health_checks_updated := false }
    have h1 : ({ oldStegosaurus with health_checks_updated := false } : QuoteRequest).cover_amount
        = JSNum.fin 1292000 := rfl
    have h2 : ({ oldStegosaurus with health_checks_updated := false } : QuoteRequest).species
        = "Stegosaurus" := rfl
    have h3 : ({ oldStegosaurus with health_checks_updated := false }
        : QuoteRequest).health_checks_updated = false := rfl
    have h4 : ({ oldStegosaurus with health_checks_updated := false } : QuoteRequest).birth_date
        = oldStegosaurus.birth_date := rfl
    rw [h1, h2, h3, h4, oldStegosaurus_age, if_pos (by simp), hq, oldStegosaurus_adjusted,
      oldStegosaurus_surcharged, mathRound_fin] at hs
    have hf : ⌊(6077344364101632 * 2 ^ (-37 : ℤ) : ℚ) + 1 / 2⌋ = 44219 := by
      rw [Int.floor_eq_iff]
      constructor <;> norm_num
    rw [hf] at hs
    rw [hp, List.map_cons, List.map_nil, hs]
    norm_num
  · obtain ⟨p, hp, _, hs⟩ := getQuote_premium_expr sampleEnv
      { oldStegosaurus with health_checks_updated := true }
    have h1 : ({ oldStegosaurus with health_checks_updated := true } : QuoteRequest).cover_amount
        = JSNum.fin 1292000 := rfl
    have h2 : ({ oldStegosaurus with health_checks_updated := true } : QuoteRequest).species
        = "Stegosaurus" := rfl
    have h3 : ({ oldStegosaurus with health_checks_updated := true }
        : QuoteRequest).health_checks_updated = true := rfl
    have h4 : ({ oldStegosaurus with health_checks_updated := true } : QuoteRequest).birth_date
        = oldStegosaurus.birth_date := rfl
    rw [h1, h2, h3, h4, oldStegosaurus_age, if_neg (by simp), hq, oldStegosaurus_adjusted,
      mathRound_fin, floor_19218] at hs
    rw [hp, List.map_cons, List.map_nil, hs]
    norm_num

/-! ## Monotonicity of the premium -/

theorem finiteBound_eq : finiteBound = 2 ^ 1023 := by
  unfold finiteBound
  rfl

theorem ofRat_eq_fin_of_le_bound (q : ℚ) (h0 : 0 ≤ q) (h1 : q ≤ finiteBound) :
    JSNum.ofRat q = JSNum.fin (roundDouble q) :=
  ofRat_eq_fin q h0 (by rw [finiteBound_eq] at h1; exact h1)

theorem ofRat_nonNeg (q : ℚ) (hq : 0 ≤ q) : (JSNum.ofRat q).NonNeg := by
  unfold JSNum.ofRat
  have h0 := roundDouble_nonneg q hq
  split_ifs with h1 h2
  · exact Or.inl rfl
  · exfalso
    have : (0 : ℚ) < 2 ^ 1024 := by positivity
    linarith
  · exact Or.inr ⟨_, h0, rfl⟩

theorem ofRat_le (q q' : ℚ) (hq : 0 ≤ q) (h : q ≤ q') :
    JSNum.le (JSNum.ofRat q) (JSNum.ofRat q') := by
  have hm := roundDouble_mono q q' hq h
  have h0 := roundDouble_nonneg q hq
  have hpos : (0 : ℚ) < 2 ^ 1024 := by positivity
  unfold JSNum.ofRat
  by_cases h1 : (2 : ℚ) ^ 1024 ≤ roundDouble q
  · rw [if_pos h1, if_pos (le_trans h1 hm)]
    trivial
  · rw [if_neg h1, if_neg (by linarith)]
    by_cases h2 : (2 : ℚ) ^ 1024 ≤ roundDouble q'
    · rw [if_pos h2]; trivial
    · rw [if_neg h2, if_neg (by linarith)]
      exact hm

theorem le_pinf_of_nonNeg (x : JSNum) (hx : x.NonNeg) : JSNum.le x JSNum.pinf := by
  rcases hx with rfl | ⟨r, _, rfl⟩ <;> trivial

/-- An operation that keeps `+∞` and acts on finite non-negative operands as a
monotone exact function followed by rounding is monotone. -/
theorem lift_mono (f : JSNum → JSNum) (g : ℚ → ℚ) (hinf : f JSNum.pinf = JSNum.pinf)
    (hfin : ∀ r : ℚ, 0 ≤ r → f (JSNum.fin r) = JSNum.ofRat (g r))
    (hg0 : ∀ r : ℚ, 0 ≤ r → 0 ≤ g r) (hg : ∀ r s : ℚ, 0 ≤ r → r ≤ s → g r ≤ g s)
    (x y : JSNum) (hx : x.NonNeg) (hy : y.NonNeg) (hxy : JSNum.le x y) :
    (f x).NonNeg ∧ (f y).NonNeg ∧ JSNum.le (f x) (f y) := by
  have nn : ∀ z : JSNum, z.NonNeg → (f z).NonNeg := by
    intro z hz
    rcases hz with rfl | ⟨r, hr, rfl⟩
    · rw [hinf]; exact Or.inl rfl
    · rw [hfin r hr]; exact ofRat_nonNeg _ (hg0 r hr)
  refine ⟨nn x hx, nn y hy, ?_⟩
  rcases hy with rfl | ⟨s, hs, rfl⟩
  · rw [hinf]; exact le_pinf_of_nonNeg _ (nn x hx)
  · rcases hx with rfl | ⟨r, hr, rfl⟩
    · exact absurd hxy (by intro h; exact h)
    · rw [hfin r hr, hfin s hs]
      exact ofRat_le _ _ (hg0 r hr) (hg r s hr hxy)

theorem mathRound_mono (x y : JSNum) (hx : x.NonNeg) (hy : y.NonNeg) (hxy : JSNum.le x y) :
    JSNum.le (JSNum.mathRound x) (JSNum.mathRound y) := by
  rcases hy with rfl | ⟨s, hs, rfl⟩
  · rcases hx with rfl | ⟨r, hr, rfl⟩ <;> trivial
  · rcases hx with rfl | ⟨r, hr, rfl⟩
    · exact absurd hxy (by intro h; exact h)
    · have h1 : r ≤ s := hxy
      have : ⌊r + 1 / 2⌋ ≤ ⌊s + 1 / 2⌋ := Int.floor_mono (by linarith)
      show ((⌊r + 1 / 2⌋ : ℤ) : ℚ) ≤ ((⌊s + 1 / 2⌋ : ℤ) : ℚ)
      exact_mod_cast this

/-- C4: for a fixed listed species and health-check flag, the premium
`getQuote` computes is non-decreasing in the cover amount and in the age: for
non-negative cover amounts `c ≤ c'` and ages `a ≤ a'` (finite numbers, at most
`2 ^ 1023`) the premium for
`(c, a)` is at most the premium for `(c', a')`; taking `a' = a` or `c' = c`
gives monotonicity in each argument separately. -/
theorem getQuote_premium_monotone (env env' : Env) (data data' : QuoteRequest) (c c' : ℚ)
    (a a' : ℤ) (m : ℚ) (hsp : specMultiplier data.species = some m)
    (hsp' : data'.species = data.species)
    (hh : data'.health_checks_updated = data.health_checks_updated)
    (hcov : data.cover_amount = JSNum.fin c) (hcov' : data'.cover_amount = JSNum.fin c')
    (hc0 : 0 ≤ c) (hcc : c ≤ c') (hcfin : c' ≤ finiteBound)
    (hage : getFullYear env env.now - getFullYear env data.birth_date = a)
    (hage' : getFullYear env' env'.now - getFullYear env' data'.birth_date = a')
    (ha0 : 0 ≤ a) (haa : a ≤ a') (hafin : (a' : ℚ) ≤ finiteBound) :
    ∃ p p', getQuote env data = [p] ∧ getQuote env' data' = [p'] ∧
      JSNum.le p.suggested_premium p'.suggested_premium ∧
      JSNum.le p.base_premium p'.base_premium := by
  obtain ⟨p, hp, hb, hs⟩ := getQuote_premium_expr env data
  obtain ⟨p', hp', hb', hs'⟩ := getQuote_premium_expr env' data'
  obtain ⟨mi, M, hm, hf, hq, _⟩ := multiplier_lookup data.species m hsp
  obtain ⟨_, _, _, hM0, _, _, _⟩ := hf
  have hMpos : 0 < M := by linarith
  -- the core premium
  have hc0' : 0 ≤ c' := le_trans hc0 hcc
  have haq0 : (0 : ℚ) ≤ a := by exact_mod_cast ha0
  have haq : (a : ℚ) ≤ a' := by exact_mod_cast haa
  have haq0' : (0 : ℚ) ≤ a' := le_trans haq0 haq
  have d : ∀ z : ℚ, 0 ≤ z → z ≤ finiteBound →
      JSNum.div (JSNum.fin z) (JSNum.ofInt 10000) = JSNum.fin (roundDouble (z / 10000)) := by
    intro z hz0 hz1
    rw [ofInt_10000, div_fin_fin _ _ (by norm_num)]
    exact ofRat_eq_fin_of_le_bound _ (div_nonneg hz0 (by norm_num))
      (le_trans (div_le_self hz0 (by norm_num)) hz1)
  have ag : ∀ z : ℤ, (0 : ℚ) ≤ z → (z : ℚ) ≤ finiteBound →
      JSNum.ofInt z = JSNum.fin (roundDouble z) :=
    fun z hz0 hz1 => ofRat_eq_fin_of_le_bound _ hz0 hz1
  have q0 : 0 ≤ c / 10000 := div_nonneg hc0 (by norm_num)
  have u0 : 0 ≤ roundDouble (c / 10000) := roundDouble_nonneg _ q0
  have u1 : roundDouble (c / 10000) ≤ roundDouble (c' / 10000) :=
    roundDouble_mono _ _ q0 (div_le_div_of_nonneg_right hcc (by norm_num))
  have v0 : 0 ≤ roundDouble (a : ℚ) := roundDouble_nonneg _ haq0
  have v1 : roundDouble (a : ℚ) ≤ roundDouble (a' : ℚ) := roundDouble_mono _ _ haq0 haq
  have core :=  ofRat_le (roundDouble (c / 10000) * roundDouble (a : ℚ))
    (roundDouble (c' / 10000) * roundDouble (a' : ℚ)) (mul_nonneg u0 v0)
    (mul_le_mul u1 v1 v0 (le_trans u0 u1))
  have coreN := ofRat_nonNeg _ (mul_nonneg u0 v0)
  have coreN' := ofRat_nonNeg _ (mul_nonneg (le_trans u0 u1) (le_trans v0 v1))
  -- times the multiplier
  obtain ⟨adjN, adjN', adj⟩ := lift_mono (fun x => JSNum.mul x (JSNum.fin M)) (fun r => r * M)
    (by show JSNum.infTimes true M = JSNum.pinf
        unfold JSNum.infTimes
        rw [if_neg hMpos.ne', if_pos (by simp [hMpos])])
    (fun r _ => mul_fin_fin r M) (fun r hr => mul_nonneg hr hMpos.le)
    (fun r s _ hrs => mul_le_mul_of_nonneg_right hrs hMpos.le) _ _ coreN coreN' core
  -- plus the surcharge
  obtain ⟨surN, surN', sur⟩ := lift_mono (fun x => JSNum.add x (JSNum.ofInt 25000))
    (fun r => r + 25000) (by rw [ofInt_25000]; rfl)
    (fun r _ => by rw [ofInt_25000]; exact add_fin_fin r 25000)
    (fun r hr => add_nonneg hr (by norm_num)) (fun r s _ hrs => add_le_add_right hrs _)
    _ _ adjN adjN' adj
  have key : JSNum.le p.suggested_premium p'.suggested_premium := by
    rw [hs, hs', hcov, hcov', hage, hage', hsp', hh, hq, d c hc0 (le_trans hcc hcfin),
      d c' hc0' hcfin, ag a haq0 (le_trans haq hafin), ag a' haq0' hafin, mul_fin_fin,
      mul_fin_fin]
    simp only [JSNum.ofLookup]
    cases data.health_checks_updated
    · rw [if_pos (by simp), if_pos (by simp)]
      exact mathRound_mono _ _ surN surN' sur
    · rw [if_neg (by simp), if_neg (by simp)]
      exact mathRound_mono _ _ adjN adjN' adj
  exact ⟨p, p', hp, hp', key, by rw [hb, hb']; exact key⟩

theorem sampleRequestLarger_age :
    getFullYear sampleEnv sampleEnv.now - getFullYear sampleEnv sampleRequestLarger.birth_date
      = 20 := by
  decide

/-- Witness of C4: the Brachiosaurus aged 16 with cover 6,500,000 against the
one aged 20 with cover 7,500,000. -/
theorem getQuote_premium_monotone_witness :
    specMultiplier sampleRequest.species = some (132 / 100) ∧
    sampleRequestLarger.species = sampleRequest.species ∧
    sampleRequestLarger.health_checks_updated = sampleRequest.health_checks_updated ∧
    sampleRequest.cover_amount = JSNum.fin 6500000 ∧
    sampleRequestLarger.cover_amount = JSNum.fin 7500000 ∧
    (0 : ℚ) ≤ 6500000 ∧ (6500000 : ℚ) ≤ 7500000 ∧ (7500000 : ℚ) ≤ finiteBound ∧
    getFullYear sampleEnv sampleEnv.now - getFullYear sampleEnv sampleRequest.birth_date = 16 ∧
    getFullYear sampleEnv sampleEnv.now - getFullYear sampleEnv sampleRequestLarger.birth_date
      = 20 ∧
    (0 : ℤ) ≤ 16 ∧ (16 : ℤ) ≤ 20 ∧ (((20 : ℤ) : ℚ)) ≤ finiteBound ∧
    ∃ p p', getQuote sampleEnv sampleRequest = [p] ∧
      getQuote sampleEnv sampleRequestLarger = [p'] ∧
      JSNum.le p.suggested_premium p'.suggested_premium ∧
      JSNum.le p.base_premium p'.base_premium :=
  have h1 : specMultiplier sampleRequest.species = some (132 / 100) := by
    simp [specMultiplier, sampleRequest]
  have h2 : (7500000 : ℚ) ≤ finiteBound := by rw [finiteBound_eq]; norm_num
  have h3 : (((20 : ℤ) : ℚ)) ≤ finiteBound := by rw [finiteBound_eq]; norm_num
  have h4 : getFullYear sampleEnv sampleEnv.now
      - getFullYear sampleEnv sampleRequest.birth_date = 16 := by decide
  ⟨h1, rfl, rfl, rfl, rfl, by norm_num, by norm_num, h2, h4, sampleRequestLarger_age,
    by norm_num, by norm_num, h3,
    getQuote_premium_monotone sampleEnv sampleEnv sampleRequest sampleRequestLarger 6500000
      7500000 16 20 (132 / 100) h1 rfl rfl rfl rfl (by norm_num) (by norm_num) h2 h4
      sampleRequestLarger_age (by norm_num) (by norm_num) h3⟩

/-! ## Reactivation gate -/

theorem containsText_append (pre sub post : String) : containsText (pre ++ sub ++ post) sub := by
  unfold containsText
  exact ⟨pre.data, post.data, by simp [String.data_append]⟩

theorem containsText_append_right (pre rest sub : String) (h : containsText rest sub) :
    containsText (pre ++ rest) sub := by
  unfold containsText at h ⊢
  obtain ⟨s, t, hst⟩ := h
  exact ⟨pre.data ++ s, t, by simp [String.data_append, ← hst]⟩

/-- C5: `beforePolicyReactivated` returns normally if and only if
`policy.status` is `cancelled` or `lapsed`; for every other status it raises an
error whose message contains that status and the text `cannot be reactivated`. -/
theorem beforePolicyReactivated_gate (env : Env) (policy : Policy)
    (policyholder : Policyholder) :
    ((∃ actions, beforePolicyReactivated env policy policyholder = Except.ok actions) ↔
      (policy.status = "cancelled" ∨ policy.status = "lapsed")) ∧
    ((policy.status = "cancelled" ∨ policy.status = "lapsed") ∨
      ∃ msg, beforePolicyReactivated env policy policyholder = Except.error msg ∧
        containsText msg policy.status ∧ containsText msg "cannot be reactivated") := by
  unfold beforePolicyReactivated
  by_cases h : policy.status = "cancelled" ∨ policy.status = "lapsed"
  · rw [if_pos h]
    exact ⟨⟨fun _ => h, fun _ => ⟨_, rfl⟩⟩, Or.inl h⟩
  · rw [if_neg h]
    refine ⟨Iff.intro (fun hx => by obtain ⟨_, he⟩ := hx; cases he) (fun h' => absurd h' h),
      Or.inr ⟨_, rfl, ?_, ?_⟩⟩
    · exact containsText_append _ _ _
    · refine containsText_append_right _ _ _ ?_
      have : ("\" cannot be reactivated. Only cancelled or lapsed policies can be reactivated."
          : String) = "\" " ++ "cannot be reactivated"
            ++ ". Only cancelled or lapsed policies can be reactivated." := by decide
      rw [this]
      exact containsText_append _ _ _

/-! ## Unknown alteration hook keys -/

/-- C6: for every `alteration_hook_key` other than `update_cover`, each of
`validateAlterationPackageRequest`, `getAlteration` and `applyAlteration` raises
the error `Invalid alteration hook key "<key>"` and returns nothing, whatever
the policy, the params and the alteration package. -/
theorem invalid_hook_key_rejected (key : String) (policy : Policy) (policyholder : Policyholder)
    (body : Payload) (params : AlterationParams) (alteration_package : AlterationPackage)
    (hkey : key ≠ "update_cover") :
    validateAlterationPackageRequest key policy body
      = Except.error ("Invalid alteration hook key \"" ++ key ++ "\"") ∧
    getAlteration key policy policyholder params
      = Except.error ("Invalid alteration hook key \"" ++ key ++ "\"") ∧
    applyAlteration key policy policyholder alteration_package
      = Except.error ("Invalid alteration hook key \"" ++ key ++ "\"") := by
  unfold validateAlterationPackageRequest getAlteration applyAlteration invalidHookKey
  rw [if_neg hkey, if_neg hkey, if_neg hkey]
  exact ⟨rfl, rfl, rfl⟩

/-- Witness of C6: the key `cancel_cover`. -/
theorem invalid_hook_key_rejected_witness :
    "cancel_cover" ≠ "update_cover" ∧
    validateAlterationPackageRequest "cancel_cover" samplePolicy
        [("cover_amount", JSValue.num (JSNum.fin 7500000))]
      = Except.error ("Invalid alteration hook key \"" ++ "cancel_cover" ++ "\"") ∧
    getAlteration "cancel_cover" samplePolicy samplePolicyholder sampleParams
      = Except.error ("Invalid alteration hook key \"" ++ "cancel_cover" ++ "\"") ∧
    applyAlteration "cancel_cover" samplePolicy samplePolicyholder sampleAlterationPackage
      = Except.error ("Invalid alteration hook key \"" ++ "cancel_cover" ++ "\"") :=
  ⟨by decide, invalid_hook_key_rejected "cancel_cover" samplePolicy samplePolicyholder
    [("cover_amount", JSValue.num (JSNum.fin 7500000))] sampleParams sampleAlterationPackage
    (by decide)⟩

/-! ## Rounding of negative numbers -/

theorem roundHalfEven_neg (t : ℚ) : roundHalfEven (-t) = -roundHalfEven t := by
  have h1 : (⌊t⌋ : ℚ) ≤ t := Int.floor_le t
  have h2 : t < ⌊t⌋ + 1 := Int.lt_floor_add_one t
  rcases lt_trichotomy (t - ⌊t⌋) (1 / 2) with h | h | h
  · have a := roundHalfEven_eq_of_near t ⌊t⌋ (by rw [abs_of_nonneg (by linarith)]; exact h)
    have b := roundHalfEven_eq_of_near (-t) (-⌊t⌋) (by
      push_cast
      rw [show -t - -(⌊t⌋ : ℚ) = -(t - ⌊t⌋) by ring, abs_neg, abs_of_nonneg (by linarith)]
      exact h)
    rw [a, b]
  · have ht : t = (⌊t⌋ : ℚ) + 1 / 2 := by linarith
    rcases Int.emod_two_eq_zero_or_one ⌊t⌋ with hp | hp
    · have a := roundHalfEven_tie t ⌊t⌋ hp (Or.inr ht)
      have b := roundHalfEven_tie (-t) (-⌊t⌋) (by omega) (Or.inl (by push_cast; linarith))
      rw [a, b]
    · have a := roundHalfEven_tie t (⌊t⌋ + 1) (by omega) (Or.inl (by push_cast; linarith))
      have b := roundHalfEven_tie (-t) (-(⌊t⌋ + 1)) (by omega)
        (Or.inr (by push_cast; linarith))
      rw [a, b]
  · have a := roundHalfEven_eq_of_near t (⌊t⌋ + 1) (by
      push_cast
      rw [abs_sub_comm, abs_of_nonneg (by linarith)]
      linarith)
    have b := roundHalfEven_eq_of_near (-t) (-(⌊t⌋ + 1)) (by
      push_cast
      rw [show -t - -((⌊t⌋ : ℚ) + 1) = (⌊t⌋ : ℚ) + 1 - t by ring, abs_of_nonneg (by linarith)]
      linarith)
    rw [a, b]

theorem roundDouble_neg (q : ℚ) : roundDouble (-q) = -roundDouble q := by
  unfold roundDouble
  by_cases h : q = 0
  · simp [h]
  · have hq : quantumExp (-q) = quantumExp q := by unfold quantumExp; rw [abs_neg]
    rw [if_neg h, if_neg (neg_ne_zero.mpr h), hq, neg_div, roundHalfEven_neg]
    push_cast
    ring

/-- An operation with a non-positive exact result, in the finite range. -/
theorem ofRat_neg (q : ℚ) (h0 : 0 ≤ q) (h1 : q ≤ finiteBound) :
    JSNum.ofRat (-q) = JSNum.fin (-roundDouble q) := by
  rw [finiteBound_eq] at h1
  have hd : IsDouble ((2 : ℚ) ^ 1023) := ⟨1, 1023, by norm_num, by norm_num, by norm_num⟩
  have hle : roundDouble q ≤ 2 ^ 1023 := by
    have := roundDouble_mono q (2 ^ 1023) h0 h1
    rwa [roundDouble_of_isDouble _ (by positivity) hd] at this
  have hge := roundDouble_nonneg q h0
  have hlt : (2 : ℚ) ^ 1023 < 2 ^ 1024 := by norm_num
  have hpos : (0 : ℚ) < 2 ^ 1024 := by positivity
  unfold JSNum.ofRat
  rw [roundDouble_neg, if_neg (by linarith), if_neg (by linarith)]

theorem ofInt_intCast (z : ℤ) (h : |z| ≤ 2 ^ 53) : JSNum.ofInt z = JSNum.fin z := by
  rcases le_or_lt 0 z with hz | hz
  · obtain ⟨n, rfl⟩ := Int.eq_ofNat_of_zero_le hz
    have hn : n ≤ 2 ^ 53 := by
      rw [abs_of_nonneg hz] at h
      exact_mod_cast h
    have := ofInt_natCast n hn
    simpa using this
  · obtain ⟨n, hn⟩ := Int.eq_ofNat_of_zero_le (by omega : 0 ≤ -z)
    have hz' : z = -(n : ℤ) := by omega
    have hn53 : n ≤ 2 ^ 53 := by
      rw [abs_of_neg hz, hn] at h
      exact_mod_cast h
    have hb : (n : ℚ) ≤ finiteBound := by
      rw [finiteBound_eq]
      have : (n : ℚ) ≤ 2 ^ 53 := by exact_mod_cast hn53
      exact le_trans this (by norm_num)
    unfold JSNum.ofInt
    rw [hz']
    push_cast
    rw [ofRat_neg _ (by positivity) hb, roundDouble_natCast n hn53]

/-! ## Anniversary cover increase -/

theorem monthDiffCore_of_ge (env : Env) (a b W anchor anchor2 : ℤ)
    (hW : ((localCivil env b).1 - (localCivil env a).1) * 12
      + ((localCivil env b).2.1 - (localCivil env a).2.1) = W)
    (hA : addMonths env a W = anchor) (hA2 : addMonths env a (W + 1) = anchor2)
    (hc : ¬ b - anchor < 0) (d₀ d₁ : ℤ) (h0 : b - anchor = d₀) (h1 : anchor2 - anchor = d₁) :
    monthDiffCore env a b = JSNum.orZero (JSNum.neg (JSNum.add (JSNum.ofInt W)
      (JSNum.div (JSNum.ofInt d₀) (JSNum.ofInt d₁)))) := by
  unfold monthDiffCore
  rw [h0] at hc
  simp only [hW, hA, hA2, h0, h1, if_neg hc]

theorem monthDiffCore_of_lt (env : Env) (a b W anchor anchor2 : ℤ)
    (hW : ((localCivil env b).1 - (localCivil env a).1) * 12
      + ((localCivil env b).2.1 - (localCivil env a).2.1) = W)
    (hA : addMonths env a W = anchor) (hA2 : addMonths env a (W - 1) = anchor2)
    (hc : b - anchor < 0) (d₀ d₁ : ℤ) (h0 : b - anchor = d₀) (h1 : anchor - anchor2 = d₁) :
    monthDiffCore env a b = JSNum.orZero (JSNum.neg (JSNum.add (JSNum.ofInt W)
      (JSNum.div (JSNum.ofInt d₀) (JSNum.ofInt d₁)))) := by
  unfold monthDiffCore
  rw [h0] at hc
  simp only [hW, hA, hA2, h0, h1, if_pos hc]

theorem ofRat_zero : JSNum.ofRat 0 = JSNum.fin 0 := by
  have := ofRat_eq_fin 0 le_rfl (by positivity)
  rw [roundDouble_zero] at this
  exact this

/-- Months elapsed when the effective date falls on the start day of a month
`n` months later: exactly `n`. -/
theorem months_exact (n : ℕ) (hn : n ≤ 2 ^ 53) (d : ℤ) (hd : 0 < d) (hd1 : d ≤ 2 ^ 53) :
    JSNum.orZero (JSNum.neg (JSNum.add (JSNum.ofInt (-(n : ℤ)))
      (JSNum.div (JSNum.ofInt 0) (JSNum.ofInt d)))) = JSNum.fin n := by
  have e0 : JSNum.ofInt 0 = JSNum.fin 0 := ofRat_zero
  have ed : JSNum.ofInt d = JSNum.fin d :=
    ofInt_intCast d (by rw [abs_of_pos hd]; exact hd1)
  have en : JSNum.ofInt (-(n : ℤ)) = JSNum.fin (-(n : ℚ)) := by
    have := ofInt_intCast (-(n : ℤ)) (by rw [abs_neg, abs_of_nonneg (by positivity)]; exact_mod_cast hn)
    simpa using this
  have hdq : (d : ℚ) ≠ 0 := by exact_mod_cast hd.ne'
  rw [e0, ed, en, div_fin_fin _ _ hdq, zero_div, ofRat_zero, add_fin_fin, add_zero]
  have hb : (n : ℚ) ≤ finiteBound := by
    rw [finiteBound_eq]
    have : (n : ℚ) ≤ 2 ^ 53 := by exact_mod_cast hn
    exact le_trans this (by norm_num)
  rw [ofRat_neg _ (by positivity) hb, roundDouble_natCast n hn]
  simp [JSNum.neg, JSNum.orZero]

/-- A month count of at least 12 is at least one year. -/
theorem years_ge_one (y : ℚ) (h : 12 ≤ y) :
    JSNum.le (JSNum.ofInt 1) (JSNum.div (JSNum.fin y) (JSNum.ofInt 12)) := by
  have e12 : JSNum.ofInt 12 = JSNum.fin 12 := by
    have := ofInt_natCast 12 (by norm_num : (12 : ℕ) ≤ 2 ^ 53)
    exact_mod_cast this
  rw [e12, div_fin_fin _ _ (by norm_num)]
  have h1 : (1 : ℚ) ≤ y / 12 := by rw [le_div_iff₀ (by norm_num)]; linarith
  have := ofRat_le 1 (y / 12) (by norm_num) h1
  unfold JSNum.ofInt
  exact_mod_cast this

/-- A month count of at most 9 is less than one year. -/
theorem years_lt_one (y : ℚ) (h0 : 0 ≤ y) (h : y ≤ 9) :
    ¬ JSNum.le (JSNum.ofInt 1) (JSNum.div (JSNum.fin y) (JSNum.ofInt 12)) := by
  have e12 : JSNum.ofInt 12 = JSNum.fin 12 := by
    have := ofInt_natCast 12 (by norm_num : (12 : ℕ) ≤ 2 ^ 53)
    exact_mod_cast this
  have e1 : JSNum.ofInt 1 = JSNum.fin 1 := by
    have := ofInt_natCast 1 (by norm_num : (1 : ℕ) ≤ 2 ^ 53)
    exact_mod_cast this
  have q0 : (0 : ℚ) ≤ y / 12 := div_nonneg h0 (by norm_num)
  have q1 : y / 12 ≤ 3 / 4 := by rw [div_le_iff₀ (by norm_num)]; linarith
  have hd : IsDouble (3 / 4 : ℚ) := ⟨3, -2, by norm_num, by norm_num, by norm_num⟩
  have hm := roundDouble_mono _ _ q0 q1
  rw [roundDouble_of_isDouble _ (by norm_num) hd] at hm
  rw [e12, e1, div_fin_fin _ _ (by norm_num),
    ofRat_eq_fin _ q0 (le_trans q1 (by norm_num))]
  intro hle
  have : (1 : ℚ) ≤ roundDouble (y / 12) := hle
  linarith

/-- Months elapsed when the effective date falls `p` milliseconds into a month
of `d` milliseconds, `n` whole months after the start: between `n` and `n + 1`. -/
theorem months_between (n : ℕ) (hn : n + 1 ≤ 2 ^ 53) (p d : ℤ) (hp : 0 < p) (hpd : p ≤ d)
    (hd1 : d ≤ 2 ^ 53) :
    ∃ y : ℚ, JSNum.orZero (JSNum.neg (JSNum.add (JSNum.ofInt (-(n : ℤ)))
      (JSNum.div (JSNum.ofInt (-p)) (JSNum.ofInt d)))) = JSNum.fin y ∧ (n : ℚ) ≤ y ∧
      y ≤ n + 1 := by
  have hd : 0 < d := lt_of_lt_of_le hp hpd
  have ed : JSNum.ofInt d = JSNum.fin d :=
    ofInt_intCast d (by rw [abs_of_pos hd]; exact hd1)
  have ep : JSNum.ofInt (-p) = JSNum.fin (-(p : ℚ)) := by
    have := ofInt_intCast (-p) (by rw [abs_neg, abs_of_pos hp]; exact le_trans hpd hd1)
    simpa using this
  have en : JSNum.ofInt (-(n : ℤ)) = JSNum.fin (-(n : ℚ)) := by
    have := ofInt_intCast (-(n : ℤ))
      (by rw [abs_neg, abs_of_nonneg (by positivity)]; exact_mod_cast (by omega : n ≤ 2 ^ 53))
    simpa using this
  have hdq : (0 : ℚ) < d := by exact_mod_cast hd
  have hpq : (0 : ℚ) < p := by exact_mod_cast hp
  have hpdq : (p : ℚ) ≤ d := by exact_mod_cast hpd
  have f0 : (0 : ℚ) ≤ (p : ℚ) / d := by positivity
  have f1 : (p : ℚ) / d ≤ ((1 : ℕ) : ℚ) := by
    rw [div_le_iff₀ hdq]; push_cast; linarith
  have x0 := roundDouble_nonneg _ f0
  have x1 : roundDouble ((p : ℚ) / d) ≤ 1 := by
    have := roundDouble_mono _ _ f0 f1
    rw [roundDouble_natCast 1 (by norm_num)] at this
    exact_mod_cast this
  have one_le : (1 : ℚ) ≤ finiteBound := by rw [finiteBound_eq]; norm_num
  have hnq : (n : ℚ) + 1 ≤ 2 ^ 53 := by exact_mod_cast hn
  have s0 : (0 : ℚ) ≤ n + roundDouble ((p : ℚ) / d) := by positivity
  have s1 : (n : ℚ) + roundDouble ((p : ℚ) / d) ≤ ((n + 1 : ℕ) : ℚ) := by push_cast; linarith
  have s2 : ((n : ℕ) : ℚ) ≤ (n : ℚ) + roundDouble ((p : ℚ) / d) := by linarith
  have y0 : (n : ℚ) ≤ roundDouble ((n : ℚ) + roundDouble ((p : ℚ) / d)) := by
    have := roundDouble_mono _ _ (by positivity) s2
    rwa [roundDouble_natCast n (by omega)] at this
  have y1 : roundDouble ((n : ℚ) + roundDouble ((p : ℚ) / d)) ≤ n + 1 := by
    have := roundDouble_mono _ _ s0 s1
    rw [roundDouble_natCast (n + 1) hn] at this
    exact_mod_cast this
  have sb : (n : ℚ) + roundDouble ((p : ℚ) / d) ≤ finiteBound := by
    rw [finiteBound_eq]
    exact le_trans (by linarith : (n : ℚ) + roundDouble ((p : ℚ) / d) ≤ 2 ^ 53) (by norm_num)
  refine ⟨roundDouble ((n : ℚ) + roundDouble ((p : ℚ) / d)), ?_, y0, y1⟩
  rw [ed, ep, en, div_fin_fin _ _ hdq.ne', neg_div,
    ofRat_neg _ f0 (le_trans (by exact_mod_cast f1) one_le), add_fin_fin,
    show -(n : ℚ) + -roundDouble ((p : ℚ) / d) = -((n : ℚ) + roundDouble ((p : ℚ) / d)) by ring,
    ofRat_neg _ s0 sb]
  simp [JSNum.neg, JSNum.orZero]

/-- Started 2023-06-01, evaluated 2025-01-01: at least one year. -/
theorem years_2023_06_01_to_2025_01_01 :
    JSNum.le (JSNum.ofInt 1) (diffYears sampleEnv 1735689600000 1685577600000) := by
  unfold diffYears monthDiff
  rw [if_neg (by decide),
    monthDiffCore_of_ge sampleEnv 1735689600000 1685577600000 (-19) 1685577600000
      1688169600000 (by decide) (by decide) (by decide) (by decide) 0 2592000000 (by decide)
      (by decide)]
  have h := months_exact 19 (by norm_num) 2592000000 (by norm_num) (by norm_num)
  rw [show (-((19 : ℕ) : ℤ)) = -19 by norm_num] at h
  rw [h]
  exact years_ge_one _ (by norm_num)

/-- Started 2024-06-01, evaluated 2025-01-01: less than one year. -/
theorem years_2024_06_01_to_2025_01_01 :
    ¬ JSNum.le (JSNum.ofInt 1) (diffYears sampleEnv 1735689600000 1717200000000) := by
  unfold diffYears monthDiff
  rw [if_neg (by decide),
    monthDiffCore_of_ge sampleEnv 1735689600000 1717200000000 (-7) 1717200000000
      1719792000000 (by decide) (by decide) (by decide) (by decide) 0 2592000000 (by decide)
      (by decide)]
  have h := months_exact 7 (by norm_num) 2592000000 (by norm_num) (by norm_num)
  rw [show (-((7 : ℕ) : ℤ)) = -7 by norm_num] at h
  rw [h]
  exact years_lt_one _ (by norm_num) (by norm_num)

/-- Started 2023-06-01, evaluated 2025-06-15: at least one year. -/
theorem years_2023_06_01_to_2025_06_15 :
    JSNum.le (JSNum.ofInt 1) (diffYears sampleEnv 1749945600000 1685577600000) := by
  unfold diffYears monthDiff
  rw [if_neg (by decide),
    monthDiffCore_of_lt sampleEnv 1749945600000 1685577600000 (-24) 1686787200000
      1684108800000 (by decide) (by decide) (by decide) (by decide) (-1209600000) 2678400000
      (by decide) (by decide)]
  obtain ⟨y, h, hy0, _⟩ := months_between 24 (by norm_num) 1209600000 2678400000 (by norm_num)
    (by norm_num) (by norm_num)
  rw [show (-((24 : ℕ) : ℤ)) = -24 by norm_num] at h
  rw [h]
  exact years_ge_one _ (by push_cast at hy0; linarith)

theorem add_million_5000000 :
    JSNum.add (JSNum.fin 5000000) (JSNum.ofInt 1000000) = JSNum.fin 6000000 := by
  have e : JSNum.ofInt 1000000 = JSNum.fin 1000000 := by
    have := ofInt_natCast 1000000 (by norm_num : (1000000 : ℕ) ≤ 2 ^ 53)
    exact_mod_cast this
  rw [e, add_fin_fin]
  have := ofInt_natCast 6000000 (by norm_num : (6000000 : ℕ) ≤ 2 ^ 53)
  unfold JSNum.ofInt at this
  norm_num at this ⊢
  exact this

/-- C7: `anniversary_cover_increase` returns the empty list when the elapsed
fractional years from `policy.start_date` to `effective_date` are not at least
1, and otherwise exactly one action named `update_policy` whose module has
`cover_amount = policy.sum_assured + 1000000`, `previous_cover_amount =
policy.sum_assured`, `previous_premium = policy.monthly_premium` and
`anniversary_increase_applied` set to the effective date, for every effective
date.  Started 2023-06-01 and evaluated 2025-01-01 the cover goes from
5,000,000 to 6,000,000; started 2024-06-01 and evaluated 2025-01-01 there is no
action; started 2023-06-01 and evaluated 2025-06-15 there is one action. -/
theorem anniversary_cover_increase_spec :
    (∀ (env : Env) (policy : Policy) (policyholder : Policyholder) (effective_date : JSDate),
      (¬ JSNum.le (JSNum.ofInt 1) (diffYears env effective_date policy.start_date) ∧
        anniversary_cover_increase env policy policyholder effective_date = []) ∨
      (JSNum.le (JSNum.ofInt 1) (diffYears env effective_date policy.start_date) ∧
        ∃ action, anniversary_cover_increase env policy policyholder effective_date = [action] ∧
          action.name = "update_policy" ∧
          action.data.module.cover_amount
            = some (JSNum.add policy.sum_assured (JSNum.ofInt 1000000)) ∧
          action.data.module.previous_cover_amount = some policy.sum_assured ∧
          action.data.module.previous_premium = some policy.monthly_premium ∧
          action.data.module.anniversary_increase_applied
            = some (toISOString effective_date))) ∧
    (∃ action, anniversary_cover_increase sampleEnv (anniversaryPolicy 1685577600000)
        samplePolicyholder 1735689600000 = [action] ∧
      action.name = "update_policy" ∧
      (anniversaryPolicy 1685577600000).module.cover_amount = some (JSNum.fin 5000000) ∧
      action.data.module.cover_amount = some (JSNum.fin 6000000) ∧
      action.data.module.previous_cover_amount = some (JSNum.fin 5000000) ∧
      action.data.module.previous_premium = some (JSNum.fin 13375) ∧
      action.data.module.anniversary_increase_applied = some "2025-01-01T00:00:00.000Z") ∧
    anniversary_cover_increase sampleEnv (anniversaryPolicy 1717200000000)
      samplePolicyholder 1735689600000 = [] ∧
    (anniversary_cover_increase sampleEnv (anniversaryPolicy 1685577600000)
      samplePolicyholder 1749945600000).length = 1 := by
  refine ⟨?_, ?_, ?_, ?_⟩
  · intro env policy policyholder effective_date
    unfold anniversary_cover_increase
    by_cases h : JSNum.le (JSNum.ofInt 1) (diffYears env effective_date policy.start_date)
    · exact Or.inr ⟨h, _, if_pos h, rfl, rfl, rfl, rfl, rfl⟩
    · exact Or.inl ⟨h, if_neg h⟩
  · unfold anniversary_cover_increase
    have h : JSNum.le (JSNum.ofInt 1)
        (diffYears sampleEnv 1735689600000 (anniversaryPolicy 1685577600000).start_date) :=
      years_2023_06_01_to_2025_01_01
    refine ⟨_, if_pos h, rfl, rfl, ?_, rfl, rfl, ?_⟩
    · exact congrArg some add_million_5000000
    · exact congrArg some (by decide)
  · unfold anniversary_cover_increase
    have h : ¬ JSNum.le (JSNum.ofInt 1)
        (diffYears sampleEnv 1735689600000 (anniversaryPolicy 1717200000000).start_date) :=
      years_2024_06_01_to_2025_01_01
    exact if_neg h
  · unfold anniversary_cover_increase
    have h : JSNum.le (JSNum.ofInt 1)
        (diffYears sampleEnv 1749945600000 (anniversaryPolicy 1685577600000).start_date) :=
      years_2023_06_01_to_2025_06_15
    rw [if_pos h]
    rfl

/-- Started 2023-01-01, evaluated 2025-01-01: at least one year. -/
theorem years_2023_01_01_to_2025_01_01 :
    JSNum.le (JSNum.ofInt 1) (diffYears sampleEnv 1735689600000 1672531200000) := by
  unfold diffYears monthDiff
  rw [if_neg (by decide),
    monthDiffCore_of_ge sampleEnv 1735689600000 1672531200000 (-24) 1672531200000
      1675209600000 (by decide) (by decide) (by decide) (by decide) 0 2678400000 (by decide)
      (by decide)]
  have h := months_exact 24 (by norm_num) 2678400000 (by norm_num) (by norm_num)
  rw [show (-((24 : ℕ) : ℤ)) = -24 by norm_num] at h
  rw [h]
  exact years_ge_one _ (by norm_num)

theorem add_million_9000000 :
    JSNum.add (JSNum.fin 9000000) (JSNum.ofInt 1000000) = JSNum.fin 10000000 := by
  have e : JSNum.ofInt 1000000 = JSNum.fin 1000000 := by
    have := ofInt_natCast 1000000 (by norm_num : (1000000 : ℕ) ≤ 2 ^ 53)
    exact_mod_cast this
  rw [e, add_fin_fin]
  have := ofInt_natCast 10000000 (by norm_num : (10000000 : ℕ) ≤ 2 ^ 53)
  unfold JSNum.ofInt at this
  norm_num at this ⊢
  exact this

/-- The action emitted for a policy that is at least one year old. -/
theorem anniversary_cover_increase_of_ge (env : Env) (policy : Policy)
    (policyholder : Policyholder) (effective_date : JSDate)
    (h : JSNum.le (JSNum.ofInt 1) (diffYears env effective_date policy.start_date)) :
    anniversary_cover_increase env policy policyholder effective_date =
      [{ name := "update_policy"
         data := { module := { policy.module with
           cover_amount := some (JSNum.add policy.sum_assured (JSNum.ofInt 1000000))
           anniversary_increase_applied := some (toISOString effective_date)
           previous_cover_amount := some policy.sum_assured
           previous_premium := some policy.monthly_premium } } }] := by
  unfold anniversary_cover_increase
  exact if_pos h

/-- C8 (the code at the failing input): for the 20-year-old Tyrannosaurus Rex
policy with cover 9,000,000 and premium 14580, started 2023-01-01 and evaluated
2025-01-01, the emitted module is the policy's module with the new cover amount
10,000,000, the date, and the previous cover amount and premium.  The pricing
formula gives 16200 for the new cover amount (the premium `getAlteration`
computes for it); the only premium in the action is the previous one, 14580. -/
theorem anniversary_premium_not_recalculated :
    ∃ action pkg,
      anniversary_cover_increase sampleEnv samplePolicy samplePolicyholder 1735689600000
        = [action] ∧
      action.data.module = { samplePolicy.module with
        cover_amount := some (JSNum.fin 10000000)
        anniversary_increase_applied := some "2025-01-01T00:00:00.000Z"
        previous_cover_amount := some (JSNum.fin 9000000)
        previous_premium := some (JSNum.fin 14580) } ∧
      getAlteration "update_cover" samplePolicy samplePolicyholder
        { cover_amount := JSNum.fin 10000000 } = Except.ok pkg ∧
      pkg.monthly_premium = JSNum.fin 16200 ∧
      action.data.module.previous_premium = some (JSNum.fin 14580) ∧
      action.data.module.old_premium = none ∧
      action.data.module.premium_breakdown = none := by
  obtain ⟨pkg, hpkg, _, hprem, _⟩ := getAlteration_update_cover samplePolicy samplePolicyholder
    { cover_amount := JSNum.fin 10000000 }
  have h : JSNum.le (JSNum.ofInt 1)
      (diffYears sampleEnv 1735689600000 samplePolicy.start_date) :=
    years_2023_01_01_to_2025_01_01
  have hact := anniversary_cover_increase_of_ge sampleEnv samplePolicy samplePolicyholder
    1735689600000 h
  have hiso : toISOString 1735689600000 = "2025-01-01T00:00:00.000Z" := by decide
  have hsum : samplePolicy.sum_assured = JSNum.fin 9000000 := rfl
  refine ⟨_, pkg, hact, ?_, hpkg, ?_, rfl, rfl, rfl⟩
  · simp only [hiso, hsum, add_million_9000000]
    rfl
  · have hq : getAlteration.speciesMultipliers samplePolicy.module.species
        = some (JSNum.fin (7295831396340204 * 2 ^ (-53 : ℤ))) := by
      have h := facts_81.1
      have hs : samplePolicy.module.species = some "Tyrannosaurus Rex" := rfl
      rw [hs]
      simp only [getAlteration.speciesMultipliers]
      rw [if_pos True.intro]
      exact congrArg some (by exact_mod_cast h)
    have hage : JSNum.ofLookup samplePolicy.module.age = JSNum.ofInt ((20 : ℕ) : ℤ) := by
      rw [ofInt_natCast 20 (by norm_num)]
      simp [samplePolicy, JSNum.ofLookup]
    have hh : truthy samplePolicy.module.health_checks_updated = true := rfl
    have hc : ({ cover_amount := JSNum.fin 10000000 } : AlterationParams).cover_amount
        = JSNum.fin ((10000000 : ℕ) : ℚ) := by norm_num
    rw [hprem, hq, hage, hh, hc]
    simp only [JSNum.ofLookup]
    have hf : specPremium ((10000000 : ℕ) : ℚ) ((20 : ℕ) : ℚ) (((81 : ℕ) : ℚ) / 100) true
        = 16200 := by
      unfold specPremium
      rw [Int.floor_eq_iff]
      constructor <;> norm_num
    rw [price_eval 10000000 20 81 _ (by norm_num) (by norm_num) facts_81 true, hf]
    norm_num

/-! ## Quote validation -/

theorem civilFromDays_year_ge (d : ℤ) (h : -1 ≤ d) : 1969 ≤ (civilFromDays d).1 := by
  simp only [civilFromDays]
  split_ifs <;> omega

theorem getFullYear_now_ge (env : Env) : 1969 ≤ getFullYear env env.now := by
  unfold getFullYear localCivil
  apply civilFromDays_year_ge
  have h1 : (0 : ℤ) ≤ env.now := env.now_nonneg
  have h2 := env.tz_bound.1
  unfold msPerDay
  omega

/-- The lower bound of `birth_date` is local midnight of 1 January of the
current year minus 50. -/
theorem newDate_minBirthYear (env : Env) :
    newDate env (getFullYear env env.now - 50) 0 1
      = januaryFirst env (getFullYear env env.now - 50) := by
  have h := getFullYear_now_ge env
  unfold newDate januaryFirst
  simp only
  rw [if_neg (by omega)]
  norm_num

theorem violations_date (mn mx : JSDate) (v : JSValue) :
    (KeySchema.date mn mx).violations v = [] ↔ ∃ t : JSDate, v = JSValue.date t ∧ mn ≤ t ∧ t ≤ mx := by
  cases v with
  | date t =>
    simp only [KeySchema.violations, List.append_eq_nil, JSValue.date.injEq, exists_eq_left']
    constructor
    · rintro ⟨h1, h2⟩
      constructor
      · by_contra h; rw [if_pos (not_le.mp h)] at h1; cases h1
      · by_contra h; rw [if_pos (not_le.mp h)] at h2; cases h2
    · rintro ⟨h1, h2⟩
      exact ⟨if_neg (not_lt.mpr h1), if_neg (not_lt.mpr h2)⟩
  | _ => simp [KeySchema.violations]

theorem violations_bool (v : JSValue) :
    KeySchema.bool.violations v = [] ↔ ∃ b : Bool, v = JSValue.bool b := by
  cases v <;> simp [KeySchema.violations]

theorem violations_valid (allowed : List JSValue) (v : JSValue)
    (h : JSValue.undefined ∉ allowed) :
    (KeySchema.valid allowed).violations v = [] ↔ v ∈ allowed := by
  cases v <;> simp [KeySchema.violations, h]

theorem cover_bounds :
    JSNum.mul (JSNum.ofInt 10000) (JSNum.ofInt 100) = JSNum.fin 1000000 ∧
    JSNum.mul (JSNum.ofInt 100000) (JSNum.ofInt 100) = JSNum.fin 10000000 := by
  have e1 : JSNum.ofInt 100 = JSNum.fin 100 := by
    have := ofInt_natCast 100 (by norm_num : (100 : ℕ) ≤ 2 ^ 53)
    exact_mod_cast this
  have e2 : JSNum.ofInt 100000 = JSNum.fin 100000 := by
    have := ofInt_natCast 100000 (by norm_num : (100000 : ℕ) ≤ 2 ^ 53)
    exact_mod_cast this
  have e3 : JSNum.ofRat 1000000 = JSNum.fin 1000000 := by
    have := ofInt_natCast 1000000 (by norm_num : (1000000 : ℕ) ≤ 2 ^ 53)
    unfold JSNum.ofInt at this
    exact_mod_cast this
  have e4 : JSNum.ofRat 10000000 = JSNum.fin 10000000 := by
    have := ofInt_natCast 10000000 (by norm_num : (10000000 : ℕ) ≤ 2 ^ 53)
    unfold JSNum.ofInt at this
    exact_mod_cast this
  rw [ofInt_10000, e1, e2, mul_fin_fin, mul_fin_fin]
  norm_num
  exact ⟨e3, e4⟩

theorem violations_cover (v : JSValue) :
    (KeySchema.integer (JSNum.mul (JSNum.ofInt 10000) (JSNum.ofInt 100))
      (JSNum.mul (JSNum.ofInt 100000) (JSNum.ofInt 100))).violations v = [] ↔
    ∃ n : ℤ, v = JSValue.num (JSNum.fin n) ∧ 1000000 ≤ n ∧ n ≤ 10000000 := by
  rw [cover_bounds.1, cover_bounds.2]
  cases v with
  | num x =>
    cases x with
    | fin q =>
      simp only [KeySchema.violations, List.append_eq_nil, JSValue.num.injEq, JSNum.fin.injEq]
      constructor
      · rintro ⟨⟨h1, h2⟩, h3⟩
        have i1 : (JSNum.fin q).isSafeInteger = true := by
          by_contra h; rw [if_neg h] at h1; cases h1
        have i2 : JSNum.le (JSNum.fin 1000000) (JSNum.fin q) := by
          by_contra h; rw [if_neg h] at h2; cases h2
        have i3 : JSNum.le (JSNum.fin q) (JSNum.fin 10000000) := by
          by_contra h; rw [if_neg h] at h3; cases h3
        have hden : q.den = 1 := by
          simp only [JSNum.isSafeInteger, Bool.and_eq_true, decide_eq_true_eq] at i1
          exact i1.1
        have hq : (q.num : ℚ) = q := Rat.coe_int_num_of_den_eq_one hden
        have j2 : (1000000 : ℚ) ≤ q := i2
        have j3 : q ≤ (10000000 : ℚ) := i3
        refine ⟨q.num, hq.symm, ?_, ?_⟩
        · rw [← hq] at j2; exact_mod_cast j2
        · rw [← hq] at j3; exact_mod_cast j3
      · rintro ⟨n, rfl, h1, h2⟩
        have i1 : (JSNum.fin (n : ℚ)).isSafeInteger = true := by
          simp only [JSNum.isSafeInteger, Bool.and_eq_true, decide_eq_true_eq, Rat.intCast_den,
            Rat.intCast_num, true_and]
          rw [abs_le]
          constructor <;> omega
        have i2 : JSNum.le (JSNum.fin 1000000) (JSNum.fin (n : ℚ)) := by
          show (1000000 : ℚ) ≤ n
          exact_mod_cast h1
        have i3 : JSNum.le (JSNum.fin (n : ℚ)) (JSNum.fin 10000000) := by
          show (n : ℚ) ≤ 10000000
          exact_mod_cast h2
        exact ⟨⟨if_pos i1, if_pos i2⟩, if_pos i3⟩
    | pinf => simp [KeySchema.violations, JSNum.isSafeInteger]
    | ninf => simp [KeySchema.violations, JSNum.isSafeInteger]
    | nan => simp [KeySchema.violations]
  | _ => simp [KeySchema.violations]

/-- The entries of a collecting validation. -/
theorem joiValidate_details (value : Payload) (keys : List (String × KeySchema)) :
    (joiValidate value keys false).details =
      (keys.flatMap fun ks =>
        (ks.2.violations (value.get ks.1)).map fun t => { path := ks.1, type := t })
      ++ (value.filter fun kv => kv.1 ∉ keys.map Prod.fst).map
          fun kv => { path := kv.1, type := "object.allowUnknown" } := by
  unfold joiValidate ValidationResult.details
  simp only [Bool.false_eq_true, if_false]
  split_ifs with h
  · rw [h]; rfl
  · rfl

theorem joiValidate_error_none (value : Payload) (keys : List (String × KeySchema)) :
    (joiValidate value keys false).error = none ↔
      (∀ ks ∈ keys, ks.2.violations (value.get ks.1) = []) ∧
      (∀ kv ∈ value, kv.1 ∈ keys.map Prod.fst) := by
  unfold joiValidate
  simp only [Bool.false_eq_true, if_false]
  constructor
  · intro h
    split_ifs at h with h0
    rw [List.append_eq_nil] at h0
    obtain ⟨h1, h2⟩ := h0
    constructor
    · intro ks hks
      rw [List.flatMap_eq_nil_iff] at h1
      have := h1 ks hks
      exact List.map_eq_nil_iff.mp this
    · intro kv hkv
      rw [List.map_eq_nil_iff, List.filter_eq_nil_iff] at h2
      have := h2 kv hkv
      simpa using this
  · rintro ⟨h1, h2⟩
    rw [if_pos]
    rw [List.append_eq_nil]
    constructor
    · rw [List.flatMap_eq_nil_iff]
      intro ks hks
      rw [h1 ks hks]; rfl
    · rw [List.map_eq_nil_iff, List.filter_eq_nil_iff]
      intro kv hkv
      simpa using h2 kv hkv

/-- C9: for every payload with no key beyond the five quote fields, carrying
typed values (no string or number as a date, no string as `cover_amount` or as
`health_checks_updated`: the values Joi would convert before testing them), and
every current instant, `validateQuoteRequest` returns a null error if and only
if `start_date` is a date from now to now + 60 days, `cover_amount` is an
integer from 1,000,000 to 10,000,000, `birth_date` is a date from 1 January of
the current year minus 50 to now, `species` is one of the five listed species
and `health_checks_updated` is a boolean. -/
theorem validateQuoteRequest_accepts_iff (env : Env) (data : Payload)
    (hkeys : ∀ kv ∈ data, kv.1 ∈
      ["start_date", "cover_amount", "birth_date", "species", "health_checks_updated"])
    (_htyped : data.typed (validateQuoteRequest.schema env)) :
    (validateQuoteRequest env data).error = none ↔ QuoteFieldsValid env data := by
  unfold validateQuoteRequest
  rw [joiValidate_error_none]
  have hk : ∀ kv ∈ data, kv.1 ∈ (validateQuoteRequest.schema env).map Prod.fst := hkeys
  have hu : JSValue.undefined ∉
      [JSValue.str "Tyrannosaurus Rex", JSValue.str "Stegosaurus",
       JSValue.str "Velociraptor", JSValue.str "Brachiosaurus", JSValue.str "Iguanodon"] := by
    simp
  have e60 : env.now + 60 * 24 * 60 * 60 * 1000 = env.now + 60 * msPerDay := by
    unfold msPerDay; ring
  simp only [validateQuoteRequest.schema, List.forall_mem_cons, List.not_mem_nil,
    IsEmpty.forall_iff, implies_true, and_true, violations_date, violations_cover,
    violations_bool, violations_valid _ _ hu, newDate_minBirthYear, e60]
  unfold QuoteFieldsValid
  constructor
  · rintro ⟨⟨h1, h2, h3, h4, h5⟩, _⟩
    refine ⟨h1, h2, h3, ?_, h5⟩
    simp only [List.mem_cons, List.mem_singleton, List.not_mem_nil, or_false] at h4 ⊢
    rcases h4 with h | h | h | h | h <;> exact ⟨_, h, by simp⟩
  · rintro ⟨h1, h2, h3, ⟨s, hs, hmem⟩, h5⟩
    refine ⟨⟨h1, h2, h3, ?_, h5⟩, hk⟩
    rw [hs]
    simp only [List.mem_cons, List.mem_singleton, List.not_mem_nil, or_false] at hmem ⊢
    rcases hmem with h | h | h | h | h <;> simp [h]

theorem validQuoteData_keys : ∀ kv ∈ validQuoteData, kv.1 ∈
    ["start_date", "cover_amount", "birth_date", "species", "health_checks_updated"] := by
  intro kv hkv
  simp only [validQuoteData, List.mem_cons, List.mem_singleton, List.not_mem_nil,
    or_false] at hkv
  rcases hkv with h | h | h | h | h <;> simp [h]

theorem validQuoteData_valid : QuoteFieldsValid sampleEnv validQuoteData := by
  refine ⟨⟨1738281600000, rfl, by decide, by decide⟩, ⟨5000000, ?_, by norm_num, by norm_num⟩,
    ⟨1104537600000, rfl, by decide, by decide⟩, ⟨"Tyrannosaurus Rex", rfl, by simp⟩,
    ⟨true, rfl⟩⟩
  have : validQuoteData.get "cover_amount" = JSValue.num (JSNum.fin 5000000) := rfl
  rw [this]
  norm_num

theorem validQuoteData_typed :
    validQuoteData.typed (validateQuoteRequest.schema sampleEnv) := by
  intro ks hks
  simp only [validateQuoteRequest.schema, List.mem_cons, List.mem_singleton, List.not_mem_nil,
    or_false] at hks
  rcases hks with h | h | h | h | h <;> rw [h] <;> rfl

/-- Witness of C9: the valid request of the unit test carries typed values and
is accepted. -/
theorem validateQuoteRequest_accepts_iff_witness :
    (∀ kv ∈ validQuoteData, kv.1 ∈
      ["start_date", "cover_amount", "birth_date", "species", "health_checks_updated"]) ∧
    validQuoteData.typed (validateQuoteRequest.schema sampleEnv) ∧
    ((validateQuoteRequest sampleEnv validQuoteData).error = none ↔
      QuoteFieldsValid sampleEnv validQuoteData) ∧
    QuoteFieldsValid sampleEnv validQuoteData ∧
    (validateQuoteRequest sampleEnv validQuoteData).error = none :=
  ⟨validQuoteData_keys, validQuoteData_typed,
    validateQuoteRequest_accepts_iff sampleEnv validQuoteData validQuoteData_keys
      validQuoteData_typed,
    validQuoteData_valid,
    (validateQuoteRequest_accepts_iff sampleEnv validQuoteData validQuoteData_keys
      validQuoteData_typed).mpr validQuoteData_valid⟩

/-! ## Collection of violations -/

theorem violatedFields_length_le (value : Payload) (keys : List (String × KeySchema)) :
    (violatedFields keys value).length ≤
      (keys.flatMap fun ks =>
        (ks.2.violations (value.get ks.1)).map
          fun t => ({ path := ks.1, type := t } : ErrorDetail)).length := by
  unfold violatedFields
  induction keys with
  | nil => simp
  | cons ks rest ih =>
    rw [List.flatMap_cons, List.length_append, List.length_map]
    rw [List.length_map] at ih ⊢
    by_cases h : ks.2.violations (value.get ks.1) = []
    · rw [List.filter_cons_of_neg (by simpa using h)]
      omega
    · rw [List.filter_cons_of_pos (by simpa using h), List.length_cons]
      have : 1 ≤ (ks.2.violations (value.get ks.1)).length :=
        List.length_pos.mpr h
      omega

/-- A collecting validation reports every violated rule of every key, so it
has at least one entry per field in violation. -/
theorem joiValidate_collects (value : Payload) (keys : List (String × KeySchema)) :
    (∀ ks ∈ keys, ∀ t ∈ ks.2.violations (value.get ks.1),
      ({ path := ks.1, type := t } : ErrorDetail) ∈ (joiValidate value keys false).details) ∧
    (violatedFields keys value).length ≤ (joiValidate value keys false).details.length := by
  rw [joiValidate_details]
  constructor
  · intro ks hks t ht
    refine List.mem_append_left _ ?_
    rw [List.mem_flatMap]
    exact ⟨ks, hks, List.mem_map.mpr ⟨t, ht, rfl⟩⟩
  · rw [List.length_append]
    exact le_trans (violatedFields_length_le value keys) (Nat.le_add_right _ _)

theorem violatedFields_cons (key : String) (schema : KeySchema)
    (rest : List (String × KeySchema)) (value : Payload) (t : String)
    (h : schema.violations (value.get key) = [t]) :
    violatedFields ((key, schema) :: rest) value = key :: violatedFields rest value := by
  unfold violatedFields
  rw [List.filter_cons_of_pos (by simp [h]), List.map_cons]

theorem invalidQuoteData_details :
    (validateQuoteRequest sampleEnv invalidQuoteData).details =
      [{ path := "start_date", type := "date.max" },
       { path := "cover_amount", type := "number.min" },
       { path := "birth_date", type := "date.min" },
       { path := "species", type := "any.allowOnly" },
       { path := "health_checks_updated", type := "boolean.base" }] ∧
    violatedFields (validateQuoteRequest.schema sampleEnv) invalidQuoteData =
      ["start_date", "cover_amount", "birth_date", "species", "health_checks_updated"] := by
  have g1 : invalidQuoteData.get "start_date" = JSValue.date 1741737600000 := rfl
  have g2 : invalidQuoteData.get "cover_amount" = JSValue.num (JSNum.fin 500000) := rfl
  have g3 : invalidQuoteData.get "birth_date" = JSValue.date (-157766400000) := rfl
  have g4 : invalidQuoteData.get "species" = JSValue.str "Brontosaurus" := rfl
  have g5 : invalidQuoteData.get "health_checks_updated" = JSValue.str "yes" := rfl
  have v1 : (KeySchema.date sampleEnv.now (sampleEnv.now + 60 * 24 * 60 * 60 * 1000)).violations
      (JSValue.date 1741737600000) = ["date.max"] := by decide
  have v2 : (KeySchema.integer (JSNum.mul (JSNum.ofInt 10000) (JSNum.ofInt 100))
      (JSNum.mul (JSNum.ofInt 100000) (JSNum.ofInt 100))).violations
      (JSValue.num (JSNum.fin 500000)) = ["number.min"] := by
    rw [cover_bounds.1, cover_bounds.2]
    have i1 : (JSNum.fin 500000).isSafeInteger = true := by
      have e : (500000 : ℚ) = ((500000 : ℤ) : ℚ) := by norm_num
      rw [e]
      simp only [JSNum.isSafeInteger, Bool.and_eq_true, decide_eq_true_eq, Rat.intCast_den,
        Rat.intCast_num, true_and]
      norm_num
    have i2 : ¬ JSNum.le (JSNum.fin 1000000) (JSNum.fin 500000) := by
      show ¬ ((1000000 : ℚ) ≤ 500000)
      norm_num
    have i3 : JSNum.le (JSNum.fin 500000) (JSNum.fin 10000000) := by
      show (500000 : ℚ) ≤ 10000000
      norm_num
    simp only [KeySchema.violations]
    rw [if_pos i1, if_neg i2, if_pos i3]
    rfl
  have v3 : (KeySchema.date (newDate sampleEnv (getFullYear sampleEnv sampleEnv.now - 50) 0 1)
      sampleEnv.now).violations (JSValue.date (-157766400000)) = ["date.min"] := by decide
  have v4 : (KeySchema.valid [JSValue.str "Tyrannosaurus Rex", JSValue.str "Stegosaurus",
      JSValue.str "Velociraptor", JSValue.str "Brachiosaurus",
      JSValue.str "Iguanodon"]).violations (JSValue.str "Brontosaurus")
      = ["any.allowOnly"] := by
    simp [KeySchema.violations]
  have v5 : KeySchema.bool.violations (JSValue.str "yes") = ["boolean.base"] := rfl
  have hu : (invalidQuoteData.filter fun kv =>
      kv.1 ∉ (validateQuoteRequest.schema sampleEnv).map Prod.fst) = [] := by
    rw [List.filter_eq_nil_iff]
    intro kv hkv
    simp only [invalidQuoteData, List.mem_cons, List.mem_singleton, List.not_mem_nil,
      or_false] at hkv
    rcases hkv with h | h | h | h | h <;> simp [h, validateQuoteRequest.schema]
  constructor
  · unfold validateQuoteRequest
    rw [joiValidate_details, hu]
    simp only [validateQuoteRequest.schema, List.flatMap_cons, List.flatMap_nil, g1, g2, g3,
      g4, g5, v1, v2, v3, v4, v5]
    rfl
  · simp only [validateQuoteRequest.schema]
    rw [violatedFields_cons _ _ _ _ _ (by rw [g1]; exact v1),
      violatedFields_cons _ _ _ _ _ (by rw [g2]; exact v2),
      violatedFields_cons _ _ _ _ _ (by rw [g3]; exact v3),
      violatedFields_cons _ _ _ _ _ (by rw [g4]; exact v4),
      violatedFields_cons _ _ _ _ _ (by rw [g5]; exact v5)]
    rfl

/-- C10: validation collects every violation.  For every payload the error of
`validateQuoteRequest`, and of `validateAlterationPackageRequest` for
`update_cover`, is returned, and its entries contain every violated rule of
every field, so there are at least as many entries as fields in violation.
The test payload with all five fields invalid yields five entries. -/
theorem validation_collects_every_violation (env : Env) (policy : Policy) (data : Payload) :
    ((∀ ks ∈ validateQuoteRequest.schema env, ∀ t ∈ ks.2.violations (data.get ks.1),
        ({ path := ks.1, type := t } : ErrorDetail) ∈ (validateQuoteRequest env data).details) ∧
      (violatedFields (validateQuoteRequest.schema env) data).length
        ≤ (validateQuoteRequest env data).details.length) ∧
    (∃ r, validateAlterationPackageRequest "update_cover" policy data = Except.ok r ∧
      (∀ ks ∈ validateAlterationPackageRequest.schema,
        ∀ t ∈ ks.2.violations (data.get ks.1),
          ({ path := ks.1, type := t } : ErrorDetail) ∈ r.details) ∧
      (violatedFields validateAlterationPackageRequest.schema data).length
        ≤ r.details.length) ∧
    ((violatedFields (validateQuoteRequest.schema sampleEnv) invalidQuoteData).length = 5 ∧
      (validateQuoteRequest sampleEnv invalidQuoteData).details.length = 5) := by
  refine ⟨joiValidate_collects data _, ⟨_, ?_, joiValidate_collects data _⟩, ?_⟩
  · unfold validateAlterationPackageRequest
    rw [if_pos rfl]
  · rw [invalidQuoteData_details.1, invalidQuoteData_details.2]
    exact ⟨rfl, rfl⟩

/-! ## Alteration request validation -/

/-- C11: for the key `update_cover` and every params object with no key other
than `cover_amount`, carrying a typed value (no string, which Joi would convert
before testing it), `validateAlterationPackageRequest` returns a result whose
error is null if and only if `cover_amount` is an integer from 1,000,000 to
10,000,000, and it returns that same result for every policy. -/
theorem validateAlterationPackageRequest_accepts_iff (policy : Policy) (params : Payload)
    (hkeys : ∀ kv ∈ params, kv.1 = "cover_amount")
    (_htyped : params.typed validateAlterationPackageRequest.schema) :
    ∃ r, validateAlterationPackageRequest "update_cover" policy params = Except.ok r ∧
      (r.error = none ↔
        ∃ n : ℤ, params.get "cover_amount" = JSValue.num (JSNum.fin n) ∧
          1000000 ≤ n ∧ n ≤ 10000000) ∧
      ∀ policy' : Policy,
        validateAlterationPackageRequest "update_cover" policy' params = Except.ok r := by
  refine ⟨joiValidate params validateAlterationPackageRequest.schema false, ?_, ?_, ?_⟩
  · unfold validateAlterationPackageRequest
    rw [if_pos rfl]
  · rw [joiValidate_error_none]
    simp only [validateAlterationPackageRequest.schema, List.forall_mem_cons, List.not_mem_nil,
      IsEmpty.forall_iff, implies_true, and_true, violations_cover]
    constructor
    · exact fun h => h.1
    · intro h
      refine ⟨h, ?_⟩
      intro kv hkv
      rw [hkeys kv hkv]
      simp
  · intro policy'
    unfold validateAlterationPackageRequest
    rw [if_pos rfl]

theorem validAlterationData_typed :
    validAlterationData.typed validateAlterationPackageRequest.schema := by
  intro ks hks
  simp only [validateAlterationPackageRequest.schema, List.mem_singleton] at hks
  rw [hks]
  rfl

/-- Witness of C11: the alteration request of the unit test, cover 7,500,000,
carries a typed value and is accepted whatever the policy. -/
theorem validateAlterationPackageRequest_accepts_iff_witness :
    (∀ kv ∈ validAlterationData, kv.1 = "cover_amount") ∧
    validAlterationData.typed validateAlterationPackageRequest.schema ∧
    ∃ r, validateAlterationPackageRequest "update_cover" samplePolicy validAlterationData
        = Except.ok r ∧
      (r.error = none ↔
        ∃ n : ℤ, validAlterationData.get "cover_amount" = JSValue.num (JSNum.fin n) ∧
          1000000 ≤ n ∧ n ≤ 10000000) ∧
      ∀ policy' : Policy,
        validateAlterationPackageRequest "update_cover" policy' validAlterationData
          = Except.ok r :=
  ⟨by simp [validAlterationData], validAlterationData_typed,
    validateAlterationPackageRequest_accepts_iff samplePolicy validAlterationData
      (by simp [validAlterationData]) validAlterationData_typed⟩

/-! ## Round trip of the quote request -/

/-- C12: for every request, the single package returned by `getQuote` has
`module.start_date`, `module.cover_amount`, `module.birth_date`,
`module.species` and `module.health_checks_updated` equal to the same fields of
the request, `sum_assured` equal to the request's `cover_amount`, and
`input_data` equal to the request, field for field. -/
theorem getQuote_round_trip (env : Env) (data : QuoteRequest) :
    ∃ p, getQuote env data = [p] ∧
      p.module.start_date = some data.start_date ∧
      p.module.cover_amount = some data.cover_amount ∧
      p.module.birth_date = some data.birth_date ∧
      p.module.species = some data.species ∧
      p.module.health_checks_updated = some data.health_checks_updated ∧
      p.sum_assured = data.cover_amount ∧
      p.input_data = data ∧
      p.input_data.start_date = data.start_date ∧
      p.input_data.cover_amount = data.cover_amount ∧
      p.input_data.birth_date = data.birth_date ∧
      p.input_data.species = data.species ∧
      p.input_data.health_checks_updated = data.health_checks_updated :=
  ⟨_, rfl, rfl, rfl, rfl, rfl, rfl, rfl, rfl, rfl, rfl, rfl, rfl, rfl⟩

/-! ## Applying an alteration -/

/-- C13: for the key `update_cover`, `applyAlteration` returns an altered policy
whose `sum_assured` is that of the alteration package, whose `monthly_premium`
and `base_premium` are both the package's `monthly_premium`, whose
`package_name` and `charges` are the policy's, whose `start_date` and `end_date`
are the `moment` objects of the policy's dates and stand for the same dates (a
null `end_date` giving a moment that stands for no date), and whose module is
the package's module, whatever the module of the policy. -/
theorem applyAlteration_merge (policy : Policy) (policyholder : Policyholder)
    (alteration_package : AlterationPackage) :
    ∃ r, applyAlteration "update_cover" policy policyholder alteration_package = Except.ok r ∧
      r.sum_assured = alteration_package.sum_assured ∧
      r.monthly_premium = alteration_package.monthly_premium ∧
      r.base_premium = alteration_package.monthly_premium ∧
      r.package_name = policy.package_name ∧
      r.charges = policy.charges ∧
      r.start_date = moment (some policy.start_date) ∧
      r.start_date.toDate = some policy.start_date ∧
      r.end_date = moment policy.end_date ∧
      r.end_date.toDate = policy.end_date ∧
      r.module = alteration_package.module ∧
      (∀ module' : Module,
        applyAlteration "update_cover" { policy with module := module' } policyholder
          alteration_package = Except.ok r) ∧
      (∃ r', applyAlteration "update_cover" { policy with end_date := none } policyholder
          alteration_package = Except.ok r' ∧ r'.end_date.toDate = none) := by
  have hcall : ∀ p : Policy,
      applyAlteration "update_cover" p policyholder alteration_package = Except.ok
        { package_name := p.package_name
          sum_assured := alteration_package.sum_assured
          base_premium := alteration_package.monthly_premium
          monthly_premium := alteration_package.monthly_premium
          end_date := moment p.end_date
          start_date := moment (some p.start_date)
          charges := p.charges
          module := alteration_package.module } := by
    intro p
    unfold applyAlteration
    rw [if_pos rfl]
  refine ⟨_, hcall policy, rfl, rfl, rfl, rfl, rfl, rfl, rfl, rfl, ?_, rfl,
    fun module' => hcall _, _, hcall _, rfl⟩
  cases h : policy.end_date <;> simp [moment, Moment.toDate]

/-! ## The alteration package -/

/-- C14: for the key `update_cover`, every policy and every params,
`getAlteration` returns a package with `sum_assured` equal to
`params.cover_amount`, `billing_frequency` `monthly`, `input_data` equal to
params, and a module with `cover_amount` `params.cover_amount`,
`old_cover_amount` the policy's `sum_assured`, `old_premium` the policy's
`monthly_premium`, and every other field (age, species and
`health_checks_updated` among them) as in `policy.module`. -/
theorem getAlteration_package_frame (policy : Policy) (policyholder : Policyholder)
    (params : AlterationParams) :
    ∃ pkg, getAlteration "update_cover" policy policyholder params = Except.ok pkg ∧
      pkg.sum_assured = params.cover_amount ∧
      pkg.billing_frequency = "monthly" ∧
      pkg.input_data = params ∧
      pkg.module.cover_amount = some params.cover_amount ∧
      pkg.module.old_cover_amount = some policy.sum_assured ∧
      pkg.module.old_premium = some policy.monthly_premium ∧
      pkg.module.age = policy.module.age ∧
      pkg.module.species = policy.module.species ∧
      pkg.module.health_checks_updated = policy.module.health_checks_updated ∧
      { pkg.module with
        cover_amount := policy.module.cover_amount
        old_cover_amount := policy.module.old_cover_amount
        old_premium := policy.module.old_premium } = policy.module := by
  unfold getAlteration
  rw [if_pos rfl]
  exact ⟨_, rfl, rfl, rfl, rfl, rfl, rfl, rfl, rfl, rfl, rfl, rfl⟩

/-! ## The reactivation stamp -/

/-- C15: for every policy with status `cancelled` or `lapsed`,
`beforePolicyReactivated` returns exactly one action, named `update_policy`,
whose `data.module` has `reactivation_date` set to the ISO-8601 text of the
current instant and agrees with `policy.module` on every other field. -/
theorem beforePolicyReactivated_stamps (env : Env) (policy : Policy)
    (policyholder : Policyholder)
    (hstatus : policy.status = "cancelled" ∨ policy.status = "lapsed") :
    ∃ a, beforePolicyReactivated env policy policyholder = Except.ok [a] ∧
      a.name = "update_policy" ∧
      a.data.module.reactivation_date = some (toISOString env.now) ∧
      { a.data.module with reactivation_date := policy.module.reactivation_date }
        = policy.module := by
  unfold beforePolicyReactivated
  rw [if_pos hstatus]
  exact ⟨_, rfl, rfl, rfl, rfl⟩

/-- Witness of C15: the cancelled Stegosaurus policy of the unit test, at the
instant 2025-01-01T00:00:00.000Z. -/
theorem beforePolicyReactivated_stamps_witness :
    (cancelledPolicy.status = "cancelled" ∨ cancelledPolicy.status = "lapsed") ∧
    (∃ a, beforePolicyReactivated sampleEnv cancelledPolicy samplePolicyholder = Except.ok [a] ∧
      a.name = "update_policy" ∧
      a.data.module.reactivation_date = some (toISOString sampleEnv.now) ∧
      { a.data.module with reactivation_date := cancelledPolicy.module.reactivation_date }
        = cancelledPolicy.module) ∧
    toISOString sampleEnv.now = "2025-01-01T00:00:00.000Z" :=
  ⟨Or.inl rfl,
    beforePolicyReactivated_stamps sampleEnv cancelledPolicy samplePolicyholder (Or.inl rfl),
    by decide⟩

/-! ## Claim block updates -/

/-- The outcome of `afterClaimBlockUpdated` by the two guards it tests. -/
theorem afterClaimBlockUpdated_cases (claim : Claim) (policy : Policy)
    (policyholder : Policyholder) :
    ((claim.block_states.extraction_fulfillment_request.fulfillment_request_id.truthy = true ∧
        truthy policy.module.extraction_has_been_claimed = false) ∧
      afterClaimBlockUpdated claim policy policyholder = some
        [{ name := "update_policy"
           data := { module :=
            { policy.module with extraction_has_been_claimed := some true } } }]) ∨
    (¬ (claim.block_states.extraction_fulfillment_request.fulfillment_request_id.truthy = true ∧
        truthy policy.module.extraction_has_been_claimed = false) ∧
      (claim.block_states.fence_repair_fulfillment_request.fulfillment_request_id.truthy = true ∧
        truthy policy.module.fence_repair_has_been_claimed = false) ∧
      afterClaimBlockUpdated claim policy policyholder = some
        [{ name := "update_policy"
           data := { module :=
            { policy.module with fence_repair_has_been_claimed := some true } } }]) ∨
    (¬ (claim.block_states.extraction_fulfillment_request.fulfillment_request_id.truthy = true ∧
        truthy policy.module.extraction_has_been_claimed = false) ∧
      ¬ (claim.block_states.fence_repair_fulfillment_request.fulfillment_request_id.truthy = true ∧
        truthy policy.module.fence_repair_has_been_claimed = false) ∧
      afterClaimBlockUpdated claim policy policyholder = none) := by
  unfold afterClaimBlockUpdated
  by_cases h1 : claim.block_states.extraction_fulfillment_request.fulfillment_request_id.truthy
      = true ∧ truthy policy.module.extraction_has_been_claimed = false
  · left
    refine ⟨h1, ?_⟩
    rw [if_pos (by simp [h1.1, h1.2])]
  · right
    have c1 : ¬ ((claim.block_states.extraction_fulfillment_request.fulfillment_request_id.truthy
        && !truthy policy.module.extraction_has_been_claimed) = true) := by
      simpa using h1
    rw [if_neg c1]
    by_cases h2 :
        claim.block_states.fence_repair_fulfillment_request.fulfillment_request_id.truthy
          = true ∧ truthy policy.module.fence_repair_has_been_claimed = false
    · left
      refine ⟨h1, h2, ?_⟩
      rw [if_pos (by simp [h2.1, h2.2])]
    · right
      have c2 :
          ¬ ((claim.block_states.fence_repair_fulfillment_request.fulfillment_request_id.truthy
            && !truthy policy.module.fence_repair_has_been_claimed) = true) := by
        simpa using h2
      rw [if_neg c2]
      exact ⟨h1, h2, rfl⟩

/-- C16: for every claim holding both sub-blocks and every policy,
`afterClaimBlockUpdated` returns no action or exactly one; when both the
extraction and the fence-repair block have a `fulfillment_request_id` and
neither module flag is set, the single action is an `update_policy` whose
module has `extraction_has_been_claimed` true, `fence_repair_has_been_claimed`
as in `policy.module` (not set), and every other field as in `policy.module`. -/
theorem afterClaimBlockUpdated_first_block_wins (claim : Claim) (policy : Policy)
    (policyholder : Policyholder) :
    (afterClaimBlockUpdated claim policy policyholder = none ∨
      ∃ a, afterClaimBlockUpdated claim policy policyholder = some [a]) ∧
    (claim.block_states.extraction_fulfillment_request.fulfillment_request_id.truthy = true →
      claim.block_states.fence_repair_fulfillment_request.fulfillment_request_id.truthy = true →
      truthy policy.module.extraction_has_been_claimed = false →
      truthy policy.module.fence_repair_has_been_claimed = false →
      ∃ a, afterClaimBlockUpdated claim policy policyholder = some [a] ∧
        a.name = "update_policy" ∧
        a.data.module.extraction_has_been_claimed = some true ∧
        a.data.module.fence_repair_has_been_claimed
          = policy.module.fence_repair_has_been_claimed ∧
        truthy a.data.module.fence_repair_has_been_claimed = false ∧
        { a.data.module with
          extraction_has_been_claimed := policy.module.extraction_has_been_claimed }
          = policy.module) := by
  constructor
  · rcases afterClaimBlockUpdated_cases claim policy policyholder with
      ⟨_, h⟩ | ⟨_, _, h⟩ | ⟨_, _, h⟩
    · exact Or.inr ⟨_, h⟩
    · exact Or.inr ⟨_, h⟩
    · exact Or.inl h
  · intro e1 _ f1 f2
    rcases afterClaimBlockUpdated_cases claim policy policyholder with
      ⟨_, h⟩ | ⟨n1, _, _⟩ | ⟨n1, _, _⟩
    · exact ⟨_, h, rfl, rfl, rfl, f2, rfl⟩
    · exact absurd ⟨e1, f1⟩ n1
    · exact absurd ⟨e1, f1⟩ n1

/-- Witness of C16: a claim with both fulfillment requests against the policy
`samplePolicy`, which has neither flag. -/
theorem afterClaimBlockUpdated_first_block_wins_witness :
    sampleClaim.block_states.extraction_fulfillment_request.fulfillment_request_id.truthy
      = true ∧
    sampleClaim.block_states.fence_repair_fulfillment_request.fulfillment_request_id.truthy
      = true ∧
    truthy samplePolicy.module.extraction_has_been_claimed = false ∧
    truthy samplePolicy.module.fence_repair_has_been_claimed = false ∧
    ∃ a, afterClaimBlockUpdated sampleClaim samplePolicy samplePolicyholder = some [a] ∧
      a.name = "update_policy" ∧
      a.data.module.extraction_has_been_claimed = some true ∧
      a.data.module.fence_repair_has_been_claimed
        = samplePolicy.module.fence_repair_has_been_claimed ∧
      truthy a.data.module.fence_repair_has_been_claimed = false ∧
      { a.data.module with
        extraction_has_been_claimed := samplePolicy.module.extraction_has_been_claimed }
        = samplePolicy.module :=
  ⟨by decide, by decide, rfl, rfl,
    (afterClaimBlockUpdated_first_block_wins sampleClaim samplePolicy samplePolicyholder).2
      (by decide) (by decide) rfl rfl⟩

/-- C17: for every claim holding both sub-blocks and every policy,
`afterClaimBlockUpdated` returns no action exactly when each block either has
no `fulfillment_request_id` or already has its module flag set; for a policy
whose module has `extraction_has_been_claimed` set the result is never the
action that sets it, and likewise for `fence_repair_has_been_claimed`. -/
theorem afterClaimBlockUpdated_flag_guard (claim : Claim) (policy : Policy)
    (policyholder : Policyholder) :
    (afterClaimBlockUpdated claim policy policyholder = none ↔
      (claim.block_states.extraction_fulfillment_request.fulfillment_request_id.truthy = false ∨
        truthy policy.module.extraction_has_been_claimed = true) ∧
      (claim.block_states.fence_repair_fulfillment_request.fulfillment_request_id.truthy = false ∨
        truthy policy.module.fence_repair_has_been_claimed = true)) ∧
    (truthy policy.module.extraction_has_been_claimed = true →
      afterClaimBlockUpdated claim policy policyholder ≠ some
        [{ name := "update_policy"
           data := { module :=
            { policy.module with extraction_has_been_claimed := some true } } }]) ∧
    (truthy policy.module.fence_repair_has_been_claimed = true →
      afterClaimBlockUpdated claim policy policyholder ≠ some
        [{ name := "update_policy"
           data := { module :=
            { policy.module with fence_repair_has_been_claimed := some true } } }]) := by
  have key := afterClaimBlockUpdated_cases claim policy policyholder
  refine ⟨?_, ?_, ?_⟩
  · rcases key with ⟨h1, h⟩ | ⟨_, h2, h⟩ | ⟨n1, n2, h⟩
    · rw [h]
      constructor
      · intro hx; cases hx
      · rintro ⟨hx | hx, _⟩
        · rw [h1.1] at hx; cases hx
        · rw [h1.2] at hx; cases hx
    · rw [h]
      constructor
      · intro hx; cases hx
      · rintro ⟨_, hx | hx⟩
        · rw [h2.1] at hx; cases hx
        · rw [h2.2] at hx; cases hx
    · rw [h]
      refine ⟨fun _ => ⟨?_, ?_⟩, fun _ => rfl⟩
      · by_contra hc
        push_neg at hc
        exact n1 ⟨by simpa using hc.1, by simpa using hc.2⟩
      · by_contra hc
        push_neg at hc
        exact n2 ⟨by simpa using hc.1, by simpa using hc.2⟩
  · intro hset
    rcases key with ⟨h1, _⟩ | ⟨_, h2, h⟩ | ⟨_, _, h⟩
    · rw [h1.2] at hset; cases hset
    · rw [h]
      intro heq
      have hf := congrArg (fun r : Option (List ProductModuleAction) =>
        r.map fun l => l.map fun a => a.data.module.fence_repair_has_been_claimed) heq
      simp only [Option.map_some', List.map_cons, List.map_nil, Option.some.injEq,
        List.cons.injEq, and_true] at hf
      rw [← hf] at h2
      exact absurd h2.2 (by simp [truthy])
    · rw [h]; intro hx; cases hx
  · intro hset
    rcases key with ⟨h1, h⟩ | ⟨_, h2, _⟩ | ⟨_, _, h⟩
    · rw [h]
      intro heq
      have hf := congrArg (fun r : Option (List ProductModuleAction) =>
        r.map fun l => l.map fun a => a.data.module.extraction_has_been_claimed) heq
      simp only [Option.map_some', List.map_cons, List.map_nil, Option.some.injEq,
        List.cons.injEq, and_true] at hf
      rw [← hf] at h1
      exact absurd h1.2 (by simp [truthy])
    · rw [h2.2] at hset; cases hset
    · rw [h]; intro hx; cases hx

/-- Witness of C17: for `samplePolicy` with one of the two flags already set
and a claim with both fulfillment requests, the action returned is never the
one that sets that flag. -/
theorem afterClaimBlockUpdated_flag_guard_witness :
    (truthy ({ samplePolicy with module :=
      { samplePolicy.module with extraction_has_been_claimed := some true } }
        : Policy).module.extraction_has_been_claimed = true ∧
    afterClaimBlockUpdated sampleClaim
      { samplePolicy with module :=
        { samplePolicy.module with extraction_has_been_claimed := some true } }
      samplePolicyholder ≠ some
        [{ name := "update_policy"
           data := { module :=
            { samplePolicy.module with extraction_has_been_claimed := some true } } }]) ∧
    (truthy ({ samplePolicy with module :=
      { samplePolicy.module with fence_repair_has_been_claimed := some true } }
        : Policy).module.fence_repair_has_been_claimed = true ∧
    afterClaimBlockUpdated sampleClaim
      { samplePolicy with module :=
        { samplePolicy.module with fence_repair_has_been_claimed := some true } }
      samplePolicyholder ≠ some
        [{ name := "update_policy"
           data := { module :=
            { samplePolicy.module with fence_repair_has_been_claimed := some true } } }]) :=
  ⟨⟨rfl,
    (afterClaimBlockUpdated_flag_guard sampleClaim
      { samplePolicy with module :=
        { samplePolicy.module with extraction_has_been_claimed := some true } }
      samplePolicyholder).2.1 rfl⟩,
   ⟨rfl,
    (afterClaimBlockUpdated_flag_guard sampleClaim
      { samplePolicy with module :=
        { samplePolicy.module with fence_repair_has_been_claimed := some true } }
      samplePolicyholder).2.2 rfl⟩⟩

/-! ## The premium breakdown -/

/-- The premium breakdown `getQuote` stores in the module, as expressions. -/
theorem getQuote_breakdown_expr (env : Env) (data : QuoteRequest) :
    ∃ p b, getQuote env data = [p] ∧ p.module.premium_breakdown = some b ∧
      b.core_premium = JSNum.mathRound
        (JSNum.mul (JSNum.div data.cover_amount (JSNum.ofInt 10000))
          (JSNum.ofInt (getFullYear env env.now - getFullYear env data.birth_date))) ∧
      b.species_adjustment = JSNum.sub
        (JSNum.mathRound (JSNum.mul
          (JSNum.mul (JSNum.div data.cover_amount (JSNum.ofInt 10000))
            (JSNum.ofInt (getFullYear env env.now - getFullYear env data.birth_date)))
          (JSNum.ofLookup (getQuote.speciesMultipliers data.species))))
        (JSNum.mathRound
          (JSNum.mul (JSNum.div data.cover_amount (JSNum.ofInt 10000))
            (JSNum.ofInt (getFullYear env env.now - getFullYear env data.birth_date)))) ∧
      b.total_premium = JSNum.mathRound
        (if (!data.health_checks_updated) = true then
          JSNum.add (JSNum.mul (JSNum.mul (JSNum.div data.cover_amount (JSNum.ofInt 10000))
            (JSNum.ofInt (getFullYear env env.now - getFullYear env data.birth_date)))
            (JSNum.ofLookup (getQuote.speciesMultipliers data.species))) (JSNum.ofInt 25000)
        else JSNum.mul (JSNum.mul (JSNum.div data.cover_amount (JSNum.ofInt 10000))
            (JSNum.ofInt (getFullYear env env.now - getFullYear env data.birth_date)))
            (JSNum.ofLookup (getQuote.speciesMultipliers data.species))) ∧
      b.total_premium = p.suggested_premium :=
  ⟨_, _, rfl, rfl, rfl, rfl, rfl, rfl⟩

theorem specPremium_true_bounds (c a mi : ℕ) (hc : c ≤ 10 ^ 7) (ha : a ≤ 124) (hmi : mi ≤ 150) :
    0 ≤ specPremium c a ((mi : ℚ) / 100) true ∧
      specPremium c a ((mi : ℚ) / 100) true ≤ 186001 := by
  unfold specPremium
  rw [if_pos rfl]
  have hcq : (c : ℚ) ≤ 10 ^ 7 := by exact_mod_cast hc
  have haq : (a : ℚ) ≤ 124 := by exact_mod_cast ha
  have hmq : (mi : ℚ) ≤ 150 := by exact_mod_cast hmi
  have hc0 : (0 : ℚ) ≤ c := by positivity
  have ha0 : (0 : ℚ) ≤ a := by positivity
  have hm0 : (0 : ℚ) ≤ mi := by positivity
  have h0 : 0 ≤ (c : ℚ) / 10000 * a * ((mi : ℚ) / 100) := by positivity
  have h2 : (c : ℚ) / 10000 ≤ 1000 := by
    rw [div_le_iff₀ (by norm_num)]; linarith
  have h3 : (c : ℚ) / 10000 * a ≤ 1000 * 124 := mul_le_mul h2 haq ha0 (by norm_num)
  have h4 : (mi : ℚ) / 100 ≤ 3 / 2 := by
    rw [div_le_iff₀ (by norm_num)]; linarith
  have h5 : (c : ℚ) / 10000 * a * ((mi : ℚ) / 100) ≤ 1000 * 124 * (3 / 2) :=
    mul_le_mul h3 h4 (by positivity) (by norm_num)
  constructor
  · exact Int.floor_nonneg.mpr (by linarith)
  · have h6 := Int.floor_le ((c : ℚ) / 10000 * a * ((mi : ℚ) / 100) + 0 + 1 / 2)
    have h7 : ((⌊(c : ℚ) / 10000 * a * ((mi : ℚ) / 100) + 0 + 1 / 2⌋ : ℤ) : ℚ)
        ≤ ((186001 : ℤ) : ℚ) := by
      push_cast; linarith
    exact_mod_cast h7

theorem round_priceCore_bounds (c a : ℕ) (hc : c ≤ 10 ^ 7) (ha : a ≤ 124) :
    0 ≤ ⌊priceCore c a + 1 / 2⌋ ∧ ⌊priceCore c a + 1 / 2⌋ ≤ 124001 := by
  obtain ⟨_, _, h3, h4⟩ := priceCore_bounds c a hc ha
  constructor
  · exact Int.floor_nonneg.mpr (by linarith)
  · have h6 := Int.floor_le (priceCore c a + 1 / 2)
    have h7 : ((⌊priceCore c a + 1 / 2⌋ : ℤ) : ℚ) ≤ ((124001 : ℤ) : ℚ) := by
      push_cast; linarith
    exact_mod_cast h7

theorem ofRat_intCast (z : ℤ) (h : |z| ≤ 2 ^ 53) : JSNum.ofRat (z : ℚ) = JSNum.fin z :=
  ofInt_intCast z h

theorem sub_fin_fin (x y : ℚ) :
    JSNum.sub (JSNum.fin x) (JSNum.fin y) = JSNum.ofRat (x + -y) := rfl

/-- The values of the premium breakdown of `getQuote` on a listed species, a
cover amount up to `10 ^ 7` and an age up to 124: the two reporting fields add
up to the premium without the surcharge. -/
theorem getQuote_breakdown_values (env : Env) (data : QuoteRequest) (c a : ℕ) (m : ℚ)
    (hsp : specMultiplier data.species = some m)
    (hcov : data.cover_amount = JSNum.fin c) (hc : c ≤ 10 ^ 7)
    (hage : getFullYear env env.now - getFullYear env data.birth_date = a) (ha : a ≤ 124) :
    ∃ p b, getQuote env data = [p] ∧ p.module.premium_breakdown = some b ∧
      b.core_premium = JSNum.fin (⌊priceCore c a + 1 / 2⌋ : ℤ) ∧
      b.species_adjustment
        = JSNum.fin ((specPremium c a m true - ⌊priceCore c a + 1 / 2⌋ : ℤ) : ℚ) ∧
      b.total_premium = JSNum.fin (specPremium c a m data.health_checks_updated) ∧
      JSNum.add b.core_premium b.species_adjustment = JSNum.fin (specPremium c a m true) ∧
      JSNum.add (JSNum.add b.core_premium b.species_adjustment) (JSNum.ofInt 25000)
        = JSNum.fin (specPremium c a m false) := by
  obtain ⟨p, b, hp, hb, hcore, hadj, htot, _⟩ := getQuote_breakdown_expr env data
  obtain ⟨mi, M, hm, hf, hq, _⟩ := multiplier_lookup data.species m hsp
  obtain ⟨e1, _, _⟩ := price_chain_fin c a M hc ha (by linarith [hf.2.2.2.1]) hf.2.2.2.2.1
  have hl : JSNum.ofLookup (some (JSNum.fin M)) = JSNum.fin M := rfl
  have T1 := price_eval c a mi M hc ha hf true
  rw [if_neg (by simp)] at T1
  obtain ⟨s0, s1⟩ := specPremium_true_bounds c a mi hc ha hf.2.1
  obtain ⟨r0, r1⟩ := round_priceCore_bounds c a hc ha
  rw [hcov, hage, e1, mathRound_fin] at hcore
  rw [hcov, hage, hq, hl, T1, e1, mathRound_fin, sub_fin_fin] at hadj
  rw [hcov, hage, hq, hl] at htot
  have hadj' : b.species_adjustment
      = JSNum.fin ((specPremium c a ((mi : ℚ) / 100) true - ⌊priceCore c a + 1 / 2⌋ : ℤ) : ℚ) := by
    rw [hadj, ← ofRat_intCast _ (by rw [abs_le]; constructor <;> omega)]
    congr 1
    push_cast
    ring
  have hsum : JSNum.add b.core_premium b.species_adjustment
      = JSNum.fin (specPremium c a ((mi : ℚ) / 100) true) := by
    rw [hcore, hadj', add_fin_fin, ← ofRat_intCast _ (by rw [abs_le]; constructor <;> omega)]
    congr 1
    push_cast
    ring
  refine ⟨p, b, hp, hb, hcore, ?_, ?_, ?_, ?_⟩
  · rw [hm]; exact hadj'
  · rw [htot, hm]
    exact price_eval c a mi M hc ha hf data.health_checks_updated
  · rw [hm]; exact hsum
  · rw [hsum, hm, ofInt_25000, add_fin_fin, specPremium_false,
      ← ofRat_intCast _ (by rw [abs_le]; constructor <;> omega)]
    congr 1
    push_cast
    ring

/-- C18 (amended): for every request with a species of the multiplier table, an
integer cover amount from 0 to 10,000,000 and an age from 0 to 124, the
`premium_breakdown` stored by `getQuote` satisfies
`core_premium + species_adjustment = total_premium` when health checks are up
to date, and `core_premium + species_adjustment + 25000 = total_premium` when
they are not. -/
theorem premium_breakdown_reconciles (env : Env) (data : QuoteRequest) (c a : ℕ) (m : ℚ)
    (hsp : specMultiplier data.species = some m)
    (hcov : data.cover_amount = JSNum.fin c) (hc : c ≤ 10 ^ 7)
    (hage : getFullYear env env.now - getFullYear env data.birth_date = a) (ha : a ≤ 124) :
    ∃ p b, getQuote env data = [p] ∧ p.module.premium_breakdown = some b ∧
      (if data.health_checks_updated = true then
        JSNum.add b.core_premium b.species_adjustment
      else JSNum.add (JSNum.add b.core_premium b.species_adjustment) (JSNum.ofInt 25000))
        = b.total_premium := by
  obtain ⟨p, b, hp, hb, _, _, htot, hsum, hsur⟩ :=
    getQuote_breakdown_values env data c a m hsp hcov hc hage ha
  refine ⟨p, b, hp, hb, ?_⟩
  cases hflag : data.health_checks_updated
  · rw [if_neg (by simp), hsur, htot, hflag]
  · rw [if_pos rfl, hsum, htot, hflag]

/-- Witness of C18 (amended): the 16-year-old Brachiosaurus with cover
6,500,000 and health checks up to date. -/
theorem premium_breakdown_reconciles_witness :
    specMultiplier sampleRequest.species = some (132 / 100) ∧
    sampleRequest.cover_amount = JSNum.fin ((6500000 : ℕ) : ℚ) ∧
    6500000 ≤ 10 ^ 7 ∧
    getFullYear sampleEnv sampleEnv.now - getFullYear sampleEnv sampleRequest.birth_date
      = ((16 : ℕ) : ℤ) ∧
    16 ≤ 124 ∧
    ∃ p b, getQuote sampleEnv sampleRequest = [p] ∧ p.module.premium_breakdown = some b ∧
      (if sampleRequest.health_checks_updated = true then
        JSNum.add b.core_premium b.species_adjustment
      else JSNum.add (JSNum.add b.core_premium b.species_adjustment) (JSNum.ofInt 25000))
        = b.total_premium :=
  ⟨by simp [specMultiplier, sampleRequest], by simp [sampleRequest], by norm_num,
    sampleRequest_age, by norm_num,
    premium_breakdown_reconciles sampleEnv sampleRequest 6500000 16 (132 / 100)
      (by simp [specMultiplier, sampleRequest]) (by simp [sampleRequest]) (by norm_num)
      sampleRequest_age (by norm_num)⟩

theorem surchargedRequest_age :
    getFullYear sampleEnv sampleEnv.now - getFullYear sampleEnv surchargedRequest.birth_date
      = ((25 : ℕ) : ℤ) := by
  decide

theorem priceCore_5000000_25 : priceCore ((5000000 : ℕ) : ℚ) ((25 : ℕ) : ℚ) = 12500 := by
  unfold priceCore
  have h1 : ((5000000 : ℕ) : ℚ) / 10000 = ((500 : ℕ) : ℚ) := by norm_num
  rw [h1, roundDouble_natCast 500 (by norm_num)]
  have h2 : ((500 : ℕ) : ℚ) * ((25 : ℕ) : ℚ) = ((12500 : ℕ) : ℚ) := by norm_num
  rw [h2, roundDouble_natCast 12500 (by norm_num)]
  norm_num

theorem specPremium_5000000_25 :
    specPremium ((5000000 : ℕ) : ℚ) ((25 : ℕ) : ℚ) (107 / 100) true = 13375 ∧
    specPremium ((5000000 : ℕ) : ℚ) ((25 : ℕ) : ℚ) (107 / 100) false = 38375 := by
  have h : specPremium ((5000000 : ℕ) : ℚ) ((25 : ℕ) : ℚ) (107 / 100) true = 13375 := by
    unfold specPremium
    rw [if_pos rfl, Int.floor_eq_iff]
    constructor <;> norm_num
  refine ⟨h, ?_⟩
  rw [specPremium_false, h]
  norm_num

/-- C18 (counterexample): for the 25-year-old Iguanodon with cover 5,000,000
and health checks not up to date, the stored breakdown has `core_premium`
12500, `species_adjustment` 875 and `total_premium` 38375: the two reporting
fields add up to 13375, not to the total. -/
theorem premium_breakdown_surcharge_gap :
    ∃ p b, getQuote sampleEnv surchargedRequest = [p] ∧
      p.module.premium_breakdown = some b ∧
      b.core_premium = JSNum.fin 12500 ∧
      b.species_adjustment = JSNum.fin 875 ∧
      b.total_premium = JSNum.fin 38375 ∧
      JSNum.add b.core_premium b.species_adjustment = JSNum.fin 13375 ∧
      JSNum.add b.core_premium b.species_adjustment ≠ b.total_premium := by
  obtain ⟨p, b, hp, hb, hcore, hadj, htot, hsum, _⟩ :=
    getQuote_breakdown_values sampleEnv surchargedRequest 5000000 25 (107 / 100)
      (by simp [specMultiplier, surchargedRequest]) (by simp [surchargedRequest])
      (by norm_num) surchargedRequest_age (by norm_num)
  have hflag : surchargedRequest.health_checks_updated = false := rfl
  have hfloor : ⌊priceCore ((5000000 : ℕ) : ℚ) ((25 : ℕ) : ℚ) + 1 / 2⌋ = 12500 := by
    rw [priceCore_5000000_25, Int.floor_eq_iff]
    constructor <;> norm_num
  rw [hfloor] at hcore hadj
  rw [specPremium_5000000_25.1] at hadj hsum
  rw [hflag, specPremium_5000000_25.2] at htot
  refine ⟨p, b, hp, hb, ?_, ?_, ?_, ?_, ?_⟩
  · rw [hcore]; norm_num
  · rw [hadj]; norm_num
  · rw [htot]; norm_num
  · rw [hsum]; norm_num
  · rw [hsum, htot]
    intro h
    have h' := JSNum.fin.inj h
    norm_num at h'

/-! ## Species outside the multiplier table -/

theorem mul_nan (x : JSNum) : JSNum.mul x JSNum.nan = JSNum.nan := by
  cases x <;> rfl

theorem add_nan_left (y : JSNum) : JSNum.add JSNum.nan y = JSNum.nan := by
  cases y <;> rfl

/-- The pricing expression of both hooks is `NaN` once the multiplier read from
the table is `undefined`. -/
theorem price_nan (x : JSNum) (flag : Bool) :
    JSNum.mathRound
      (if (!flag) = true then
        JSNum.add (JSNum.mul x (JSNum.ofLookup none)) (JSNum.ofInt 25000)
      else JSNum.mul x (JSNum.ofLookup none)) = JSNum.nan := by
  have h : JSNum.ofLookup none = JSNum.nan := rfl
  rw [h, mul_nan, add_nan_left]
  split_ifs <;> rfl

/-- A species outside the table of `getQuote` is priced `NaN`; no error is
raised. -/
theorem getQuote_unlisted (env : Env) (data : QuoteRequest)
    (h : data.species ∉
      ["Tyrannosaurus Rex", "Stegosaurus", "Velociraptor", "Brachiosaurus", "Iguanodon"]) :
    ∃ p, getQuote env data = [p] ∧ p.base_premium = JSNum.nan ∧
      p.suggested_premium = JSNum.nan := by
  obtain ⟨p, hp, hb, hs⟩ := getQuote_premium_expr env data
  simp only [List.mem_cons, List.mem_singleton, List.not_mem_nil, or_false, not_or] at h
  obtain ⟨h1, h2, h3, h4, h5⟩ := h
  have hl : getQuote.speciesMultipliers data.species = none := by
    unfold getQuote.speciesMultipliers
    rw [if_neg h1, if_neg h2, if_neg h3, if_neg h4, if_neg h5]
  rw [hl, price_nan] at hs
  exact ⟨p, hp, by rw [hb, hs], hs⟩

/-- A policy whose species is outside the table of `getAlteration` is priced
`NaN`; no error is raised. -/
theorem getAlteration_unlisted (policy : Policy) (policyholder : Policyholder)
    (params : AlterationParams)
    (h : ∀ s ∈
      ["Tyrannosaurus Rex", "Stegosaurus", "Velociraptor", "Brachiosaurus", "Iguanodon"],
      policy.module.species ≠ some s) :
    ∃ pkg, getAlteration "update_cover" policy policyholder params = Except.ok pkg ∧
      pkg.monthly_premium = JSNum.nan := by
  obtain ⟨pkg, hp, _, hs, _⟩ := getAlteration_update_cover policy policyholder params
  have hl : getAlteration.speciesMultipliers policy.module.species = none := by
    unfold getAlteration.speciesMultipliers
    rw [if_neg (h _ (by simp)), if_neg (h _ (by simp)), if_neg (h _ (by simp)),
      if_neg (h _ (by simp)), if_neg (h _ (by simp))]
  rw [hl, price_nan] at hs
  exact ⟨pkg, hp, hs⟩

/-- C19 (amended): for every request whose species is not one of the five
entries of the multiplier table, `getQuote` raises no error: it returns one
package whose `base_premium` and `suggested_premium` are `NaN`; for every
policy whose `module.species` is not one of the five entries, `getAlteration`
for `update_cover` raises no error: it returns a package whose
`monthly_premium` is `NaN`. -/
theorem unlisted_species_priced_nan (env : Env) (data : QuoteRequest) (policy : Policy)
    (policyholder : Policyholder) (params : AlterationParams)
    (hdata : data.species ∉
      ["Tyrannosaurus Rex", "Stegosaurus", "Velociraptor", "Brachiosaurus", "Iguanodon"])
    (hpolicy : ∀ s ∈
      ["Tyrannosaurus Rex", "Stegosaurus", "Velociraptor", "Brachiosaurus", "Iguanodon"],
      policy.module.species ≠ some s) :
    (∃ p, getQuote env data = [p] ∧ p.base_premium = JSNum.nan ∧
      p.suggested_premium = JSNum.nan) ∧
    (∃ pkg, getAlteration "update_cover" policy policyholder params = Except.ok pkg ∧
      pkg.monthly_premium = JSNum.nan) ∧
    ∀ msg, getAlteration "update_cover" policy policyholder params ≠ Except.error msg := by
  obtain ⟨pkg, hp, hs⟩ := getAlteration_unlisted policy policyholder params hpolicy
  refine ⟨getQuote_unlisted env data hdata, ⟨pkg, hp, hs⟩, ?_⟩
  intro msg hmsg
  rw [hp] at hmsg
  cases hmsg

theorem unlistedRequest_species : unlistedRequest.species ∉
    ["Tyrannosaurus Rex", "Stegosaurus", "Velociraptor", "Brachiosaurus", "Iguanodon"] := by
  decide

theorem unlistedPolicy_species : ∀ s ∈
    ["Tyrannosaurus Rex", "Stegosaurus", "Velociraptor", "Brachiosaurus", "Iguanodon"],
    unlistedPolicy.module.species ≠ some s := by
  decide

/-- Witness of C19 (amended): a Brontosaurus request and a Brontosaurus policy. -/
theorem unlisted_species_priced_nan_witness :
    unlistedRequest.species ∉
      ["Tyrannosaurus Rex", "Stegosaurus", "Velociraptor", "Brachiosaurus", "Iguanodon"] ∧
    (∀ s ∈
      ["Tyrannosaurus Rex", "Stegosaurus", "Velociraptor", "Brachiosaurus", "Iguanodon"],
      unlistedPolicy.module.species ≠ some s) ∧
    ((∃ p, getQuote sampleEnv unlistedRequest = [p] ∧ p.base_premium = JSNum.nan ∧
      p.suggested_premium = JSNum.nan) ∧
    (∃ pkg, getAlteration "update_cover" unlistedPolicy samplePolicyholder sampleParams
        = Except.ok pkg ∧ pkg.monthly_premium = JSNum.nan) ∧
    ∀ msg, getAlteration "update_cover" unlistedPolicy samplePolicyholder sampleParams
      ≠ Except.error msg) :=
  ⟨unlistedRequest_species, unlistedPolicy_species,
    unlisted_species_priced_nan sampleEnv unlistedRequest unlistedPolicy samplePolicyholder
      sampleParams unlistedRequest_species unlistedPolicy_species⟩

/-- C19 (counterexample): for a Brontosaurus, a species outside the multiplier
table, `getQuote` returns a package and `getAlteration` returns a package
rather than an error; the premium in both is `NaN`. -/
theorem unlisted_species_not_rejected :
    unlistedRequest.species = "Brontosaurus" ∧
    unlistedPolicy.module.species = some "Brontosaurus" ∧
    (∃ p, getQuote sampleEnv unlistedRequest = [p] ∧ p.suggested_premium = JSNum.nan) ∧
    (∃ pkg, getAlteration "update_cover" unlistedPolicy samplePolicyholder sampleParams
        = Except.ok pkg ∧ pkg.monthly_premium = JSNum.nan) ∧
    ¬ ∃ msg, getAlteration "update_cover" unlistedPolicy samplePolicyholder sampleParams
      = Except.error msg := by
  obtain ⟨p, hp, _, hs⟩ := getQuote_unlisted sampleEnv unlistedRequest unlistedRequest_species
  obtain ⟨pkg, hk, hm⟩ := getAlteration_unlisted unlistedPolicy samplePolicyholder sampleParams
    unlistedPolicy_species
  refine ⟨rfl, rfl, ⟨p, hp, hs⟩, ⟨pkg, hk, hm⟩, ?_⟩
  rintro ⟨msg, hmsg⟩
  rw [hk] at hmsg
  cases hmsg

/-! ## The age of a quote -/

/-- The age `getQuote` stores and the premium it computes from it. -/
theorem getQuote_age_expr (env : Env) (data : QuoteRequest) :
    ∃ p, getQuote env data = [p] ∧
      p.module.age = some
        (JSNum.ofInt (getFullYear env env.now - getFullYear env data.birth_date)) ∧
      p.base_premium = p.suggested_premium ∧
      p.suggested_premium = JSNum.mathRound
        (if (!data.health_checks_updated) = true then
          JSNum.add (JSNum.mul (JSNum.mul (JSNum.div data.cover_amount (JSNum.ofInt 10000))
            (JSNum.ofInt (getFullYear env env.now - getFullYear env data.birth_date)))
            (JSNum.ofLookup (getQuote.speciesMultipliers data.species))) (JSNum.ofInt 25000)
        else JSNum.mul (JSNum.mul (JSNum.div data.cover_amount (JSNum.ofInt 10000))
            (JSNum.ofInt (getFullYear env env.now - getFullYear env data.birth_date)))
            (JSNum.ofLookup (getQuote.speciesMultipliers data.species))) :=
  ⟨_, rfl, rfl, rfl, rfl⟩

/-- C20: the age `getQuote` stores in `module.age`, and prices with, is the
year of now minus the year of `birth_date`; two requests priced in the same
calendar year, with birth dates in the same calendar year and the same cover
amount, species and health-check flag, get the same age and the same premium,
whatever the months and days. -/
theorem getQuote_age_calendar_years (env env' : Env) (data data' : QuoteRequest)
    (hnow : getFullYear env env.now = getFullYear env' env'.now)
    (hbirth : getFullYear env data.birth_date = getFullYear env' data'.birth_date)
    (hcov : data.cover_amount = data'.cover_amount) (hsp : data.species = data'.species)
    (hflag : data.health_checks_updated = data'.health_checks_updated) :
    ∃ p p' age, getQuote env data = [p] ∧ getQuote env' data' = [p'] ∧
      age = JSNum.ofInt (getFullYear env env.now - getFullYear env data.birth_date) ∧
      p.module.age = some age ∧
      p.suggested_premium = JSNum.mathRound
        (if (!data.health_checks_updated) = true then
          JSNum.add (JSNum.mul (JSNum.mul (JSNum.div data.cover_amount (JSNum.ofInt 10000))
            age) (JSNum.ofLookup (getQuote.speciesMultipliers data.species)))
            (JSNum.ofInt 25000)
        else JSNum.mul (JSNum.mul (JSNum.div data.cover_amount (JSNum.ofInt 10000)) age)
            (JSNum.ofLookup (getQuote.speciesMultipliers data.species))) ∧
      p'.module.age = p.module.age ∧
      p'.base_premium = p.base_premium ∧
      p'.suggested_premium = p.suggested_premium := by
  obtain ⟨p, hp, ha, hb, hs⟩ := getQuote_age_expr env data
  obtain ⟨p', hp', ha', hb', hs'⟩ := getQuote_age_expr env' data'
  rw [← hnow, ← hbirth, ← hcov, ← hsp, ← hflag] at hs'
  rw [← hnow, ← hbirth] at ha'
  have e : p'.suggested_premium = p.suggested_premium := by rw [hs', hs]
  exact ⟨p, p', _, hp, hp', rfl, ha, hs, by rw [ha', ha], by rw [hb', hb, e], e⟩

theorem sampleTRexRequestLate_year :
    getFullYear sampleEnv sampleTRexRequest.birth_date
      = getFullYear sampleEnvMidYear sampleTRexRequestLate.birth_date := by
  decide

theorem sampleEnvMidYear_year :
    getFullYear sampleEnv sampleEnv.now = getFullYear sampleEnvMidYear sampleEnvMidYear.now := by
  decide

/-- Witness of C20: a Tyrannosaurus Rex born 2005-01-01 quoted on 2025-01-01 and
one born 2005-12-31 quoted on 2025-06-15. -/
theorem getQuote_age_calendar_years_witness :
    getFullYear sampleEnv sampleEnv.now = getFullYear sampleEnvMidYear sampleEnvMidYear.now ∧
    getFullYear sampleEnv sampleTRexRequest.birth_date
      = getFullYear sampleEnvMidYear sampleTRexRequestLate.birth_date ∧
    sampleTRexRequest.birth_date ≠ sampleTRexRequestLate.birth_date ∧
    ∃ p p' age, getQuote sampleEnv sampleTRexRequest = [p] ∧
      getQuote sampleEnvMidYear sampleTRexRequestLate = [p'] ∧
      age = JSNum.ofInt
        (getFullYear sampleEnv sampleEnv.now - getFullYear sampleEnv sampleTRexRequest.birth_date) ∧
      p.module.age = some age ∧
      p.suggested_premium = JSNum.mathRound
        (if (!sampleTRexRequest.health_checks_updated) = true then
          JSNum.add (JSNum.mul (JSNum.mul
            (JSNum.div sampleTRexRequest.cover_amount (JSNum.ofInt 10000))
            age) (JSNum.ofLookup (getQuote.speciesMultipliers sampleTRexRequest.species)))
            (JSNum.ofInt 25000)
        else JSNum.mul (JSNum.mul
            (JSNum.div sampleTRexRequest.cover_amount (JSNum.ofInt 10000)) age)
            (JSNum.ofLookup (getQuote.speciesMultipliers sampleTRexRequest.species))) ∧
      p'.module.age = p.module.age ∧
      p'.base_premium = p.base_premium ∧
      p'.suggested_premium = p.suggested_premium :=
  ⟨sampleEnvMidYear_year, sampleTRexRequestLate_year, by decide,
    getQuote_age_calendar_years sampleEnv sampleEnvMidYear sampleTRexRequest
      sampleTRexRequestLate sampleEnvMidYear_year sampleTRexRequestLate_year rfl rfl rfl⟩

/-! ## The anniversary increment -/

theorem ofInt_1000000 : JSNum.ofInt 1000000 = JSNum.fin 1000000 := by
  have := ofInt_natCast 1000000 (by norm_num : (1000000 : ℕ) ≤ 2 ^ 53)
  exact_mod_cast this

/-- Adding 1,000,000 to an integer below `2 ^ 52` is exact. -/
theorem add_million_natCast (n : ℕ) (hn : n ≤ 2 ^ 52) :
    JSNum.add (JSNum.fin n) (JSNum.ofInt 1000000) = JSNum.fin ((n + 1000000 : ℕ) : ℚ) := by
  rw [ofInt_1000000, add_fin_fin]
  have h := ofInt_natCast (n + 1000000) (by omega)
  unfold JSNum.ofInt at h
  rw [← h]
  congr 1
  push_cast
  ring

/-- Started 2023-06-01, evaluated 2026-01-01: at least one year. -/
theorem years_2023_06_01_to_2026_01_01 :
    JSNum.le (JSNum.ofInt 1) (diffYears sampleEnv 1767225600000 1685577600000) := by
  unfold diffYears monthDiff
  rw [if_neg (by decide),
    monthDiffCore_of_ge sampleEnv 1767225600000 1685577600000 (-31) 1685577600000
      1688169600000 (by decide) (by decide) (by decide) (by decide) 0 2592000000 (by decide)
      (by decide)]
  have h := months_exact 31 (by norm_num) 2592000000 (by norm_num) (by norm_num)
  rw [show (-((31 : ℕ) : ℤ)) = -31 by norm_num] at h
  rw [h]
  exact years_ge_one _ (by norm_num)

/-- C21 (amended): for every policy that is at least one year old at the
effective date, the `module.cover_amount` in the action emitted by
`anniversary_cover_increase` equals the policy's `sum_assured` plus 1,000,000,
whatever the policy's module; it is the policy's `module.cover_amount` plus
1,000,000 when that equals the `sum_assured`. -/
theorem anniversary_increment_of_sum_assured (env : Env) (policy : Policy)
    (policyholder : Policyholder) (effective_date : JSDate)
    (hyear : JSNum.le (JSNum.ofInt 1) (diffYears env effective_date policy.start_date)) :
    ∃ action, anniversary_cover_increase env policy policyholder effective_date = [action] ∧
      action.data.module.cover_amount
        = some (JSNum.add policy.sum_assured (JSNum.ofInt 1000000)) ∧
      (∀ module' : Module, ∃ action',
        anniversary_cover_increase env { policy with module := module' } policyholder
          effective_date = [action'] ∧
        action'.data.module.cover_amount = action.data.module.cover_amount) ∧
      (policy.module.cover_amount = some policy.sum_assured →
        action.data.module.cover_amount
          = some (JSNum.add (JSNum.ofLookup policy.module.cover_amount)
              (JSNum.ofInt 1000000))) ∧
      (∀ n : ℕ, n ≤ 2 ^ 52 → policy.sum_assured = JSNum.fin n →
        action.data.module.cover_amount = some (JSNum.fin ((n + 1000000 : ℕ) : ℚ))) := by
  refine ⟨_, anniversary_cover_increase_of_ge env policy policyholder effective_date hyear,
    rfl, ?_, ?_, ?_⟩
  · intro module'
    exact ⟨_, anniversary_cover_increase_of_ge env { policy with module := module' }
      policyholder effective_date hyear, rfl⟩
  · intro h
    rw [h]
    rfl
  · intro n hn hs
    show some (JSNum.add policy.sum_assured (JSNum.ofInt 1000000)) = _
    rw [hs, add_million_natCast n hn]

/-- Witness of C21 (amended): the Stegosaurus policy of the unit test, started
2023-06-01 with cover 5,000,000 and evaluated 2025-01-01. -/
theorem anniversary_increment_of_sum_assured_witness :
    JSNum.le (JSNum.ofInt 1)
      (diffYears sampleEnv 1735689600000 (anniversaryPolicy 1685577600000).start_date) ∧
    (anniversaryPolicy 1685577600000).module.cover_amount
      = some (anniversaryPolicy 1685577600000).sum_assured ∧
    (5000000 : ℕ) ≤ 2 ^ 52 ∧
    (anniversaryPolicy 1685577600000).sum_assured = JSNum.fin ((5000000 : ℕ) : ℚ) ∧
    ∃ action, anniversary_cover_increase sampleEnv (anniversaryPolicy 1685577600000)
        samplePolicyholder 1735689600000 = [action] ∧
      action.data.module.cover_amount = some (JSNum.fin ((5000000 + 1000000 : ℕ) : ℚ)) := by
  have hs : (anniversaryPolicy 1685577600000).sum_assured = JSNum.fin ((5000000 : ℕ) : ℚ) := by
    simp [anniversaryPolicy]
  obtain ⟨action, ha, _, _, _, hn⟩ :=
    anniversary_increment_of_sum_assured sampleEnv (anniversaryPolicy 1685577600000)
      samplePolicyholder 1735689600000 years_2023_06_01_to_2025_01_01
  exact ⟨years_2023_06_01_to_2025_01_01, rfl, by norm_num, hs,
    action, ha, hn 5000000 (by norm_num) hs⟩

/-- C21 (counterexample): the Stegosaurus policy started 2023-06-01 with cover
5,000,000 gets the module cover amount 6,000,000 on 2025-01-01; with that
module applied (and the `sum_assured` still 5,000,000), the run of 2026-01-01
emits the cover amount 6,000,000 again, not the stored 6,000,000 plus
1,000,000. -/
theorem anniversary_increment_not_cumulative :
    ∃ first second,
      anniversary_cover_increase sampleEnv (anniversaryPolicy 1685577600000)
        samplePolicyholder 1735689600000 = [first] ∧
      first.data.module.cover_amount = some (JSNum.fin 6000000) ∧
      anniversary_cover_increase sampleEnv
        { anniversaryPolicy 1685577600000 with module := first.data.module }
        samplePolicyholder 1767225600000 = [second] ∧
      second.data.module.cover_amount = some (JSNum.fin 6000000) ∧
      second.data.module.cover_amount ≠
        some (JSNum.add (JSNum.fin 6000000) (JSNum.ofInt 1000000)) := by
  have h1 := anniversary_cover_increase_of_ge sampleEnv (anniversaryPolicy 1685577600000)
    samplePolicyholder 1735689600000 years_2023_06_01_to_2025_01_01
  have hs : (anniversaryPolicy 1685577600000).sum_assured = JSNum.fin 5000000 := rfl
  rw [hs, add_million_5000000] at h1
  have h2 := anniversary_cover_increase_of_ge sampleEnv
    { anniversaryPolicy 1685577600000 with
      module := { (anniversaryPolicy 1685577600000).module with
        cover_amount := some (JSNum.fin 6000000)
        anniversary_increase_applied := some (toISOString 1735689600000)
        previous_cover_amount := some (JSNum.fin 5000000)
        previous_premium := some (anniversaryPolicy 1685577600000).monthly_premium } }
    samplePolicyholder 1767225600000 years_2023_06_01_to_2026_01_01
  refine ⟨_, _, h1, rfl, h2, ?_, ?_⟩
  · show some (JSNum.add (JSNum.fin 5000000) (JSNum.ofInt 1000000)) = _
    rw [add_million_5000000]
  · show some (JSNum.add (JSNum.fin 5000000) (JSNum.ofInt 1000000)) ≠ _
    rw [add_million_5000000]
    have h7 := add_million_natCast 6000000 (by norm_num)
    have h7' : JSNum.add (JSNum.fin 6000000) (JSNum.ofInt 1000000) = JSNum.fin 7000000 := by
      rw [show (6000000 : ℚ) = ((6000000 : ℕ) : ℚ) by norm_num, h7]
      norm_num
    rw [h7']
    intro h
    have h' := JSNum.fin.inj (Option.some.inj h)
    norm_num at h'

/-! ## The cover-amount bound under the anniversary increase -/

/-- The sum of a number from 1,000,000 to 9,000,000 and 1,000,000 is a finite
number from 2,000,000 to 10,000,000. -/
theorem add_million_bounds (s : ℚ) (h0 : 1000000 ≤ s) (h1 : s ≤ 9000000) :
    ∃ x : ℚ, JSNum.add (JSNum.fin s) (JSNum.ofInt 1000000) = JSNum.fin x ∧
      2000000 ≤ x ∧ x ≤ 10000000 := by
  rw [ofInt_1000000, add_fin_fin]
  have q0 : (0 : ℚ) ≤ s + 1000000 := by linarith
  have lo : ((2000000 : ℕ) : ℚ) ≤ s + 1000000 := by push_cast; linarith
  have hi : s + 1000000 ≤ ((10000000 : ℕ) : ℚ) := by push_cast; linarith
  have m0 := roundDouble_mono ((2000000 : ℕ) : ℚ) (s + 1000000) (by positivity) lo
  have m1 := roundDouble_mono (s + 1000000) ((10000000 : ℕ) : ℚ) q0 hi
  rw [roundDouble_natCast 2000000 (by norm_num)] at m0
  rw [roundDouble_natCast 10000000 (by norm_num)] at m1
  refine ⟨roundDouble (s + 1000000), ?_, by exact_mod_cast m0, by exact_mod_cast m1⟩
  exact ofRat_eq_fin _ q0 (le_trans (by linarith : s + 1000000 ≤ (10000000 : ℚ)) (by norm_num))

/-- C22 (amended): for every policy whose `sum_assured` lies in
[1,000,000, 9,000,000], the `module.cover_amount` in any action emitted by
`anniversary_cover_increase` lies in [1,000,000, 10,000,000]: it is the
`sum_assured` plus 1,000,000, whatever the policy's `module.cover_amount`. -/
theorem anniversary_cover_within_bound (env : Env) (policy : Policy)
    (policyholder : Policyholder) (effective_date : JSDate) (s : ℚ)
    (hs : policy.sum_assured = JSNum.fin s) (h0 : 1000000 ≤ s) (h1 : s ≤ 9000000) :
    ∀ action ∈ anniversary_cover_increase env policy policyholder effective_date,
      ∃ x : ℚ, action.data.module.cover_amount = some (JSNum.fin x) ∧
        action.data.module.cover_amount
          = some (JSNum.add policy.sum_assured (JSNum.ofInt 1000000)) ∧
        1000000 ≤ x ∧ x ≤ 10000000 := by
  intro action hmem
  obtain ⟨x, hx, x0, x1⟩ := add_million_bounds s h0 h1
  by_cases h : JSNum.le (JSNum.ofInt 1) (diffYears env effective_date policy.start_date)
  · rw [anniversary_cover_increase_of_ge env policy policyholder effective_date h,
      List.mem_singleton] at hmem
    rw [hmem]
    refine ⟨x, ?_, rfl, by linarith, x1⟩
    show some (JSNum.add policy.sum_assured (JSNum.ofInt 1000000)) = _
    rw [hs, hx]
  · unfold anniversary_cover_increase at hmem
    rw [if_neg h] at hmem
    cases hmem

/-- Witness of C22 (amended): the Stegosaurus policy of the unit test, started
2023-06-01 with cover 5,000,000 and evaluated 2025-01-01. -/
theorem anniversary_cover_within_bound_witness :
    (anniversaryPolicy 1685577600000).sum_assured = JSNum.fin 5000000 ∧
    (1000000 : ℚ) ≤ 5000000 ∧ (5000000 : ℚ) ≤ 9000000 ∧
    ∀ action ∈ anniversary_cover_increase sampleEnv (anniversaryPolicy 1685577600000)
        samplePolicyholder 1735689600000,
      ∃ x : ℚ, action.data.module.cover_amount = some (JSNum.fin x) ∧
        action.data.module.cover_amount
          = some (JSNum.add (anniversaryPolicy 1685577600000).sum_assured
              (JSNum.ofInt 1000000)) ∧
        1000000 ≤ x ∧ x ≤ 10000000 :=
  ⟨rfl, by norm_num, by norm_num,
    anniversary_cover_within_bound sampleEnv (anniversaryPolicy 1685577600000)
      samplePolicyholder 1735689600000 5000000 rfl (by norm_num) (by norm_num)⟩

theorem add_million_10000000 :
    JSNum.add (JSNum.fin 10000000) (JSNum.ofInt 1000000) = JSNum.fin 11000000 := by
  have h := add_million_natCast 10000000 (by norm_num)
  rw [show (10000000 : ℚ) = ((10000000 : ℕ) : ℚ) by norm_num, h]
  norm_num

/-- C22 (counterexample): a Tyrannosaurus Rex policy whose `sum_assured` and
`module.cover_amount` are both 10,000,000, started 2023-01-01 and evaluated
2025-01-01, gets the module cover amount 11,000,000, above the bound. -/
theorem anniversary_cover_exceeds_bound :
    fullCoverPolicy.sum_assured = JSNum.fin 10000000 ∧
    fullCoverPolicy.module.cover_amount = some (JSNum.fin 10000000) ∧
    ∃ action, anniversary_cover_increase sampleEnv fullCoverPolicy samplePolicyholder
        1735689600000 = [action] ∧
      action.data.module.cover_amount = some (JSNum.fin 11000000) ∧
      ¬ ((11000000 : ℚ) ≤ 10000000) := by
  have h : JSNum.le (JSNum.ofInt 1)
      (diffYears sampleEnv 1735689600000 fullCoverPolicy.start_date) :=
    years_2023_01_01_to_2025_01_01
  refine ⟨rfl, rfl, _, anniversary_cover_increase_of_ge sampleEnv fullCoverPolicy
    samplePolicyholder 1735689600000 h, ?_, by norm_num⟩
  show some (JSNum.add (JSNum.fin 10000000) (JSNum.ofInt 1000000)) = _
  rw [add_million_10000000]

/-! ## Pricing scenarios -/

/-- The premium of `getQuote` on a listed species, a cover amount up to
`10 ^ 7` and an age up to 124. -/
theorem getQuote_premium_value (env : Env) (data : QuoteRequest) (c a : ℕ) (m : ℚ)
    (hsp : specMultiplier data.species = some m)
    (hcov : data.cover_amount = JSNum.fin c) (hc : c ≤ 10 ^ 7)
    (hage : getFullYear env env.now - getFullYear env data.birth_date = a) (ha : a ≤ 124) :
    ∃ p, getQuote env data = [p] ∧
      p.suggested_premium = JSNum.fin (specPremium c a m data.health_checks_updated) ∧
      p.base_premium = p.suggested_premium := by
  obtain ⟨p, hp, hb, hs⟩ := getQuote_premium_expr env data
  obtain ⟨mi, M, hm, hf, hq, _⟩ := multiplier_lookup data.species m hsp
  refine ⟨p, hp, ?_, hb⟩
  rw [hs, hcov, hage, hq, hm]
  exact price_eval c a mi M hc ha hf data.health_checks_updated

/-- The premium of `getAlteration` for a policy of a listed species, an age up
to 124 and a new cover amount up to `10 ^ 7`. -/
theorem getAlteration_premium_value (policy : Policy) (policyholder : Policyholder)
    (params : AlterationParams) (c a : ℕ) (m : ℚ) (species : String) (flag : Bool)
    (hcov : params.cover_amount = JSNum.fin c) (hc : c ≤ 10 ^ 7)
    (hage : policy.module.age = some (JSNum.ofInt (a : ℤ))) (ha : a ≤ 124)
    (hspecies : policy.module.species = some species)
    (hsp : specMultiplier species = some m)
    (hflag : policy.module.health_checks_updated = some flag) :
    ∃ pkg, getAlteration "update_cover" policy policyholder params = Except.ok pkg ∧
      pkg.monthly_premium = JSNum.fin (specPremium c a m flag) ∧
      pkg.module = { policy.module with
                     cover_amount := some params.cover_amount
                     old_cover_amount := some policy.sum_assured
                     old_premium := some policy.monthly_premium } := by
  obtain ⟨pkg, hp, _, hs, hmod, _⟩ := getAlteration_update_cover policy policyholder params
  obtain ⟨mi, M, hm, hf, _, hq⟩ := multiplier_lookup species m hsp
  refine ⟨pkg, hp, ?_, hmod⟩
  have hl : JSNum.ofLookup (some (JSNum.ofInt (a : ℤ))) = JSNum.ofInt (a : ℤ) := rfl
  have ht : truthy (some flag) = flag := rfl
  rw [hs, hcov, hage, hspecies, hflag, hq, hm, hl, ht]
  exact price_eval c a mi M hc ha hf flag

theorem ofInt_20 : JSNum.ofInt ((20 : ℕ) : ℤ) = JSNum.fin 20 := by
  have := ofInt_natCast 20 (by norm_num)
  exact_mod_cast this

theorem ofInt_36 : JSNum.ofInt ((36 : ℕ) : ℤ) = JSNum.fin 36 := by
  have := ofInt_natCast 36 (by norm_num)
  exact_mod_cast this

/-- C23: for a request with cover amount 9,000,000, species Tyrannosaurus Rex,
health checks up to date and a birth year 20 before the current year,
`getQuote` returns `suggested_premium = 14580`; for a policy with age 20,
species Tyrannosaurus Rex and health checks up to date, `getAlteration` with
the new cover amount 7,500,000 returns `monthly_premium = 12150`. -/
theorem scenario_tyrannosaurus_rex (env : Env) (data : QuoteRequest) (policy : Policy)
    (policyholder : Policyholder)
    (hcov : data.cover_amount = JSNum.fin 9000000)
    (hspecies : data.species = "Tyrannosaurus Rex")
    (hflag : data.health_checks_updated = true)
    (hage : getFullYear env env.now - getFullYear env data.birth_date = 20)
    (page : policy.module.age = some (JSNum.fin 20))
    (pspecies : policy.module.species = some "Tyrannosaurus Rex")
    (pflag : policy.module.health_checks_updated = some true) :
    (∃ p, getQuote env data = [p] ∧ p.suggested_premium = JSNum.fin 14580) ∧
    ∃ pkg, getAlteration "update_cover" policy policyholder
        { cover_amount := JSNum.fin 7500000 } = Except.ok pkg ∧
      pkg.monthly_premium = JSNum.fin 12150 := by
  have hm : specMultiplier "Tyrannosaurus Rex" = some (81 / 100) := by simp [specMultiplier]
  constructor
  · obtain ⟨p, hp, hs, _⟩ := getQuote_premium_value env data 9000000 20 (81 / 100)
      (by rw [hspecies]; exact hm) (by rw [hcov]; norm_num) (by norm_num)
      (by rw [hage]; norm_num) (by norm_num)
    refine ⟨p, hp, ?_⟩
    have hv : specPremium ((9000000 : ℕ) : ℚ) ((20 : ℕ) : ℚ) (81 / 100) true = 14580 := by
      unfold specPremium
      rw [if_pos rfl, Int.floor_eq_iff]
      constructor <;> norm_num
    rw [hs, hflag, hv]
    norm_num
  · obtain ⟨pkg, hp, hs, _⟩ := getAlteration_premium_value policy policyholder
      { cover_amount := JSNum.fin 7500000 } 7500000 20 (81 / 100) "Tyrannosaurus Rex" true
      (by norm_num) (by norm_num) (by rw [page, ofInt_20]) (by norm_num) pspecies hm pflag
    refine ⟨pkg, hp, ?_⟩
    have hv : specPremium ((7500000 : ℕ) : ℚ) ((20 : ℕ) : ℚ) (81 / 100) true = 12150 := by
      unfold specPremium
      rw [if_pos rfl, Int.floor_eq_iff]
      constructor <;> norm_num
    rw [hs, hv]
    norm_num

theorem tRexQuoteRequest_age :
    getFullYear sampleEnv sampleEnv.now - getFullYear sampleEnv tRexQuoteRequest.birth_date
      = 20 := by
  decide

/-- Witness of C23: the request and the policy of the unit tests, quoted on
2025-01-01 for a birth date of 2005-01-01. -/
theorem scenario_tyrannosaurus_rex_witness :
    tRexQuoteRequest.cover_amount = JSNum.fin 9000000 ∧
    tRexQuoteRequest.species = "Tyrannosaurus Rex" ∧
    tRexQuoteRequest.health_checks_updated = true ∧
    getFullYear sampleEnv sampleEnv.now - getFullYear sampleEnv tRexQuoteRequest.birth_date
      = 20 ∧
    samplePolicy.module.age = some (JSNum.fin 20) ∧
    samplePolicy.module.species = some "Tyrannosaurus Rex" ∧
    samplePolicy.module.health_checks_updated = some true ∧
    (∃ p, getQuote sampleEnv tRexQuoteRequest = [p] ∧ p.suggested_premium = JSNum.fin 14580) ∧
    ∃ pkg, getAlteration "update_cover" samplePolicy samplePolicyholder
        { cover_amount := JSNum.fin 7500000 } = Except.ok pkg ∧
      pkg.monthly_premium = JSNum.fin 12150 :=
  ⟨rfl, rfl, rfl, tRexQuoteRequest_age, rfl, rfl, rfl,
    scenario_tyrannosaurus_rex sampleEnv tRexQuoteRequest samplePolicy samplePolicyholder
      rfl rfl rfl tRexQuoteRequest_age rfl rfl rfl⟩

/-- C24: for a request with cover amount 5,000,000, species Velociraptor,
health checks up to date and a birth year 36 before the current year,
`getQuote` returns `suggested_premium = 13680`; for a policy with age 36,
species Velociraptor and health checks up to date, `getAlteration` with the new
cover amount 7,500,000 returns `monthly_premium = 20520`. -/
theorem scenario_velociraptor (env : Env) (data : QuoteRequest) (policy : Policy)
    (policyholder : Policyholder)
    (hcov : data.cover_amount = JSNum.fin 5000000)
    (hspecies : data.species = "Velociraptor")
    (hflag : data.health_checks_updated = true)
    (hage : getFullYear env env.now - getFullYear env data.birth_date = 36)
    (page : policy.module.age = some (JSNum.fin 36))
    (pspecies : policy.module.species = some "Velociraptor")
    (pflag : policy.module.health_checks_updated = some true) :
    (∃ p, getQuote env data = [p] ∧ p.suggested_premium = JSNum.fin 13680) ∧
    ∃ pkg, getAlteration "update_cover" policy policyholder
        { cover_amount := JSNum.fin 7500000 } = Except.ok pkg ∧
      pkg.monthly_premium = JSNum.fin 20520 := by
  have hm : specMultiplier "Velociraptor" = some (76 / 100) := by simp [specMultiplier]
  constructor
  · obtain ⟨p, hp, hs, _⟩ := getQuote_premium_value env data 5000000 36 (76 / 100)
      (by rw [hspecies]; exact hm) (by rw [hcov]; norm_num) (by norm_num)
      (by rw [hage]; norm_num) (by norm_num)
    refine ⟨p, hp, ?_⟩
    have hv : specPremium ((5000000 : ℕ) : ℚ) ((36 : ℕ) : ℚ) (76 / 100) true = 13680 := by
      unfold specPremium
      rw [if_pos rfl, Int.floor_eq_iff]
      constructor <;> norm_num
    rw [hs, hflag, hv]
    norm_num
  · obtain ⟨pkg, hp, hs, _⟩ := getAlteration_premium_value policy policyholder
      { cover_amount := JSNum.fin 7500000 } 7500000 36 (76 / 100) "Velociraptor" true
      (by norm_num) (by norm_num) (by rw [page, ofInt_36]) (by norm_num) pspecies hm pflag
    refine ⟨pkg, hp, ?_⟩
    have hv : specPremium ((7500000 : ℕ) : ℚ) ((36 : ℕ) : ℚ) (76 / 100) true = 20520 := by
      unfold specPremium
      rw [if_pos rfl, Int.floor_eq_iff]
      constructor <;> norm_num
    rw [hs, hv]
    norm_num

theorem velociraptorRequest_age :
    getFullYear sampleEnv sampleEnv.now - getFullYear sampleEnv velociraptorRequest.birth_date
      = 36 := by
  decide

/-- Witness of C24: the request and the policy of the unit tests, quoted on
2025-01-01 for a birth date of 1989-01-01. -/
theorem scenario_velociraptor_witness :
    velociraptorRequest.cover_amount = JSNum.fin 5000000 ∧
    velociraptorRequest.species = "Velociraptor" ∧
    velociraptorRequest.health_checks_updated = true ∧
    getFullYear sampleEnv sampleEnv.now - getFullYear sampleEnv velociraptorRequest.birth_date
      = 36 ∧
    velociraptorPolicy.module.age = some (JSNum.fin 36) ∧
    velociraptorPolicy.module.species = some "Velociraptor" ∧
    velociraptorPolicy.module.health_checks_updated = some true ∧
    (∃ p, getQuote sampleEnv velociraptorRequest = [p] ∧
      p.suggested_premium = JSNum.fin 13680) ∧
    ∃ pkg, getAlteration "update_cover" velociraptorPolicy samplePolicyholder
        { cover_amount := JSNum.fin 7500000 } = Except.ok pkg ∧
      pkg.monthly_premium = JSNum.fin 20520 :=
  ⟨rfl, rfl, rfl, velociraptorRequest_age, rfl, rfl, rfl,
    scenario_velociraptor sampleEnv velociraptorRequest velociraptorPolicy samplePolicyholder
      rfl rfl rfl velociraptorRequest_age rfl rfl rfl⟩

/-! ## The gap between the breakdown and the total -/

/-- C25 (amended): for every request with a species of the multiplier table, an
integer cover amount from 0 to 10,000,000 and an age from 0 to 124, the
breakdown stored by `getQuote` satisfies
`total_premium - (core_premium + species_adjustment) = 0` when health checks
are up to date and `= 25000` when they are not. -/
theorem breakdown_gap_is_surcharge (env : Env) (data : QuoteRequest) (c a : ℕ) (m : ℚ)
    (hsp : specMultiplier data.species = some m)
    (hcov : data.cover_amount = JSNum.fin c) (hc : c ≤ 10 ^ 7)
    (hage : getFullYear env env.now - getFullYear env data.birth_date = a) (ha : a ≤ 124) :
    ∃ p b, getQuote env data = [p] ∧ p.module.premium_breakdown = some b ∧
      JSNum.sub b.total_premium (JSNum.add b.core_premium b.species_adjustment)
        = JSNum.fin (if data.health_checks_updated = true then 0 else 25000) := by
  obtain ⟨p, b, hp, hb, _, _, htot, hsum, _⟩ :=
    getQuote_breakdown_values env data c a m hsp hcov hc hage ha
  refine ⟨p, b, hp, hb, ?_⟩
  rw [htot, hsum, sub_fin_fin]
  cases hflag : data.health_checks_updated
  · rw [if_neg (by simp), specPremium_false]
    have e : (((specPremium c a m true + 25000 : ℤ) : ℚ)) + -((specPremium c a m true : ℤ) : ℚ)
        = ((25000 : ℤ) : ℚ) := by
      push_cast
      ring
    rw [e, ofRat_intCast 25000 (by norm_num)]
    norm_num
  · rw [if_pos rfl]
    have e : ((specPremium c a m true : ℤ) : ℚ) + -((specPremium c a m true : ℤ) : ℚ)
        = ((0 : ℤ) : ℚ) := by
      push_cast
      ring
    rw [e, ofRat_intCast 0 (by norm_num)]
    norm_num

/-- Witness of C25 (amended): the 25-year-old Iguanodon with cover 5,000,000
and health checks not up to date. -/
theorem breakdown_gap_is_surcharge_witness :
    specMultiplier surchargedRequest.species = some (107 / 100) ∧
    surchargedRequest.cover_amount = JSNum.fin ((5000000 : ℕ) : ℚ) ∧
    5000000 ≤ 10 ^ 7 ∧
    getFullYear sampleEnv sampleEnv.now - getFullYear sampleEnv surchargedRequest.birth_date
      = ((25 : ℕ) : ℤ) ∧
    25 ≤ 124 ∧
    ∃ p b, getQuote sampleEnv surchargedRequest = [p] ∧ p.module.premium_breakdown = some b ∧
      JSNum.sub b.total_premium (JSNum.add b.core_premium b.species_adjustment)
        = JSNum.fin (if surchargedRequest.health_checks_updated = true then 0 else 25000) :=
  ⟨by simp [specMultiplier, surchargedRequest], by simp [surchargedRequest], by norm_num,
    surchargedRequest_age, by norm_num,
    breakdown_gap_is_surcharge sampleEnv surchargedRequest 5000000 25 (107 / 100)
      (by simp [specMultiplier, surchargedRequest]) (by simp [surchargedRequest])
      (by norm_num) surchargedRequest_age (by norm_num)⟩

/-- The core premium of `oldStegosaurus`: just below 16150. -/
theorem oldStegosaurus_core :
    JSNum.mul (JSNum.div (JSNum.fin 1292000) (JSNum.ofInt 10000)) (JSNum.ofInt 125)
      = JSNum.fin (8878556394291199 * 2 ^ (-39 : ℤ)) := by
  have e125 : JSNum.ofInt 125 = JSNum.fin 125 := by
    have h := ofInt_natCast 125 (by norm_num : (125 : ℕ) ≤ 2 ^ 53)
    exact_mod_cast h
  rw [ofInt_10000, e125, div_fin_fin _ _ (by norm_num)]
  have s0 : JSNum.ofRat (1292000 / 10000) = JSNum.fin (4545820873877094 * 2 ^ (-45 : ℤ)) := by
    have := ofRat_eval (1292000 / 10000) 7 4545820873877094 (by norm_num) (by norm_num)
      (by norm_num) (by norm_num) (by rw [abs_lt]; constructor <;> norm_num)
    simpa using this
  rw [s0, mul_fin_fin]
  have := ofRat_eval (4545820873877094 * 2 ^ (-45 : ℤ) * 125) 13 8878556394291199
    (by norm_num) (by norm_num) (by norm_num) (by norm_num)
    (by rw [abs_lt]; constructor <;> norm_num)
  simpa using this

theorem ofRat_of_int (q : ℚ) (z : ℤ) (hq : q = z) (hz : |z| ≤ 2 ^ 53) :
    JSNum.ofRat q = JSNum.fin q := by
  rw [hq]
  exact ofRat_intCast z hz

/-- C25 (counterexample): for a Stegosaurus aged 125 with cover 1,292,000 and
health checks not up to date the stored breakdown has `core_premium` 16150,
`species_adjustment` 3068 and `total_premium` 44219: the total exceeds the sum
of the two reporting fields by 25001, one more than the surcharge. -/
theorem breakdown_gap_off_by_rounding :
    ∃ p b, getQuote sampleEnv oldStegosaurusSurcharged = [p] ∧
      p.module.premium_breakdown = some b ∧
      b.core_premium = JSNum.fin 16150 ∧
      b.species_adjustment = JSNum.fin 3068 ∧
      b.total_premium = JSNum.fin 44219 ∧
      JSNum.sub b.total_premium (JSNum.add b.core_premium b.species_adjustment)
        = JSNum.fin 25001 ∧
      JSNum.sub b.total_premium (JSNum.add b.core_premium b.species_adjustment)
        ≠ JSNum.fin 25000 := by
  obtain ⟨p, b, hp, hb, hcore, hadj, htot, _⟩ :=
    getQuote_breakdown_expr sampleEnv oldStegosaurusSurcharged
  have hq : JSNum.ofLookup (getQuote.speciesMultipliers "Stegosaurus")
      = JSNum.fin (5359283556570890 * 2 ^ (-52 : ℤ)) := by
    have h := facts_119.1
    simp only [getQuote.speciesMultipliers]
    rw [if_neg (by decide), if_pos True.intro]
    exact (by exact_mod_cast h)
  have h1 : oldStegosaurusSurcharged.cover_amount = JSNum.fin 1292000 := rfl
  have h2 : oldStegosaurusSurcharged.species = "Stegosaurus" := rfl
  have h3 : oldStegosaurusSurcharged.health_checks_updated = false := rfl
  have h4 : oldStegosaurusSurcharged.birth_date = oldStegosaurus.birth_date := rfl
  have f1 : ⌊(8878556394291199 * 2 ^ (-39 : ℤ) : ℚ) + 1 / 2⌋ = 16150 := by
    rw [Int.floor_eq_iff]
    constructor <;> norm_num
  have f3 : ⌊(6077344364101632 * 2 ^ (-37 : ℤ) : ℚ) + 1 / 2⌋ = 44219 := by
    rw [Int.floor_eq_iff]
    constructor <;> norm_num
  rw [h1, h4, oldStegosaurus_age, oldStegosaurus_core, mathRound_fin, f1] at hcore
  rw [h1, h2, h4, oldStegosaurus_age, hq, oldStegosaurus_adjusted, oldStegosaurus_core,
    mathRound_fin, mathRound_fin, floor_19218, f1, sub_fin_fin] at hadj
  rw [h1, h2, h3, h4, oldStegosaurus_age, if_pos (by simp), hq, oldStegosaurus_adjusted,
    oldStegosaurus_surcharged, mathRound_fin, f3] at htot
  have e1 : JSNum.ofRat (((19218 : ℤ) : ℚ) + -((16150 : ℤ) : ℚ)) = JSNum.fin 3068 := by
    have := ofRat_of_int (((19218 : ℤ) : ℚ) + -((16150 : ℤ) : ℚ)) 3068 (by norm_num)
      (by norm_num)
    rw [this]
    norm_num
  rw [e1] at hadj
  have hc' : b.core_premium = JSNum.fin 16150 := by rw [hcore]; norm_num
  have ht' : b.total_premium = JSNum.fin 44219 := by rw [htot]; norm_num
  have e2 : JSNum.add (JSNum.fin 16150) (JSNum.fin 3068) = JSNum.fin 19218 := by
    rw [add_fin_fin]
    have := ofRat_of_int ((16150 : ℚ) + 3068) 19218 (by norm_num) (by norm_num)
    rw [this]
    norm_num
  have e3 : JSNum.sub (JSNum.fin 44219) (JSNum.fin 19218) = JSNum.fin 25001 := by
    rw [sub_fin_fin]
    have := ofRat_of_int ((44219 : ℚ) + -19218) 25001 (by norm_num) (by norm_num)
    rw [this]
    norm_num
  refine ⟨p, b, hp, hb, hc', hadj, ht', ?_, ?_⟩
  · rw [ht', hc', hadj, e2, e3]
  · rw [ht', hc', hadj, e2, e3]
    intro h
    have h' := JSNum.fin.inj h
    norm_num at h'

/-! ## The calendar year of an instant -/

theorem yearOfEra_bounds (doe : ℤ) (h0 : 0 ≤ doe) (h1 : doe ≤ 146096) :
    0 ≤ (doe - doe / 1460 + doe / 36524 - doe / 146096) / 365 ∧
    (doe - doe / 1460 + doe / 36524 - doe / 146096) / 365 ≤ 399 := by
  omega

set_option maxHeartbeats 4000000 in
/-- The year of the era computed by `civilFromDays` is the one whose days
contain the day of the era. -/
theorem yearOfEra_spec (doe y : ℤ) (h0 : 0 ≤ doe) (h1 : doe ≤ 146096)
    (hy : y = (doe - doe / 1460 + doe / 36524 - doe / 146096) / 365) :
    365 * y + y / 4 - y / 100 ≤ doe ∧
    (doe < 365 * (y + 1) + (y + 1) / 4 - (y + 1) / 100 ∨ (y = 399 ∧ doe = 146096)) := by
  have hb := yearOfEra_bounds doe h0 h1
  rw [← hy] at hb
  obtain ⟨hb0, hb1⟩ := hb
  obtain ⟨q, hq⟩ : ∃ q, q = doe / 1460 := ⟨_, rfl⟩
  have hq0 : 0 ≤ q := by omega
  have hq4 : q ≤ 100 := by omega
  obtain ⟨c, hc⟩ : ∃ c, c = doe / 36524 := ⟨_, rfl⟩
  have hc0 : 0 ≤ c := by omega
  have hc4 : c ≤ 4 := by omega
  obtain ⟨e, he⟩ : ∃ e, e = doe / 146096 := ⟨_, rfl⟩
  have he0 : 0 ≤ e := by omega
  have he1 : e ≤ 1 := by omega
  rw [← hq, ← hc, ← he] at hy
  interval_cases q <;> first | omega | (interval_cases c <;> interval_cases e <;> omega)

/-- The year of a day number, by era, day of the era and year of the era. -/
theorem civilFromDays_year_spec (d : ℤ) :
    ∃ era doe y : ℤ, d + 719468 = era * 146097 + doe ∧ 0 ≤ doe ∧ doe ≤ 146096 ∧
      0 ≤ y ∧ y ≤ 399 ∧ 365 * y + y / 4 - y / 100 ≤ doe ∧
      (doe < 365 * (y + 1) + (y + 1) / 4 - (y + 1) / 100 ∨ (y = 399 ∧ doe = 146096)) ∧
      (civilFromDays d).1
        = y + era * 400 + (if 306 ≤ doe - (365 * y + y / 4 - y / 100) then 1 else 0) := by
  have h0 : 0 ≤ (d + 719468) % 146097 := Int.emod_nonneg _ (by norm_num)
  have h1 : (d + 719468) % 146097 ≤ 146096 := by
    have := Int.emod_lt_of_pos (d + 719468) (by norm_num : (0 : ℤ) < 146097)
    omega
  obtain ⟨hb0, hb1⟩ := yearOfEra_bounds _ h0 h1
  obtain ⟨hs0, hs1⟩ := yearOfEra_spec _ _ h0 h1 rfl
  refine ⟨(d + 719468) / 146097, (d + 719468) % 146097, _, ?_, h0, h1, hb0, hb1, hs0, hs1, ?_⟩
  · have := Int.emod_add_ediv (d + 719468) 146097
    omega
  · simp only [civilFromDays]
    generalize ((d + 719468) % 146097 - (d + 719468) % 146097 / 1460
      + (d + 719468) % 146097 / 36524 - (d + 719468) % 146097 / 146096) / 365 = y at *
    generalize (d + 719468) % 146097 = doe at *
    split_ifs <;> omega

theorem yearStart_lt (a b : ℤ) (h : a < b) :
    365 * (a + 1) + (a + 1) / 4 - (a + 1) / 100 ≤ 365 * b + b / 4 - b / 100 := by
  omega

/-- A later day is in the same or a later year. -/
theorem civilFromDays_year_mono (d₁ d₂ : ℤ) (h : d₁ ≤ d₂) :
    (civilFromDays d₁).1 ≤ (civilFromDays d₂).1 := by
  obtain ⟨e1, doe1, y1, hz1, a1, b1, c1, f1, s1, t1, r1⟩ := civilFromDays_year_spec d₁
  obtain ⟨e2, doe2, y2, hz2, a2, b2, c2, f2, s2, t2, r2⟩ := civilFromDays_year_spec d₂
  rw [r1, r2]
  have he : e1 ≤ e2 := by omega
  have i1 : (if 306 ≤ doe1 - (365 * y1 + y1 / 4 - y1 / 100) then (1 : ℤ) else 0) ≤ 1 := by
    split_ifs <;> norm_num
  have i2 : (0 : ℤ) ≤ (if 306 ≤ doe2 - (365 * y2 + y2 / 4 - y2 / 100) then (1 : ℤ) else 0) := by
    split_ifs <;> norm_num
  rcases lt_or_eq_of_le he with hlt | heq
  · have : 400 * (e1 + 1) ≤ 400 * e2 := by omega
    omega
  · have hd : doe1 ≤ doe2 := by rw [heq] at hz1; omega
    have hy : y1 ≤ y2 := by
      by_contra hc
      have hlt : y2 < y1 := by omega
      have := yearStart_lt y2 y1 hlt
      rcases t2 with t2 | ⟨t2, _⟩
      · omega
      · omega
    rcases lt_or_eq_of_le hy with hylt | hyeq
    · omega
    · rw [heq, hyeq]
      rw [hyeq] at i1
      split_ifs with g1 g2 g2
      · omega
      · exfalso; omega
      · omega
      · omega

/-- The year of 1 January of a year is that year. -/
theorem civilFromDays_january_first (y : ℤ) : (civilFromDays (daysFromCivil y 1 1)).1 = y := by
  obtain ⟨e1, doe1, y1, hz1, a1, b1, c1, f1, s1, t1, r1⟩ :=
    civilFromDays_year_spec (daysFromCivil y 1 1)
  rw [r1]
  simp only [daysFromCivil] at hz1
  norm_num at hz1
  obtain ⟨E, hE⟩ : ∃ E, E = (y - 1) / 400 := ⟨_, rfl⟩
  obtain ⟨Yo, hYo⟩ : ∃ Yo, Yo = (y - 1) % 400 := ⟨_, rfl⟩
  rw [← hE, ← hYo] at hz1
  have hy0 : 0 ≤ Yo := by omega
  have hy1 : Yo ≤ 399 := by omega
  have hsplit : y - 1 = 400 * E + Yo := by omega
  have hD0 : 0 ≤ Yo * 365 + Yo / 4 - Yo / 100 + 306 := by omega
  have hD1 : Yo * 365 + Yo / 4 - Yo / 100 + 306 ≤ 146096 := by omega
  have he : e1 = E := by omega
  have hd : doe1 = Yo * 365 + Yo / 4 - Yo / 100 + 306 := by rw [he] at hz1; omega
  have hyy : y1 = Yo := by
    rcases lt_trichotomy y1 Yo with hlt | heq | hgt
    · have := yearStart_lt y1 Yo hlt
      rcases t1 with t1 | ⟨t1, _⟩ <;> omega
    · exact heq
    · have := yearStart_lt Yo y1 hgt
      omega
  rw [hyy, he, hd]
  rw [if_pos (by omega)]
  omega

/-- A later instant is in the same or a later local year. -/
theorem getFullYear_mono (env : Env) (t₁ t₂ : ℤ) (h : t₁ ≤ t₂) :
    getFullYear env t₁ ≤ getFullYear env t₂ := by
  unfold getFullYear localCivil
  apply civilFromDays_year_mono
  exact Int.ediv_le_ediv (by decide) (add_le_add_right h _)

/-- An instant not before local midnight of 1 January of a year is in that
year or a later one. -/
theorem le_getFullYear_of_januaryFirst_le (env : Env) (y t : ℤ)
    (h : januaryFirst env y ≤ t) : y ≤ getFullYear env t := by
  unfold getFullYear localCivil
  have h1 := civilFromDays_january_first y
  have h2 : daysFromCivil y 1 1 ≤ (t + env.tzOffset) / msPerDay := by
    rw [Int.le_ediv_iff_mul_le (by decide)]
    have h' : daysFromCivil y 1 1 * msPerDay - env.tzOffset ≤ t := h
    exact sub_le_iff_le_add.mp h'
  have h3 := civilFromDays_year_mono _ _ h2
  rw [h1] at h3
  exact h3

/-! ## Bounds on an accepted quote -/

/-- The age, the premiums and the breakdown total of the package of `getQuote`,
as expressions. -/
theorem getQuote_fields_expr (env : Env) (data : QuoteRequest) :
    ∃ p b, getQuote env data = [p] ∧
      p.module.age = some
        (JSNum.ofInt (getFullYear env env.now - getFullYear env data.birth_date)) ∧
      p.module.premium_breakdown = some b ∧
      b.total_premium = p.suggested_premium ∧
      p.base_premium = p.suggested_premium ∧
      p.suggested_premium = JSNum.mathRound
        (if (!data.health_checks_updated) = true then
          JSNum.add (JSNum.mul (JSNum.mul (JSNum.div data.cover_amount (JSNum.ofInt 10000))
            (JSNum.ofInt (getFullYear env env.now - getFullYear env data.birth_date)))
            (JSNum.ofLookup (getQuote.speciesMultipliers data.species))) (JSNum.ofInt 25000)
        else JSNum.mul (JSNum.mul (JSNum.div data.cover_amount (JSNum.ofInt 10000))
            (JSNum.ofInt (getFullYear env env.now - getFullYear env data.birth_date)))
            (JSNum.ofLookup (getQuote.speciesMultipliers data.species))) :=
  ⟨_, _, rfl, rfl, rfl, rfl, rfl, rfl⟩

/-- A request body without error satisfies the condition on the five fields. -/
theorem validateQuoteRequest_accepted_fields (env : Env) (data : Payload)
    (h : (validateQuoteRequest env data).error = none) : QuoteFieldsValid env data := by
  unfold validateQuoteRequest at h
  rw [joiValidate_error_none] at h
  have hu : JSValue.undefined ∉
      [JSValue.str "Tyrannosaurus Rex", JSValue.str "Stegosaurus",
       JSValue.str "Velociraptor", JSValue.str "Brachiosaurus", JSValue.str "Iguanodon"] := by
    simp
  have e60 : env.now + 60 * 24 * 60 * 60 * 1000 = env.now + 60 * msPerDay := by
    unfold msPerDay; ring
  obtain ⟨h, _⟩ := h
  simp only [validateQuoteRequest.schema, List.forall_mem_cons, List.not_mem_nil,
    IsEmpty.forall_iff, implies_true, and_true, violations_date, violations_cover,
    violations_bool, violations_valid _ _ hu, newDate_minBirthYear, e60] at h
  obtain ⟨h1, h2, h3, h4, h5⟩ := h
  unfold QuoteFieldsValid
  refine ⟨h1, h2, h3, ?_, h5⟩
  simp only [List.mem_cons, List.mem_singleton, List.not_mem_nil, or_false] at h4 ⊢
  rcases h4 with h | h | h | h | h <;> exact ⟨_, h, by simp⟩

/-- The body of a quote request whose five fields satisfy the condition is
accepted. -/
theorem validateQuoteRequest_toPayload_accepts (env : Env) (data : QuoteRequest)
    (h : QuoteFieldsValid env data.toPayload) :
    (validateQuoteRequest env data.toPayload).error = none := by
  unfold validateQuoteRequest
  rw [joiValidate_error_none]
  have hu : JSValue.undefined ∉
      [JSValue.str "Tyrannosaurus Rex", JSValue.str "Stegosaurus",
       JSValue.str "Velociraptor", JSValue.str "Brachiosaurus", JSValue.str "Iguanodon"] := by
    simp
  have e60 : env.now + 60 * 24 * 60 * 60 * 1000 = env.now + 60 * msPerDay := by
    unfold msPerDay; ring
  obtain ⟨h1, h2, h3, ⟨s, hs, hmem⟩, h5⟩ := h
  constructor
  · simp only [validateQuoteRequest.schema, List.forall_mem_cons, List.not_mem_nil,
      IsEmpty.forall_iff, implies_true, and_true, violations_date, violations_cover,
      violations_bool, violations_valid _ _ hu, newDate_minBirthYear, e60]
    refine ⟨h1, h2, h3, ?_, h5⟩
    rw [hs]
    simp only [List.mem_cons, List.mem_singleton, List.not_mem_nil, or_false] at hmem ⊢
    rcases hmem with h | h | h | h | h <;> simp [h]
  · intro kv hkv
    simp only [QuoteRequest.toPayload, List.mem_cons, List.mem_singleton, List.not_mem_nil,
      or_false] at hkv
    rcases hkv with h | h | h | h | h <;> simp [h, validateQuoteRequest.schema]

/-- The premium of the specification for a cover amount up to 10,000,000, an
age up to 50 and a multiplier up to 1.32 is between 0 and 91000. -/
theorem specPremium_accepted_bounds (c a : ℕ) (m : ℚ) (flag : Bool) (hc : c ≤ 10 ^ 7)
    (ha : a ≤ 50) (hm0 : 0 ≤ m) (hm1 : m ≤ 132 / 100) :
    0 ≤ specPremium c a m flag ∧ specPremium c a m flag ≤ 91000 := by
  unfold specPremium
  have hcq : (c : ℚ) ≤ 10 ^ 7 := by exact_mod_cast hc
  have haq : (a : ℚ) ≤ 50 := by exact_mod_cast ha
  have hc0 : (0 : ℚ) ≤ c := by positivity
  have ha0 : (0 : ℚ) ≤ a := by positivity
  have h0 : 0 ≤ (c : ℚ) / 10000 * a * m := by positivity
  have h2 : (c : ℚ) / 10000 ≤ 1000 := by
    rw [div_le_iff₀ (by norm_num)]; linarith
  have h3 : (c : ℚ) / 10000 * a ≤ 1000 * 50 := mul_le_mul h2 haq ha0 (by norm_num)
  have h5 : (c : ℚ) / 10000 * a * m ≤ 1000 * 50 * (132 / 100) :=
    mul_le_mul h3 hm1 hm0 (by norm_num)
  have hs0 : (0 : ℚ) ≤ (if flag = true then 0 else 25000) := by split_ifs <;> norm_num
  have hs1 : (if flag = true then (0 : ℚ) else 25000) ≤ 25000 := by split_ifs <;> norm_num
  constructor
  · exact Int.floor_nonneg.mpr (by linarith)
  · have h6 := Int.floor_le ((c : ℚ) / 10000 * a * m + (if flag = true then 0 else 25000) + 1 / 2)
    have h7 : ((⌊(c : ℚ) / 10000 * a * m + (if flag = true then 0 else 25000) + 1 / 2⌋ : ℤ) : ℚ)
        < ((91001 : ℤ) : ℚ) := by
      push_cast; linarith
    have h8 : ⌊(c : ℚ) / 10000 * a * m + (if flag = true then 0 else 25000) + 1 / 2⌋
        < 91001 := by exact_mod_cast h7
    omega

/-- The multiplier of a listed species is between 0 and 1.32. -/
theorem specMultiplier_listed (s : String)
    (h : s ∈ ["Tyrannosaurus Rex", "Stegosaurus", "Velociraptor", "Brachiosaurus", "Iguanodon"]) :
    ∃ m, specMultiplier s = some m ∧ 0 ≤ m ∧ m ≤ 132 / 100 := by
  simp only [List.mem_cons, List.mem_singleton, List.not_mem_nil, or_false] at h
  rcases h with h | h | h | h | h
  · exact ⟨81 / 100, by rw [h]; simp [specMultiplier], by norm_num, by norm_num⟩
  · exact ⟨119 / 100, by rw [h]; simp [specMultiplier], by norm_num, by norm_num⟩
  · exact ⟨76 / 100, by rw [h]; simp [specMultiplier], by norm_num, by norm_num⟩
  · exact ⟨132 / 100, by rw [h]; simp [specMultiplier], by norm_num, by norm_num⟩
  · exact ⟨107 / 100, by rw [h]; simp [specMultiplier], by norm_num, by norm_num⟩

/-- The package of `getQuote` for an accepted request: its age, from 0 to 50,
and its premium, the premium of the specification. -/
theorem accepted_quote_values (env : Env) (data : QuoteRequest)
    (hacc : (validateQuoteRequest env data.toPayload).error = none) :
    ∃ (p : QuotePackage) (b : PremiumBreakdown) (c a : ℕ) (m : ℚ),
      getQuote env data = [p] ∧
      getFullYear env env.now - getFullYear env data.birth_date = a ∧ a ≤ 50 ∧ c ≤ 10 ^ 7 ∧
      0 ≤ m ∧ m ≤ 132 / 100 ∧
      p.module.age = some (JSNum.fin a) ∧
      p.module.premium_breakdown = some b ∧
      b.total_premium = p.suggested_premium ∧
      p.base_premium = p.suggested_premium ∧
      p.suggested_premium = JSNum.fin (specPremium c a m data.health_checks_updated) := by
  obtain ⟨_, ⟨n, hn, n0, n1⟩, ⟨t, ht, t0, t1⟩, ⟨s, hs, hmem⟩, _⟩ :=
    validateQuoteRequest_accepted_fields env data.toPayload hacc
  have g2 : data.toPayload.get "cover_amount" = JSValue.num data.cover_amount := rfl
  have g3 : data.toPayload.get "birth_date" = JSValue.date data.birth_date := rfl
  have g4 : data.toPayload.get "species" = JSValue.str data.species := rfl
  rw [g2] at hn
  rw [g3] at ht
  rw [g4] at hs
  have hcov : data.cover_amount = JSNum.fin n := JSValue.num.inj hn
  have hbirth : data.birth_date = t := JSValue.date.inj ht
  have hspec : data.species = s := JSValue.str.inj hs
  rw [← hbirth] at t0 t1
  have a0 := getFullYear_mono env _ _ t1
  have a1 := le_getFullYear_of_januaryFirst_le env _ _ t0
  obtain ⟨c, hc⟩ : ∃ c : ℕ, (c : ℤ) = n := ⟨n.toNat, Int.toNat_of_nonneg (by omega)⟩
  obtain ⟨a, ha⟩ : ∃ a : ℕ,
      (a : ℤ) = getFullYear env env.now - getFullYear env data.birth_date :=
    ⟨_, Int.toNat_of_nonneg (by omega)⟩
  obtain ⟨m, hsp, hm0, hm1⟩ := specMultiplier_listed s hmem
  rw [← hspec] at hsp
  obtain ⟨p, b, hp, hage, hb, htb, hbs, hval⟩ := getQuote_fields_expr env data
  obtain ⟨mi, M, hmm, hf, hq, _⟩ := multiplier_lookup data.species m hsp
  have hc7 : c ≤ 10 ^ 7 := by omega
  have ha50 : a ≤ 50 := by omega
  have hcq : data.cover_amount = JSNum.fin (c : ℚ) := by
    rw [hcov, ← hc]
    push_cast
    rfl
  refine ⟨p, b, c, a, m, hp, ha.symm, ha50, hc7, hm0, hm1, ?_, hb, htb, hbs, ?_⟩
  · rw [hage, ← ha, ofInt_natCast a (by omega)]
  · rw [hval, hcq, ← ha, hq, hmm]
    exact price_eval c a mi M hc7 (by omega) hf data.health_checks_updated

/-- C26: for every request accepted by `validateQuoteRequest` at the instant at
which `getQuote` prices it, the age is from 0 to 50 and the premium
(`total_premium`, `suggested_premium` and `base_premium`) is from 0 to 91000; a
request with a birth date in the current calendar year and health checks up to
date is quoted the premium 0. -/
theorem accepted_quote_bounds (env : Env) (data : QuoteRequest)
    (hacc : (validateQuoteRequest env data.toPayload).error = none) :
    (∃ (p : QuotePackage) (b : PremiumBreakdown) (age premium : ℤ),
      getQuote env data = [p] ∧
      getFullYear env env.now - getFullYear env data.birth_date = age ∧
      p.module.age = some (JSNum.fin age) ∧ 0 ≤ age ∧ age ≤ 50 ∧
      p.module.premium_breakdown = some b ∧ b.total_premium = JSNum.fin premium ∧
      p.suggested_premium = JSNum.fin premium ∧ p.base_premium = JSNum.fin premium ∧
      0 ≤ premium ∧ premium ≤ 91000) ∧
    (getFullYear env data.birth_date = getFullYear env env.now →
      data.health_checks_updated = true →
      ∃ p, getQuote env data = [p] ∧ p.suggested_premium = JSNum.fin 0) := by
  obtain ⟨p, b, c, a, m, hp, ha, ha50, hc7, hm0, hm1, hage, hb, htb, hbs, hval⟩ :=
    accepted_quote_values env data hacc
  obtain ⟨v0, v1⟩ := specPremium_accepted_bounds c a m data.health_checks_updated hc7 ha50
    hm0 hm1
  constructor
  · refine ⟨p, b, a, specPremium c a m data.health_checks_updated, hp, ha, ?_, by omega,
      by omega, hb, by rw [htb, hval], hval, by rw [hbs, hval], v0, v1⟩
    rw [hage]
    norm_num
  · intro hyear hflag
    refine ⟨p, hp, ?_⟩
    have ha0 : a = 0 := by omega
    rw [hval, hflag, ha0]
    unfold specPremium
    rw [if_pos rfl]
    norm_num

theorem newbornRequest_accepted :
    (validateQuoteRequest sampleEnv newbornRequest.toPayload).error = none := by
  apply validateQuoteRequest_toPayload_accepts
  refine ⟨⟨1738281600000, rfl, by decide, by decide⟩, ⟨5000000, ?_, by norm_num, by norm_num⟩,
    ⟨1735689600000, rfl, by decide, by decide⟩, ⟨"Tyrannosaurus Rex", rfl, by simp⟩,
    ⟨true, rfl⟩⟩
  have : newbornRequest.toPayload.get "cover_amount" = JSValue.num (JSNum.fin 5000000) := rfl
  rw [this]
  norm_num

/-- Witness of C26: a Tyrannosaurus Rex born at the instant of the quote, with
cover 5,000,000 and health checks up to date, is accepted and quoted 0. -/
theorem accepted_quote_bounds_witness :
    (validateQuoteRequest sampleEnv newbornRequest.toPayload).error = none ∧
    getFullYear sampleEnv newbornRequest.birth_date = getFullYear sampleEnv sampleEnv.now ∧
    newbornRequest.health_checks_updated = true ∧
    (∃ (p : QuotePackage) (b : PremiumBreakdown) (age premium : ℤ),
      getQuote sampleEnv newbornRequest = [p] ∧
      getFullYear sampleEnv sampleEnv.now - getFullYear sampleEnv newbornRequest.birth_date
        = age ∧
      p.module.age = some (JSNum.fin age) ∧ 0 ≤ age ∧ age ≤ 50 ∧
      p.module.premium_breakdown = some b ∧ b.total_premium = JSNum.fin premium ∧
      p.suggested_premium = JSNum.fin premium ∧ p.base_premium = JSNum.fin premium ∧
      0 ≤ premium ∧ premium ≤ 91000) ∧
    ∃ p, getQuote sampleEnv newbornRequest = [p] ∧ p.suggested_premium = JSNum.fin 0 :=
  ⟨newbornRequest_accepted, by decide, rfl,
    (accepted_quote_bounds sampleEnv newbornRequest newbornRequest_accepted).1,
    (accepted_quote_bounds sampleEnv newbornRequest newbornRequest_accepted).2 (by decide) rfl⟩

/-! ## Composition of the alteration phases -/

/-- C27: for every policy and params, `applyAlteration` given the package built
by `getAlteration` yields an altered policy whose `sum_assured` and
`module.cover_amount` are `params.cover_amount`, whose `base_premium` and
`monthly_premium` are the repriced premium of the package, and whose
`module.old_cover_amount` and `module.old_premium` are the `sum_assured` and the
`monthly_premium` of the original policy. -/
theorem alteration_phases_compose (policy : Policy) (policyholder : Policyholder)
    (params : AlterationParams) :
    ∃ pkg altered,
      getAlteration "update_cover" policy policyholder params = Except.ok pkg ∧
      applyAlteration "update_cover" policy policyholder pkg = Except.ok altered ∧
      altered.sum_assured = params.cover_amount ∧
      altered.module.cover_amount = some params.cover_amount ∧
      altered.base_premium = altered.monthly_premium ∧
      altered.monthly_premium = pkg.monthly_premium ∧
      pkg.monthly_premium = JSNum.mathRound
        (if (!truthy policy.module.health_checks_updated) = true then
          JSNum.add (JSNum.mul (JSNum.mul (JSNum.div params.cover_amount (JSNum.ofInt 10000))
            (JSNum.ofLookup policy.module.age))
            (JSNum.ofLookup (getAlteration.speciesMultipliers policy.module.species)))
            (JSNum.ofInt 25000)
        else JSNum.mul (JSNum.mul (JSNum.div params.cover_amount (JSNum.ofInt 10000))
            (JSNum.ofLookup policy.module.age))
            (JSNum.ofLookup (getAlteration.speciesMultipliers policy.module.species))) ∧
      altered.module.old_cover_amount = some policy.sum_assured ∧
      altered.module.old_premium = some policy.monthly_premium := by
  obtain ⟨pkg, hp, hsum, hprem, hmod, _⟩ :=
    getAlteration_update_cover policy policyholder params
  have happly : applyAlteration "update_cover" policy policyholder pkg = Except.ok
      { package_name := policy.package_name
        sum_assured := pkg.sum_assured
        base_premium := pkg.monthly_premium
        monthly_premium := pkg.monthly_premium
        end_date := moment policy.end_date
        start_date := moment (some policy.start_date)
        charges := policy.charges
        module := pkg.module } := by
    unfold applyAlteration
    rw [if_pos rfl]
  refine ⟨pkg, _, hp, happly, hsum, ?_, rfl, rfl, hprem, ?_, ?_⟩
  · show pkg.module.cover_amount = _
    rw [hmod]
  · show pkg.module.old_cover_amount = _
    rw [hmod]
  · show pkg.module.old_premium = _
    rw [hmod]

/-! ## The premium breakdown under an alteration -/

/-- The module and the premium of the package of `getQuote`, as expressions. -/
theorem getQuote_module_expr (env : Env) (data : QuoteRequest) :
    ∃ p b, getQuote env data = [p] ∧
      p.module.age = some
        (JSNum.ofInt (getFullYear env env.now - getFullYear env data.birth_date)) ∧
      p.module.species = some data.species ∧
      p.module.health_checks_updated = some data.health_checks_updated ∧
      p.module.premium_breakdown = some b ∧
      b.total_premium = p.suggested_premium ∧
      p.suggested_premium = JSNum.mathRound
        (if (!data.health_checks_updated) = true then
          JSNum.add (JSNum.mul (JSNum.mul (JSNum.div data.cover_amount (JSNum.ofInt 10000))
            (JSNum.ofInt (getFullYear env env.now - getFullYear env data.birth_date)))
            (JSNum.ofLookup (getQuote.speciesMultipliers data.species))) (JSNum.ofInt 25000)
        else JSNum.mul (JSNum.mul (JSNum.div data.cover_amount (JSNum.ofInt 10000))
            (JSNum.ofInt (getFullYear env env.now - getFullYear env data.birth_date)))
            (JSNum.ofLookup (getQuote.speciesMultipliers data.species))) :=
  ⟨_, _, rfl, rfl, rfl, rfl, rfl, rfl, rfl⟩

/-- C28: `getAlteration` carries `policy.module.premium_breakdown` into the
alteration package unchanged; for the policy of the quote of a 20-year-old
Tyrannosaurus Rex with cover 9,000,000 (total premium 14580) and the new cover
amount 7,500,000, the `total_premium` of the breakdown in the package, 14580,
differs from the package's `monthly_premium`, 12150. -/
theorem alteration_keeps_premium_breakdown :
    (∀ (policy : Policy) (policyholder : Policyholder) (params : AlterationParams),
      ∃ pkg, getAlteration "update_cover" policy policyholder params = Except.ok pkg ∧
        pkg.module.premium_breakdown = policy.module.premium_breakdown) ∧
    ∃ p pkg b, getQuote sampleEnv tRexQuoteRequest = [p] ∧
      getAlteration "update_cover" (policyFromQuote p 1738281600000) samplePolicyholder
        sampleParams = Except.ok pkg ∧
      p.module.premium_breakdown = some b ∧
      pkg.module.premium_breakdown = some b ∧
      b.total_premium = JSNum.fin 14580 ∧
      pkg.monthly_premium = JSNum.fin 12150 ∧
      b.total_premium ≠ pkg.monthly_premium := by
  constructor
  · intro policy policyholder params
    obtain ⟨pkg, hp, _, _, hmod, _⟩ := getAlteration_update_cover policy policyholder params
    exact ⟨pkg, hp, by rw [hmod]⟩
  · obtain ⟨p, b, hp, hage, hspecies, hflag, hb, htb, hval⟩ :=
      getQuote_module_expr sampleEnv tRexQuoteRequest
    have hm : specMultiplier "Tyrannosaurus Rex" = some (81 / 100) := by simp [specMultiplier]
    have hyear : getFullYear sampleEnv sampleEnv.now
        - getFullYear sampleEnv tRexQuoteRequest.birth_date = ((20 : ℕ) : ℤ) := by
      rw [tRexQuoteRequest_age]
      norm_num
    rw [hyear] at hage hval
    obtain ⟨mi, M, hmm, hf, hq, _⟩ := multiplier_lookup "Tyrannosaurus Rex" (81 / 100) hm
    have hsp : tRexQuoteRequest.species = "Tyrannosaurus Rex" := rfl
    have hcov : tRexQuoteRequest.cover_amount = JSNum.fin ((9000000 : ℕ) : ℚ) := by
      have : tRexQuoteRequest.cover_amount = JSNum.fin 9000000 := rfl
      rw [this]
      norm_num
    have hfl : tRexQuoteRequest.health_checks_updated = true := rfl
    have hv1 : specPremium ((9000000 : ℕ) : ℚ) ((20 : ℕ) : ℚ) (81 / 100) true = 14580 := by
      unfold specPremium
      rw [if_pos rfl, Int.floor_eq_iff]
      constructor <;> norm_num
    have hv2 : specPremium ((7500000 : ℕ) : ℚ) ((20 : ℕ) : ℚ) (81 / 100) true = 12150 := by
      unfold specPremium
      rw [if_pos rfl, Int.floor_eq_iff]
      constructor <;> norm_num
    have hquote : p.suggested_premium = JSNum.fin 14580 := by
      have hl : JSNum.ofLookup (some (JSNum.fin M)) = JSNum.fin M := rfl
      rw [hval, hcov, hsp, hfl, hq, hl,
        price_eval 9000000 20 mi M (by norm_num) (by norm_num) hf true, ← hmm, hv1]
      norm_num
    have hparams : sampleParams.cover_amount = JSNum.fin ((7500000 : ℕ) : ℚ) := by
      have : sampleParams.cover_amount = JSNum.fin 7500000 := rfl
      rw [this]
      norm_num
    obtain ⟨pkg, hk, hprem, hmod⟩ := getAlteration_premium_value
      (policyFromQuote p 1738281600000) samplePolicyholder sampleParams 7500000 20 (81 / 100)
      "Tyrannosaurus Rex" true hparams (by norm_num) hage (by norm_num)
      (by rw [← hsp]; exact hspecies) hm (by rw [← hfl]; exact hflag)
    have hpb : pkg.module.premium_breakdown = some b := by
      rw [hmod]
      exact hb
    have ht : b.total_premium = JSNum.fin 14580 := by rw [htb, hquote]
    have hk2 : pkg.monthly_premium = JSNum.fin 12150 := by
      rw [hprem, hv2]
      norm_num
    refine ⟨p, pkg, b, hp, hk, hb, hpb, ht, hk2, ?_⟩
    rw [ht, hk2]
    intro h
    have h' := JSNum.fin.inj h
    norm_num at h'

/-! ## Convergence of the claim flags -/

theorem pendingFlags_le (claim : Claim) (policy : Policy) : pendingFlags claim policy ≤ 2 := by
  unfold pendingFlags
  split_ifs <;> omega

/-- One round of claim processing: either no action is emitted, no guard holds
and the policy is unchanged, or one action is emitted and one guard fewer
holds afterwards. -/
theorem claimRound_spec (claim : Claim) (policyholder : Policyholder) (policy : Policy) :
    (afterClaimBlockUpdated claim policy policyholder = none ∧
      pendingFlags claim policy = 0 ∧ claimRound claim policyholder policy = policy) ∨
    (∃ a, afterClaimBlockUpdated claim policy policyholder = some [a] ∧
      pendingFlags claim (claimRound claim policyholder policy) + 1
        = pendingFlags claim policy) := by
  rcases afterClaimBlockUpdated_cases claim policy policyholder with
    ⟨h1, h⟩ | ⟨n1, h2, h⟩ | ⟨n1, n2, h⟩
  · right
    refine ⟨_, h, ?_⟩
    unfold claimRound
    rw [h]
    unfold pendingFlags
    rw [if_pos h1]
    have e1 : ¬ (claim.block_states.extraction_fulfillment_request.fulfillment_request_id.truthy
        = true ∧ truthy (some true) = false) := by simp [truthy]
    simp only
    rw [if_neg e1]
    omega
  · right
    refine ⟨_, h, ?_⟩
    unfold claimRound
    rw [h]
    unfold pendingFlags
    rw [if_neg n1, if_pos h2]
    have e2 : ¬ (claim.block_states.fence_repair_fulfillment_request.fulfillment_request_id.truthy
        = true ∧ truthy (some true) = false) := by simp [truthy]
    simp only
    rw [if_neg e2]
  · left
    refine ⟨h, ?_, ?_⟩
    · unfold pendingFlags
      rw [if_neg n1, if_neg n2]
    · unfold claimRound
      rw [h]

/-- A round of claim processing keeps a flag that is true. -/
theorem claimRound_keeps_flags (claim : Claim) (policyholder : Policyholder) (policy : Policy) :
    (policy.module.extraction_has_been_claimed = some true →
      (claimRound claim policyholder policy).module.extraction_has_been_claimed = some true) ∧
    (policy.module.fence_repair_has_been_claimed = some true →
      (claimRound claim policyholder policy).module.fence_repair_has_been_claimed
        = some true) := by
  rcases afterClaimBlockUpdated_cases claim policy policyholder with
    ⟨_, h⟩ | ⟨_, _, h⟩ | ⟨_, _, h⟩ <;>
  · unfold claimRound
    rw [h]
    exact ⟨fun hx => by first | exact hx | rfl, fun hx => by first | exact hx | rfl⟩

theorem actionsEmitted_add_pending (claim : Claim) (policyholder : Policyholder) (n : ℕ) :
    ∀ policy : Policy,
      actionsEmitted claim policyholder n policy
        + pendingFlags claim (claimRounds claim policyholder n policy)
        = pendingFlags claim policy := by
  induction n with
  | zero =>
    intro policy
    simp [actionsEmitted, claimRounds]
  | succ n ih =>
    intro policy
    have hr := ih (claimRound claim policyholder policy)
    rw [actionsEmitted, claimRounds]
    rcases claimRound_spec claim policyholder policy with ⟨h, h0, hsame⟩ | ⟨a, h, hdec⟩
    · rw [h]
      rw [hsame] at hr ⊢
      simp only
      omega
    · rw [h]
      simp only [List.length_singleton]
      omega

theorem pendingFlags_claimRounds (claim : Claim) (policyholder : Policyholder) (n : ℕ) :
    ∀ policy : Policy,
      pendingFlags claim (claimRounds claim policyholder n policy)
        = pendingFlags claim policy - n := by
  induction n with
  | zero =>
    intro policy
    simp [claimRounds]
  | succ n ih =>
    intro policy
    rw [claimRounds, ih (claimRound claim policyholder policy)]
    rcases claimRound_spec claim policyholder policy with ⟨_, h0, hsame⟩ | ⟨a, _, hdec⟩
    · rw [hsame, h0]
      omega
    · omega

theorem claimRounds_keeps_flags (claim : Claim) (policyholder : Policyholder) (k : ℕ) :
    ∀ policy : Policy,
      (policy.module.extraction_has_been_claimed = some true →
        (claimRounds claim policyholder k policy).module.extraction_has_been_claimed
          = some true) ∧
      (policy.module.fence_repair_has_been_claimed = some true →
        (claimRounds claim policyholder k policy).module.fence_repair_has_been_claimed
          = some true) := by
  induction k with
  | zero =>
    intro policy
    exact ⟨fun h => h, fun h => h⟩
  | succ k ih =>
    intro policy
    rw [claimRounds]
    have h1 := claimRound_keeps_flags claim policyholder policy
    have h2 := ih (claimRound claim policyholder policy)
    exact ⟨fun h => h2.1 (h1.1 h), fun h => h2.2 (h1.2 h)⟩

theorem claimRounds_add (claim : Claim) (policyholder : Policyholder) (n k : ℕ) :
    ∀ policy : Policy,
      claimRounds claim policyholder (n + k) policy
        = claimRounds claim policyholder k (claimRounds claim policyholder n policy) := by
  induction n with
  | zero =>
    intro policy
    simp [claimRounds]
  | succ n ih =>
    intro policy
    rw [show n + 1 + k = (n + k) + 1 by omega, claimRounds, claimRounds, ih]

/-- C29: for a fixed claim holding both sub-blocks and any starting policy,
invoking `afterClaimBlockUpdated` repeatedly and replacing `policy.module` by
the module of the emitted action yields at most two actions in total; from the
third invocation on no action is returned; and a flag that is true after some
round is true after every later round. -/
theorem claim_flag_updates_converge (claim : Claim) (policyholder : Policyholder)
    (policy : Policy) :
    (∀ n, actionsEmitted claim policyholder n policy ≤ 2) ∧
    (∀ n, afterClaimBlockUpdated claim (claimRounds claim policyholder (n + 2) policy)
      policyholder = none) ∧
    (∀ n k,
      (claimRounds claim policyholder n policy).module.extraction_has_been_claimed
        = some true →
      (claimRounds claim policyholder (n + k) policy).module.extraction_has_been_claimed
        = some true) ∧
    (∀ n k,
      (claimRounds claim policyholder n policy).module.fence_repair_has_been_claimed
        = some true →
      (claimRounds claim policyholder (n + k) policy).module.fence_repair_has_been_claimed
        = some true) := by
  refine ⟨?_, ?_, ?_, ?_⟩
  · intro n
    have h := actionsEmitted_add_pending claim policyholder n policy
    have h2 := pendingFlags_le claim policy
    omega
  · intro n
    have h := pendingFlags_claimRounds claim policyholder (n + 2) policy
    have h2 := pendingFlags_le claim policy
    rcases claimRound_spec claim policyholder (claimRounds claim policyholder (n + 2) policy)
      with ⟨hnone, _, _⟩ | ⟨a, _, hdec⟩
    · exact hnone
    · omega
  · intro n k h
    rw [claimRounds_add]
    exact (claimRounds_keeps_flags claim policyholder k _).1 h
  · intro n k h
    rw [claimRounds_add]
    exact (claimRounds_keeps_flags claim policyholder k _).2 h

theorem sampleClaim_first_round :
    (claimRounds sampleClaim samplePolicyholder 1 samplePolicy).module.extraction_has_been_claimed
      = some true := by
  decide

theorem sampleClaim_second_round :
    (claimRounds sampleClaim samplePolicyholder 2
      samplePolicy).module.fence_repair_has_been_claimed = some true := by
  decide

/-- Witness of C29: a claim with both fulfillment requests against
`samplePolicy`: two actions are emitted, the extraction flag is true from the
first round on and the fence-repair flag from the second. -/
theorem claim_flag_updates_converge_witness :
    (claimRounds sampleClaim samplePolicyholder 1 samplePolicy).module.extraction_has_been_claimed
      = some true ∧
    (claimRounds sampleClaim samplePolicyholder 2
      samplePolicy).module.fence_repair_has_been_claimed = some true ∧
    actionsEmitted sampleClaim samplePolicyholder 5 samplePolicy ≤ 2 ∧
    afterClaimBlockUpdated sampleClaim (claimRounds sampleClaim samplePolicyholder (0 + 2)
      samplePolicy) samplePolicyholder = none ∧
    (claimRounds sampleClaim samplePolicyholder (1 + 4)
      samplePolicy).module.extraction_has_been_claimed = some true ∧
    (claimRounds sampleClaim samplePolicyholder (2 + 3)
      samplePolicy).module.fence_repair_has_been_claimed = some true :=
  ⟨sampleClaim_first_round, sampleClaim_second_round,
    (claim_flag_updates_converge sampleClaim samplePolicyholder samplePolicy).1 5,
    (claim_flag_updates_converge sampleClaim samplePolicyholder samplePolicy).2.1 0,
    (claim_flag_updates_converge sampleClaim samplePolicyholder samplePolicy).2.2.1 1 4
      sampleClaim_first_round,
    (claim_flag_updates_converge sampleClaim samplePolicyholder samplePolicy).2.2.2 2 3
      sampleClaim_second_round⟩

end Dinosure
